import Mathlib

/-!
Verification development for the ogkr chart-parsing pipeline.

The Rust source is shallowly embedded:
* machine integers `u32` / `i32` become `Nat` / `Int` (their parsers enforce the
  Rust range checks, and no embedded operation can overflow afterwards);
* `f32` values are carried as their IEEE-754 bit patterns (`Nat`), exactly as the
  Rust code itself does in the lex/raw layers (`f32::to_bits`);
* fallible functions return `Except`; functions that can also panic
  (assertion failures, out-of-bounds indexing, `unwrap` on `None`) return
  `PResult`, whose `panic` constructor models a Rust panic;
* `HashMap` becomes an association list with replace-on-insert semantics
  (`alInsert`); the unspecified iteration order of `HashMap::values` is
  determinized to insertion order, which no theorem below depends on;
* `BTreeMap` becomes a key-sorted association list;
* error messages built with `format!` are modelled structurally: the error
  constructor carries the interpolated values instead of a rendered string;
  plain string-literal messages are carried verbatim.  Line/column positions
  in lex errors are omitted: no statement below inspects them.
-/

namespace Ogkr

set_option synthInstance.maxSize 1000

deriving instance DecidableEq for Except

/-- Result of a computation in the parse/analysis layers: `ok`, a typed
`ParseError`-style error, or a Rust panic. -/
inductive PResult (ε : Type) (α : Type) where
  | ok (a : α)
  | err (e : ε)
  | panic
  deriving DecidableEq

namespace PResult

def bind {ε α β : Type} : PResult ε α → (α → PResult ε β) → PResult ε β
  | .ok a, f => f a
  | .err e, _ => .err e
  | .panic, _ => .panic

instance {ε : Type} : Monad (PResult ε) where
  pure := .ok
  bind := bind

end PResult

/-- Lexical error (`LexError`); source positions are omitted because no
claim inspects them. -/
inductive LexErr where
  | unknownCommand
  | expectedToken (message : String)
  deriving DecidableEq

/-! ## Numeric token parsing (models of the Rust std `str::parse` calls) -/

def digitsToNat? (cs : List Char) : Option Nat :=
  if cs.isEmpty then none
  else if cs.all Char.isDigit then
    some (cs.foldl (fun a c => a * 10 + (c.toNat - 48)) 0)
  else none

/-- Model of `str::parse::<u32>()`: optional leading `+`, decimal digits,
range check. -/
def parseU32 (s : String) : Option Nat :=
  let cs := match s.data with
    | '+' :: rest => rest
    | cs => cs
  match digitsToNat? cs with
  | some v => if v < 4294967296 then some v else none
  | none => none

/-- Model of `str::parse::<i32>()`: optional sign, decimal digits, range check. -/
def parseI32 (s : String) : Option Int :=
  match s.data with
  | '-' :: rest =>
    match digitsToNat? rest with
    | some v => if v ≤ 2147483648 then some (-(v : Int)) else none
    | none => none
  | '+' :: rest =>
    match digitsToNat? rest with
    | some v => if v < 2147483648 then some (v : Int) else none
    | none => none
  | cs =>
    match digitsToNat? cs with
    | some v => if v < 2147483648 then some (v : Int) else none
    | none => none

/-- Fuel-driven base-2 logarithm (floor); with `n ≤ fuel` this is exactly
`Nat.log2`, written with structural recursion so that concrete inputs
evaluate inside the kernel. -/
def log2F : Nat → Nat → Nat
  | fuel + 1, n => if n ≥ 2 then log2F fuel (n / 2) + 1 else 0
  | 0, _ => 0

/-- IEEE-754 binary32 bit pattern of a natural number, round to nearest,
ties to even.  Used to model `f32::to_bits` after parsing. -/
def natToF32Bits (n : Nat) : Nat :=
  if n = 0 then 0
  else
    let e := log2F n n
    if e ≥ 128 then 2139095040
    else if e ≤ 23 then (e + 127) * 8388608 + (n * 2 ^ (23 - e) - 8388608)
    else
      let shift := e - 23
      let q := n / 2 ^ shift
      let r := n % 2 ^ shift
      let q' := if 2 * r > 2 ^ shift ∨ (2 * r = 2 ^ shift ∧ q % 2 = 1) then q + 1 else q
      if q' = 16777216 then
        if e + 1 ≥ 128 then 2139095040 else (e + 128) * 8388608
      else (e + 127) * 8388608 + (q' - 8388608)

/-- Model of `str::parse::<f32>().to_bits()`, restricted to unsigned decimal
integer literals — the only float syntax exercised by the chart sources
analysed in this development.  Other float syntaxes are treated as a parse
failure; no theorem below depends on inputs using them. -/
def parseF32Bits (s : String) : Option Nat :=
  match digitsToNat? s.data with
  | some v => some (natToF32Bits v)
  | none => none

/-! ## Cursor (`lex/cursor.rs`)

The cursor is modelled by its unconsumed character suffix.  The
line/column counters and `current_token_start` are used only to build the
error positions and log messages that this embedding omits.
Separators are ASCII whitespace (Lean's `Char.isWhitespace`); the chart
sources considered here contain no exotic Unicode whitespace. -/

abbrev Cursor := List Char

def isSep (c : Char) : Bool := c.isWhitespace

/-- `Cursor::peek_token`. -/
def peekToken (c : Cursor) : Option String :=
  let rest := List.dropWhile isSep c
  let tok := List.takeWhile (fun ch => !isSep ch) rest
  if tok.isEmpty then none else some (String.mk tok)

/-- `Cursor::next_token`: token plus advanced cursor. -/
def nextToken (c : Cursor) : Option (String × Cursor) :=
  let rest := List.dropWhile isSep c
  let tok := List.takeWhile (fun ch => !isSep ch) rest
  if tok.isEmpty then none else some (String.mk tok, rest.drop tok.length)

def trimChars (cs : List Char) : List Char :=
  ((cs.dropWhile isSep).reverse.dropWhile isSep).reverse

/-- `Cursor::current_remaining_line`: rest of the current line (trimmed, the
`\r\n` case is subsumed by the final trim), cursor advanced to the newline. -/
def currentRemainingLine (c : Cursor) : String × Cursor :=
  let line := List.takeWhile (fun ch => ch ≠ '\n') c
  (String.mk (trimChars line), c.drop line.length)

/-- `Cursor::is_end`. -/
def cursorIsEnd (c : Cursor) : Bool := (peekToken c).isNone

/-- `str::starts_with('[')` on the section-name check, written structurally
on the character list (the std `String.startsWith` does not kernel-reduce). -/
def startsWithBracket (s : String) : Bool :=
  match s.data with
  | ch :: _ => ch = '['
  | [] => false

/-! ## Command payloads (`lex/command.rs`)

`u32` fields are `Nat`, `i32` fields are `Int`, `f32`-as-`u32`-bits fields
are `Nat` bit patterns, `String` fields stay `String`. -/

namespace Cmd

structure Version where
  major : Nat
  minor : Nat
  release : Nat
  deriving DecidableEq

structure Creator where
  name : String
  deriving DecidableEq

/-- Values are u32 bit patterns of f32s. -/
structure BpmDefinition where
  first : Nat
  common : Nat
  minimum : Nat
  maximum : Nat
  deriving DecidableEq

structure MeterDefinition where
  numBeats : Nat
  noteValue : Nat
  deriving DecidableEq

structure TickResolution where
  resolution : Nat
  deriving DecidableEq

structure XResolution where
  resolution : Nat
  deriving DecidableEq

structure ClickDefinition where
  value : Nat
  deriving DecidableEq

structure Tutorial where
  value : Nat
  deriving DecidableEq

structure BulletDamage where
  damage : Nat
  deriving DecidableEq

structure HardBulletDamage where
  damage : Nat
  deriving DecidableEq

structure DangerBulletDamage where
  damage : Nat
  deriving DecidableEq

structure BeamDamage where
  damage : Nat
  deriving DecidableEq

structure TotalNotes where
  value : Nat
  deriving DecidableEq

structure TotalTapNotes where
  value : Nat
  deriving DecidableEq

structure TotalHoldNotes where
  value : Nat
  deriving DecidableEq

structure TotalSideNotes where
  value : Nat
  deriving DecidableEq

structure TotalSideHoldNotes where
  value : Nat
  deriving DecidableEq

structure TotalFlickNotes where
  value : Nat
  deriving DecidableEq

structure TotalBellNotes where
  value : Nat
  deriving DecidableEq

structure ProgJudgeBpm where
  value : Nat
  deriving DecidableEq

inductive BulletShooter where
  | endPosition
  | enemy
  | center
  deriving DecidableEq

inductive BulletTarget where
  | player
  | fixedPosition
  deriving DecidableEq

inductive BulletSize where
  | normal
  | large
  deriving DecidableEq

inductive BulletType where
  | circle
  | square
  | needle
  deriving DecidableEq

inductive BulletDamageType where
  | normal
  | hard
  | danger
  deriving DecidableEq

structure BulletPalette where
  id : String
  shooter : BulletShooter
  targetXOffset : Int
  target : BulletTarget
  speed : Nat
  size : Option BulletSize
  ty : Option BulletType
  randomPositionOffset : Option Int
  damageType : Option BulletDamageType
  deriving DecidableEq

/-- Unused command. -/
structure Btp where
  deriving DecidableEq

structure CommandTime where
  measure : Nat
  offset : Nat
  deriving DecidableEq

structure BpmChange where
  time : CommandTime
  bpm : Nat
  deriving DecidableEq

structure MeterChange where
  time : CommandTime
  numBeats : Nat
  noteValue : Nat
  deriving DecidableEq

structure ClickSound where
  time : CommandTime
  deriving DecidableEq

structure Soflan where
  time : CommandTime
  duration : Nat
  currentSpeedMultiplier : Nat
  deriving DecidableEq

inductive EnemyWave where
  | wave1
  | wave2
  | boss
  deriving DecidableEq

structure EnemySet where
  time : CommandTime
  wave : EnemyWave
  deriving DecidableEq

structure WallPoint where
  groupId : Nat
  time : CommandTime
  xPosition : Int
  deriving DecidableEq

structure LanePoint where
  groupId : Nat
  time : CommandTime
  xPosition : Int
  deriving DecidableEq

structure ColorfulLanePoint where
  groupId : Nat
  time : CommandTime
  xPosition : Int
  color : Nat
  brightness : Nat
  deriving DecidableEq

structure EnemyLanePoint where
  groupId : Nat
  time : CommandTime
  xPosition : Int
  deriving DecidableEq

/-- `impl From<EnemyLanePoint> for LanePoint`. -/
def LanePoint.ofEnemyLanePoint (p : EnemyLanePoint) : LanePoint :=
  { groupId := p.groupId, time := p.time, xPosition := p.xPosition }

/-- Used for lane disappearance and lane block. -/
structure LaneEvent where
  groupId : Nat
  startTime : CommandTime
  startXPosition : Int
  startXOffset : Int
  endTime : CommandTime
  endXPosition : Int
  endXOffset : Int
  deriving DecidableEq

structure Bullet where
  palleteId : String
  time : CommandTime
  xPosition : Int
  damageType : BulletDamageType
  deriving DecidableEq

structure BeamPoint where
  recordId : Nat
  time : CommandTime
  xPosition : Int
  width : Nat
  deriving DecidableEq

structure ObliqueBeamPoint where
  recordId : Nat
  time : CommandTime
  xPosition : Int
  width : Nat
  shootPositionXOffset : Int
  deriving DecidableEq

structure Bell where
  time : CommandTime
  xPosition : Int
  bulletPaletteId : Option String
  deriving DecidableEq

inductive FlickDirection where
  | left
  | right
  deriving DecidableEq

structure Flick where
  time : CommandTime
  xPosition : Int
  direction : FlickDirection
  deriving DecidableEq

structure Tap where
  laneGroupId : Nat
  time : CommandTime
  xPosition : Int
  xOffset : Int
  deriving DecidableEq

structure Hold where
  laneGroupId : Nat
  startTime : CommandTime
  startXPosition : Int
  startXOffset : Int
  endTime : CommandTime
  endXPosition : Int
  endXOffset : Int
  deriving DecidableEq

/-- `BulletDamageType::from_str`; the source's dummy error collapses to
`LexErr.expectedToken`. -/
def BulletDamageType.fromStr (s : String) : Except LexErr BulletDamageType :=
  match s with
  | "NML" => .ok .normal
  | "STR" => .ok .hard
  | "DNG" => .ok .danger
  | _ => .error (.expectedToken "internal dummy error")

end Cmd

/-! ## Tokens and the lexer (`lex/token.rs`) -/

inductive Token where
  | sectionName
  | version (v : Cmd.Version)
  | creator (c : Cmd.Creator)
  | bpmDefinition (b : Cmd.BpmDefinition)
  | meterDefinition (m : Cmd.MeterDefinition)
  | tickResolution (t : Cmd.TickResolution)
  | xResolution (x : Cmd.XResolution)
  | clickDefinition (c : Cmd.ClickDefinition)
  | tutorial (t : Cmd.Tutorial)
  | bulletDamage (b : Cmd.BulletDamage)
  | hardBulletDamage (b : Cmd.HardBulletDamage)
  | dangerBulletDamage (b : Cmd.DangerBulletDamage)
  | beamDamage (b : Cmd.BeamDamage)
  | progJudgeBpm (p : Cmd.ProgJudgeBpm)
  | totalNotes (t : Cmd.TotalNotes)
  | totalTapNotes (t : Cmd.TotalTapNotes)
  | totalHoldNotes (t : Cmd.TotalHoldNotes)
  | totalSideNotes (t : Cmd.TotalSideNotes)
  | totalSideHoldNotes (t : Cmd.TotalSideHoldNotes)
  | totalFlickNotes (t : Cmd.TotalFlickNotes)
  | totalBellNotes (t : Cmd.TotalBellNotes)
  | bulletPalette (b : Cmd.BulletPalette)
  | btp (b : Cmd.Btp)
  | bpmChange (b : Cmd.BpmChange)
  | meterChange (m : Cmd.MeterChange)
  | soflan (s : Cmd.Soflan)
  | clickSound (c : Cmd.ClickSound)
  | enemySet (e : Cmd.EnemySet)
  | wallLeftStart (p : Cmd.WallPoint)
  | wallLeftNext (p : Cmd.WallPoint)
  | wallLeftEnd (p : Cmd.WallPoint)
  | wallRightStart (p : Cmd.WallPoint)
  | wallRightNext (p : Cmd.WallPoint)
  | wallRightEnd (p : Cmd.WallPoint)
  | laneLeftStart (p : Cmd.LanePoint)
  | laneLeftNext (p : Cmd.LanePoint)
  | laneLeftEnd (p : Cmd.LanePoint)
  | laneCenterStart (p : Cmd.LanePoint)
  | laneCenterNext (p : Cmd.LanePoint)
  | laneCenterEnd (p : Cmd.LanePoint)
  | laneRightStart (p : Cmd.LanePoint)
  | laneRightNext (p : Cmd.LanePoint)
  | laneRightEnd (p : Cmd.LanePoint)
  | colorfulLaneStart (p : Cmd.ColorfulLanePoint)
  | colorfulLaneNext (p : Cmd.ColorfulLanePoint)
  | colorfulLaneEnd (p : Cmd.ColorfulLanePoint)
  | enemyLaneStart (p : Cmd.EnemyLanePoint)
  | enemyLaneNext (p : Cmd.EnemyLanePoint)
  | enemyLaneEnd (p : Cmd.EnemyLanePoint)
  | laneDisappearance (e : Cmd.LaneEvent)
  | laneBlock (e : Cmd.LaneEvent)
  | bullet (b : Cmd.Bullet)
  | beamStart (p : Cmd.BeamPoint)
  | beamNext (p : Cmd.BeamPoint)
  | beamEnd (p : Cmd.BeamPoint)
  | obliqueBeamStart (p : Cmd.ObliqueBeamPoint)
  | obliqueBeamNext (p : Cmd.ObliqueBeamPoint)
  | obliqueBeamEnd (p : Cmd.ObliqueBeamPoint)
  | bell (b : Cmd.Bell)
  | flick (f : Cmd.Flick)
  | criticalFlick (f : Cmd.Flick)
  | tap (t : Cmd.Tap)
  | criticalTap (t : Cmd.Tap)
  | hold (h : Cmd.Hold)
  | criticalHold (h : Cmd.Hold)

/-- Structural equality on tokens, written with a default arm so that the
compiled matcher stays small (a derived `DecidableEq` instance would expand
to a quadratically large, deeply nested case tree). -/
def Token.beq : Token → Token → Bool
  | .sectionName, .sectionName => true
  | .version a, .version b => a == b
  | .creator a, .creator b => a == b
  | .bpmDefinition a, .bpmDefinition b => a == b
  | .meterDefinition a, .meterDefinition b => a == b
  | .tickResolution a, .tickResolution b => a == b
  | .xResolution a, .xResolution b => a == b
  | .clickDefinition a, .clickDefinition b => a == b
  | .tutorial a, .tutorial b => a == b
  | .bulletDamage a, .bulletDamage b => a == b
  | .hardBulletDamage a, .hardBulletDamage b => a == b
  | .dangerBulletDamage a, .dangerBulletDamage b => a == b
  | .beamDamage a, .beamDamage b => a == b
  | .progJudgeBpm a, .progJudgeBpm b => a == b
  | .totalNotes a, .totalNotes b => a == b
  | .totalTapNotes a, .totalTapNotes b => a == b
  | .totalHoldNotes a, .totalHoldNotes b => a == b
  | .totalSideNotes a, .totalSideNotes b => a == b
  | .totalSideHoldNotes a, .totalSideHoldNotes b => a == b
  | .totalFlickNotes a, .totalFlickNotes b => a == b
  | .totalBellNotes a, .totalBellNotes b => a == b
  | .bulletPalette a, .bulletPalette b => a == b
  | .btp a, .btp b => a == b
  | .bpmChange a, .bpmChange b => a == b
  | .meterChange a, .meterChange b => a == b
  | .soflan a, .soflan b => a == b
  | .clickSound a, .clickSound b => a == b
  | .enemySet a, .enemySet b => a == b
  | .wallLeftStart a, .wallLeftStart b => a == b
  | .wallLeftNext a, .wallLeftNext b => a == b
  | .wallLeftEnd a, .wallLeftEnd b => a == b
  | .wallRightStart a, .wallRightStart b => a == b
  | .wallRightNext a, .wallRightNext b => a == b
  | .wallRightEnd a, .wallRightEnd b => a == b
  | .laneLeftStart a, .laneLeftStart b => a == b
  | .laneLeftNext a, .laneLeftNext b => a == b
  | .laneLeftEnd a, .laneLeftEnd b => a == b
  | .laneCenterStart a, .laneCenterStart b => a == b
  | .laneCenterNext a, .laneCenterNext b => a == b
  | .laneCenterEnd a, .laneCenterEnd b => a == b
  | .laneRightStart a, .laneRightStart b => a == b
  | .laneRightNext a, .laneRightNext b => a == b
  | .laneRightEnd a, .laneRightEnd b => a == b
  | .colorfulLaneStart a, .colorfulLaneStart b => a == b
  | .colorfulLaneNext a, .colorfulLaneNext b => a == b
  | .colorfulLaneEnd a, .colorfulLaneEnd b => a == b
  | .enemyLaneStart a, .enemyLaneStart b => a == b
  | .enemyLaneNext a, .enemyLaneNext b => a == b
  | .enemyLaneEnd a, .enemyLaneEnd b => a == b
  | .laneDisappearance a, .laneDisappearance b => a == b
  | .laneBlock a, .laneBlock b => a == b
  | .bullet a, .bullet b => a == b
  | .beamStart a, .beamStart b => a == b
  | .beamNext a, .beamNext b => a == b
  | .beamEnd a, .beamEnd b => a == b
  | .obliqueBeamStart a, .obliqueBeamStart b => a == b
  | .obliqueBeamNext a, .obliqueBeamNext b => a == b
  | .obliqueBeamEnd a, .obliqueBeamEnd b => a == b
  | .bell a, .bell b => a == b
  | .flick a, .flick b => a == b
  | .criticalFlick a, .criticalFlick b => a == b
  | .tap a, .tap b => a == b
  | .criticalTap a, .criticalTap b => a == b
  | .hold a, .hold b => a == b
  | .criticalHold a, .criticalHold b => a == b
  | _, _ => false

theorem Token.beq_refl : ∀ (a : Token), Token.beq a a = true := by
  intro a
  cases a <;> first | rfl | exact decide_eq_true rfl

set_option maxHeartbeats 4000000 in
theorem Token.beq_sound : ∀ (a b : Token), Token.beq a b = true → a = b := by
  intro a b
  cases a <;> cases b <;> intro h <;>
    first
      | exact Bool.noConfusion h
      | rfl
      | exact congrArg _ (of_decide_eq_true h)

instance : DecidableEq Token := fun a b =>
  if h : Token.beq a b = true then .isTrue (Token.beq_sound a b h)
  else .isFalse (fun hab => h (hab ▸ Token.beq_refl a))

/-- `next_token_or` (token.rs). -/
def nextTokenOr (c : Cursor) (message : String) : Except LexErr (String × Cursor) :=
  match nextToken c with
  | some r => .ok r
  | none => .error (.expectedToken message)

/-- `next_token_u32_or`. -/
def nextTokenU32Or (c : Cursor) (message : String) : Except LexErr (Nat × Cursor) := do
  let (s, c') ← nextTokenOr c message
  match parseU32 s with
  | some v => .ok (v, c')
  | none => .error (.expectedToken message)

/-- `next_token_i32_or`. -/
def nextTokenI32Or (c : Cursor) (message : String) : Except LexErr (Int × Cursor) := do
  let (s, c') ← nextTokenOr c message
  match parseI32 s with
  | some v => .ok (v, c')
  | none => .error (.expectedToken message)

/-- `next_token_f32_or` (parses an `f32`, keeps the bit pattern). -/
def nextTokenF32Or (c : Cursor) (message : String) : Except LexErr (Nat × Cursor) := do
  let (s, c') ← nextTokenOr c message
  match parseF32Bits s with
  | some v => .ok (v, c')
  | none => .error (.expectedToken message)

namespace Cmd

def Version.fromCursor (c : Cursor) : Except LexErr (Version × Cursor) := do
  let (major, c) ← nextTokenU32Or c "Version major"
  let (minor, c) ← nextTokenU32Or c "Version minor"
  let (release, c) ← nextTokenU32Or c "Version release"
  .ok ({ major, minor, release }, c)

def Creator.fromCursor (c : Cursor) : Except LexErr (Creator × Cursor) :=
  let (name, c) := currentRemainingLine c
  .ok ({ name }, c)

def BpmDefinition.fromCursor (c : Cursor) : Except LexErr (BpmDefinition × Cursor) := do
  let (first, c) ← nextTokenF32Or c "Bpm first"
  let (common, c) ← nextTokenF32Or c "Bpm common"
  let (minimum, c) ← nextTokenF32Or c "Bpm minimum"
  let (maximum, c) ← nextTokenF32Or c "Bpm maximum"
  .ok ({ first, common, minimum, maximum }, c)

def MeterDefinition.fromCursor (c : Cursor) : Except LexErr (MeterDefinition × Cursor) := do
  let (numBeats, c) ← nextTokenU32Or c "MeterDefinition num_beats"
  let (noteValue, c) ← nextTokenU32Or c "MeterDefinition note_value"
  .ok ({ numBeats, noteValue }, c)

def TickResolution.fromCursor (c : Cursor) : Except LexErr (TickResolution × Cursor) := do
  let (resolution, c) ← nextTokenU32Or c "TickResolution resolution"
  .ok ({ resolution }, c)

def XResolution.fromCursor (c : Cursor) : Except LexErr (XResolution × Cursor) := do
  let (resolution, c) ← nextTokenU32Or c "XResolution resolution"
  .ok ({ resolution }, c)

def ClickDefinition.fromCursor (c : Cursor) : Except LexErr (ClickDefinition × Cursor) := do
  let (value, c) ← nextTokenU32Or c "ClickDefinition value"
  .ok ({ value }, c)

def Tutorial.fromCursor (c : Cursor) : Except LexErr (Tutorial × Cursor) := do
  let (value, c) ← nextTokenU32Or c "Tutorial value"
  .ok ({ value }, c)

def BulletDamage.fromCursor (c : Cursor) : Except LexErr (BulletDamage × Cursor) := do
  let (damage, c) ← nextTokenF32Or c "BulletDamage damage"
  .ok ({ damage }, c)

def HardBulletDamage.fromCursor (c : Cursor) : Except LexErr (HardBulletDamage × Cursor) := do
  let (damage, c) ← nextTokenF32Or c "HardBulletDamage damage"
  .ok ({ damage }, c)

def DangerBulletDamage.fromCursor (c : Cursor) : Except LexErr (DangerBulletDamage × Cursor) := do
  let (damage, c) ← nextTokenF32Or c "DangerBulletDamage damage"
  .ok ({ damage }, c)

def BeamDamage.fromCursor (c : Cursor) : Except LexErr (BeamDamage × Cursor) := do
  let (damage, c) ← nextTokenF32Or c "BeamDamage damage"
  .ok ({ damage }, c)

def TotalNotes.fromCursor (c : Cursor) : Except LexErr (TotalNotes × Cursor) := do
  let (value, c) ← nextTokenU32Or c "TotalNotes value"
  .ok ({ value }, c)

def TotalTapNotes.fromCursor (c : Cursor) : Except LexErr (TotalTapNotes × Cursor) := do
  let (value, c) ← nextTokenU32Or c "TotalTapNotes value"
  .ok ({ value }, c)

def TotalHoldNotes.fromCursor (c : Cursor) : Except LexErr (TotalHoldNotes × Cursor) := do
  let (value, c) ← nextTokenU32Or c "TotalHoldNotes value"
  .ok ({ value }, c)

def TotalSideNotes.fromCursor (c : Cursor) : Except LexErr (TotalSideNotes × Cursor) := do
  let (value, c) ← nextTokenU32Or c "TotalSideNotes value"
  .ok ({ value }, c)

def TotalSideHoldNotes.fromCursor (c : Cursor) : Except LexErr (TotalSideHoldNotes × Cursor) := do
  let (value, c) ← nextTokenU32Or c "TotalSideHoldNotes value"
  .ok ({ value }, c)

def TotalFlickNotes.fromCursor (c : Cursor) : Except LexErr (TotalFlickNotes × Cursor) := do
  let (value, c) ← nextTokenU32Or c "TotalFlickNotes value"
  .ok ({ value }, c)

def TotalBellNotes.fromCursor (c : Cursor) : Except LexErr (TotalBellNotes × Cursor) := do
  let (value, c) ← nextTokenU32Or c "TotalBellNotes value"
  .ok ({ value }, c)

def ProgJudgeBpm.fromCursor (c : Cursor) : Except LexErr (ProgJudgeBpm × Cursor) := do
  let (value, c) ← nextTokenF32Or c "ProgJudgeBpm value"
  .ok ({ value }, c)

def BulletShooter.fromCursor (c : Cursor) : Except LexErr (BulletShooter × Cursor) :=
  match nextToken c with
  | some ("UPS", c') => .ok (.endPosition, c')
  | some ("ENE", c') => .ok (.enemy, c')
  | some ("CEN", c') => .ok (.center, c')
  | _ => .error (.expectedToken "one of UPS, ENE, or CEN")

def BulletTarget.fromCursor (c : Cursor) : Except LexErr (BulletTarget × Cursor) :=
  match nextToken c with
  | some ("PLR", c') => .ok (.player, c')
  | some ("FIX", c') => .ok (.fixedPosition, c')
  | _ => .error (.expectedToken "one of PLR or FIX")

def BulletSize.fromCursor (c : Cursor) : Except LexErr (BulletSize × Cursor) :=
  match nextToken c with
  | some ("N", c') => .ok (.normal, c')
  | some ("L", c') => .ok (.large, c')
  | _ => .error (.expectedToken "one of N or L")

def BulletType.fromCursor (c : Cursor) : Except LexErr (BulletType × Cursor) :=
  match nextToken c with
  | some ("CIR", c') => .ok (.circle, c')
  | some ("SQR", c') => .ok (.square, c')
  | some ("NDL", c') => .ok (.needle, c')
  | _ => .error (.expectedToken "one of CIR, SQR or NDL")

def BulletDamageType.fromCursor (c : Cursor) : Except LexErr (BulletDamageType × Cursor) :=
  match nextToken c with
  | some ("NML", c') => .ok (.normal, c')
  | some ("STR", c') => .ok (.hard, c')
  | some ("DNG", c') => .ok (.danger, c')
  | _ => .error (.expectedToken "one of NML, STR, or DNG")

def EnemyWave.fromCursor (c : Cursor) : Except LexErr (EnemyWave × Cursor) :=
  match nextToken c with
  | some ("WAVE1", c') => .ok (.wave1, c')
  | some ("WAVE2", c') => .ok (.wave2, c')
  | some ("BOSS", c') => .ok (.boss, c')
  | _ => .error (.expectedToken "one of WAVE1, WAVE2 or BOSS")

def FlickDirection.fromCursor (c : Cursor) : Except LexErr (FlickDirection × Cursor) :=
  match nextToken c with
  | some ("L", c') => .ok (.left, c')
  | some ("R", c') => .ok (.right, c')
  | _ => .error (.expectedToken "one of L or R")

/-- Version-dependent tail of a `BPL` command: peek the next token; if it is a
damage-type tag use the older one-field shape, otherwise decode the newer
three-field shape.  Mirrors the `let (size, ty, random_position_offset,
damage_type) = if ... else ...` block of `BulletPalette::from_cursor`. -/
def bulletPaletteTailFromCursor (c : Cursor) :
    Except LexErr ((Option BulletSize × Option BulletType × Option Int ×
      Option BulletDamageType) × Cursor) := do
  let nextTok := (peekToken c).getD ""
  match BulletDamageType.fromStr nextTok with
  | .ok _ => do
    let (dt, c) ← BulletDamageType.fromCursor c
    .ok ((none, none, none, some dt), c)
  | .error _ => do
    let (size, c) ← BulletSize.fromCursor c
    let (ty, c) ← BulletType.fromCursor c
    let (rpo, c) ← nextTokenI32Or c "BulletPalette random_position_offset"
    .ok ((some size, some ty, some rpo, none), c)

def BulletPalette.fromCursor (c : Cursor) : Except LexErr (BulletPalette × Cursor) := do
  let (id, c) ← nextTokenOr c "BulletPalette id"
  let (shooter, c) ← BulletShooter.fromCursor c
  let (targetXOffset, c) ← nextTokenI32Or c "BulletPalette target_x_offset"
  let (target, c) ← BulletTarget.fromCursor c
  let (speed, c) ← nextTokenF32Or c "BulletPalette speed"
  let ((size, ty, randomPositionOffset, damageType), c) ← bulletPaletteTailFromCursor c
  .ok ({ id, shooter, targetXOffset, target, speed, size, ty,
         randomPositionOffset, damageType }, c)

def CommandTime.fromCursor (c : Cursor) (message : String) :
    Except LexErr (CommandTime × Cursor) := do
  let (measure, c) ← nextTokenU32Or c message
  let (offset, c) ← nextTokenU32Or c message
  .ok ({ measure, offset }, c)

def BpmChange.fromCursor (c : Cursor) : Except LexErr (BpmChange × Cursor) := do
  let (time, c) ← CommandTime.fromCursor c "BpmChange time"
  let (bpm, c) ← nextTokenU32Or c "BpmChange bpm"
  .ok ({ time, bpm }, c)

def MeterChange.fromCursor (c : Cursor) : Except LexErr (MeterChange × Cursor) := do
  let (time, c) ← CommandTime.fromCursor c "MeterChange time"
  let (numBeats, c) ← nextTokenU32Or c "MeterChange num_beats"
  let (noteValue, c) ← nextTokenU32Or c "MeterChange note_value"
  .ok ({ time, numBeats, noteValue }, c)

def ClickSound.fromCursor (c : Cursor) : Except LexErr (ClickSound × Cursor) := do
  let (time, c) ← CommandTime.fromCursor c "ClickSound time"
  .ok ({ time }, c)

def Soflan.fromCursor (c : Cursor) : Except LexErr (Soflan × Cursor) := do
  let (time, c) ← CommandTime.fromCursor c "Soflan time"
  let (duration, c) ← nextTokenU32Or c "Soflan duration"
  let (currentSpeedMultiplier, c) ← nextTokenF32Or c "Soflan current_speed_multiplier"
  .ok ({ time, duration, currentSpeedMultiplier }, c)

def EnemySet.fromCursor (c : Cursor) : Except LexErr (EnemySet × Cursor) := do
  let (time, c) ← CommandTime.fromCursor c "EnemySet time"
  let (wave, c) ← EnemyWave.fromCursor c
  .ok ({ time, wave }, c)

def WallPoint.fromCursor (c : Cursor) : Except LexErr (WallPoint × Cursor) := do
  let (groupId, c) ← nextTokenU32Or c "WallPoint group_id"
  let (time, c) ← CommandTime.fromCursor c "WallPoint time"
  let (xPosition, c) ← nextTokenI32Or c "WallPoint x_position"
  .ok ({ groupId, time, xPosition }, c)

def LanePoint.fromCursor (c : Cursor) : Except LexErr (LanePoint × Cursor) := do
  let (groupId, c) ← nextTokenU32Or c "LanePoint group_id"
  let (time, c) ← CommandTime.fromCursor c "LanePoint time"
  let (xPosition, c) ← nextTokenI32Or c "LanePoint x_position"
  .ok ({ groupId, time, xPosition }, c)

def ColorfulLanePoint.fromCursor (c : Cursor) : Except LexErr (ColorfulLanePoint × Cursor) := do
  let (groupId, c) ← nextTokenU32Or c "ColorfulLanePoint group_id"
  let (time, c) ← CommandTime.fromCursor c "ColorfulLanePoint time"
  let (xPosition, c) ← nextTokenI32Or c "ColorfulLanePoint x_position"
  let (color, c) ← nextTokenU32Or c "ColorfulLanePoint color"
  let (brightness, c) ← nextTokenU32Or c "ColorfulLanePoint brightness"
  .ok ({ groupId, time, xPosition, color, brightness }, c)

def EnemyLanePoint.fromCursor (c : Cursor) : Except LexErr (EnemyLanePoint × Cursor) := do
  let (groupId, c) ← nextTokenU32Or c "EnemyLanePoint group_id"
  let (time, c) ← CommandTime.fromCursor c "EnemyLanePoint time"
  let (xPosition, c) ← nextTokenI32Or c "EnemyLanePoint x_position"
  .ok ({ groupId, time, xPosition }, c)

def LaneEvent.fromCursor (c : Cursor) : Except LexErr (LaneEvent × Cursor) := do
  let (groupId, c) ← nextTokenU32Or c "LaneEvent group_id"
  let (startTime, c) ← CommandTime.fromCursor c "LaneEvent start_time"
  let (startXPosition, c) ← nextTokenI32Or c "LaneEvent start_x_position"
  let (startXOffset, c) ← nextTokenI32Or c "LaneEvent start_x_offset"
  let (endTime, c) ← CommandTime.fromCursor c "LaneEvent end_time"
  let (endXPosition, c) ← nextTokenI32Or c "LaneEvent end_x_position"
  let (endXOffset, c) ← nextTokenI32Or c "LaneEvent end_x_offset"
  .ok ({ groupId, startTime, startXPosition, startXOffset,
         endTime, endXPosition, endXOffset }, c)

/-- `Bullet::from_cursor`: the `BLT` decoder reads no damage-type argument and
hard-codes `Normal` (the commented-out older-version read in the source is
not active). -/
def Bullet.fromCursor (c : Cursor) : Except LexErr (Bullet × Cursor) := do
  let (palleteId, c) ← nextTokenOr c "Bullet pallete_id"
  let (time, c) ← CommandTime.fromCursor c "Bullet time"
  let (xPosition, c) ← nextTokenI32Or c "Bullet x_position"
  .ok ({ palleteId, time, xPosition, damageType := .normal }, c)

def BeamPoint.fromCursor (c : Cursor) : Except LexErr (BeamPoint × Cursor) := do
  let (recordId, c) ← nextTokenU32Or c "BeamPoint record_id"
  let (time, c) ← CommandTime.fromCursor c "BeamPoint time"
  let (xPosition, c) ← nextTokenI32Or c "BeamPoint x_position"
  let (width, c) ← nextTokenU32Or c "BeamPoint width"
  .ok ({ recordId, time, xPosition, width }, c)

def ObliqueBeamPoint.fromCursor (c : Cursor) : Except LexErr (ObliqueBeamPoint × Cursor) := do
  let (recordId, c) ← nextTokenU32Or c "ObliqueBeamPoint record_id"
  let (time, c) ← CommandTime.fromCursor c "ObliqueBeamPoint time"
  let (xPosition, c) ← nextTokenI32Or c "ObliqueBeamPoint x_position"
  let (width, c) ← nextTokenU32Or c "ObliqueBeamPoint width"
  let (shootPositionXOffset, c) ← nextTokenI32Or c "ObliqueBeamPoint shoot_position_x_offset"
  .ok ({ recordId, time, xPosition, width, shootPositionXOffset }, c)

def Bell.fromCursor (c : Cursor) : Except LexErr (Bell × Cursor) := do
  let (time, c) ← CommandTime.fromCursor c "Bell time"
  let (xPosition, c) ← nextTokenI32Or c "Bell x_position"
  let (rest, c) := currentRemainingLine c
  let bulletPaletteId := if rest.isEmpty then none else some rest
  .ok ({ time, xPosition, bulletPaletteId }, c)

def Flick.fromCursor (c : Cursor) : Except LexErr (Flick × Cursor) := do
  let (time, c) ← CommandTime.fromCursor c "Flick time"
  let (xPosition, c) ← nextTokenI32Or c "Flick x_position"
  let (direction, c) ← FlickDirection.fromCursor c
  .ok ({ time, xPosition, direction }, c)

def Tap.fromCursor (c : Cursor) : Except LexErr (Tap × Cursor) := do
  let (laneGroupId, c) ← nextTokenU32Or c "Tap lane_group_id"
  let (time, c) ← CommandTime.fromCursor c "Tap time"
  let (xPosition, c) ← nextTokenI32Or c "Tap x_position"
  let (xOffset, c) ← nextTokenI32Or c "Tap x_offset"
  .ok ({ laneGroupId, time, xPosition, xOffset }, c)

def Hold.fromCursor (c : Cursor) : Except LexErr (Hold × Cursor) := do
  let (laneGroupId, c) ← nextTokenU32Or c "Hold lane_group_id"
  let (startTime, c) ← CommandTime.fromCursor c "Hold start_time"
  let (startXPosition, c) ← nextTokenI32Or c "Hold start_x_position"
  let (startXOffset, c) ← nextTokenI32Or c "Hold start_x_offset"
  let (endTime, c) ← CommandTime.fromCursor c "Hold end_time"
  let (endXPosition, c) ← nextTokenI32Or c "Hold end_x_position"
  let (endXOffset, c) ← nextTokenI32Or c "Hold end_x_offset"
  .ok ({ laneGroupId, startTime, startXPosition, startXOffset,
         endTime, endXPosition, endXOffset }, c)

end Cmd

/-- `Token::from_cursor`: pull the command keyword, skip section-name lines,
dispatch on the keyword table. -/
def Token.fromCursor (c : Cursor) : Except LexErr (Token × Cursor) :=
  match nextToken c with
  | none => .error (.expectedToken "valid command")
  | some (command, c) =>
    if startsWithBracket command then
      let (_, c) := currentRemainingLine c
      .ok (.sectionName, c)
    else
      match command with
      | "VERSION" => do let (v, c) ← Cmd.Version.fromCursor c; .ok (.version v, c)
      | "CREATOR" => do let (v, c) ← Cmd.Creator.fromCursor c; .ok (.creator v, c)
      | "BPM_DEF" => do let (v, c) ← Cmd.BpmDefinition.fromCursor c; .ok (.bpmDefinition v, c)
      | "MET_DEF" => do let (v, c) ← Cmd.MeterDefinition.fromCursor c; .ok (.meterDefinition v, c)
      | "TRESOLUTION" => do
        let (v, c) ← Cmd.TickResolution.fromCursor c; .ok (.tickResolution v, c)
      | "XRESOLUTION" => do let (v, c) ← Cmd.XResolution.fromCursor c; .ok (.xResolution v, c)
      | "CLK_DEF" => do let (v, c) ← Cmd.ClickDefinition.fromCursor c; .ok (.clickDefinition v, c)
      | "TUTORIAL" => do let (v, c) ← Cmd.Tutorial.fromCursor c; .ok (.tutorial v, c)
      | "BULLET_DAMAGE" => do let (v, c) ← Cmd.BulletDamage.fromCursor c; .ok (.bulletDamage v, c)
      | "HARDBULLET_DAMAGE" => do
        let (v, c) ← Cmd.HardBulletDamage.fromCursor c; .ok (.hardBulletDamage v, c)
      | "DANGERBULLET_DAMAGE" => do
        let (v, c) ← Cmd.DangerBulletDamage.fromCursor c; .ok (.dangerBulletDamage v, c)
      | "BEAM_DAMAGE" => do let (v, c) ← Cmd.BeamDamage.fromCursor c; .ok (.beamDamage v, c)
      | "T_TOTAL" => do let (v, c) ← Cmd.TotalNotes.fromCursor c; .ok (.totalNotes v, c)
      | "T_TAP" => do let (v, c) ← Cmd.TotalTapNotes.fromCursor c; .ok (.totalTapNotes v, c)
      | "T_HOLD" => do let (v, c) ← Cmd.TotalHoldNotes.fromCursor c; .ok (.totalHoldNotes v, c)
      | "T_SIDE" => do let (v, c) ← Cmd.TotalSideNotes.fromCursor c; .ok (.totalSideNotes v, c)
      | "T_SHOLD" => do
        let (v, c) ← Cmd.TotalSideHoldNotes.fromCursor c; .ok (.totalSideHoldNotes v, c)
      | "T_FLICK" => do
        let (v, c) ← Cmd.TotalFlickNotes.fromCursor c; .ok (.totalFlickNotes v, c)
      | "T_BELL" => do let (v, c) ← Cmd.TotalBellNotes.fromCursor c; .ok (.totalBellNotes v, c)
      | "PROGJUDGE_BPM" => do let (v, c) ← Cmd.ProgJudgeBpm.fromCursor c; .ok (.progJudgeBpm v, c)
      | "BPL" => do let (v, c) ← Cmd.BulletPalette.fromCursor c; .ok (.bulletPalette v, c)
      | "BTP" => .ok (.btp {}, c)
      | "BPM" => do let (v, c) ← Cmd.BpmChange.fromCursor c; .ok (.bpmChange v, c)
      | "MET" => do let (v, c) ← Cmd.MeterChange.fromCursor c; .ok (.meterChange v, c)
      | "CLK" => do let (v, c) ← Cmd.ClickSound.fromCursor c; .ok (.clickSound v, c)
      | "SFL" => do let (v, c) ← Cmd.Soflan.fromCursor c; .ok (.soflan v, c)
      | "EST" => do let (v, c) ← Cmd.EnemySet.fromCursor c; .ok (.enemySet v, c)
      | "WLS" => do let (v, c) ← Cmd.WallPoint.fromCursor c; .ok (.wallLeftStart v, c)
      | "WLN" => do let (v, c) ← Cmd.WallPoint.fromCursor c; .ok (.wallLeftNext v, c)
      | "WLE" => do let (v, c) ← Cmd.WallPoint.fromCursor c; .ok (.wallLeftEnd v, c)
      | "WRS" => do let (v, c) ← Cmd.WallPoint.fromCursor c; .ok (.wallRightStart v, c)
      | "WRN" => do let (v, c) ← Cmd.WallPoint.fromCursor c; .ok (.wallRightNext v, c)
      | "WRE" => do let (v, c) ← Cmd.WallPoint.fromCursor c; .ok (.wallRightEnd v, c)
      | "LLS" => do let (v, c) ← Cmd.LanePoint.fromCursor c; .ok (.laneLeftStart v, c)
      | "LLN" => do let (v, c) ← Cmd.LanePoint.fromCursor c; .ok (.laneLeftNext v, c)
      | "LLE" => do let (v, c) ← Cmd.LanePoint.fromCursor c; .ok (.laneLeftEnd v, c)
      | "LCS" => do let (v, c) ← Cmd.LanePoint.fromCursor c; .ok (.laneCenterStart v, c)
      | "LCN" => do let (v, c) ← Cmd.LanePoint.fromCursor c; .ok (.laneCenterNext v, c)
      | "LCE" => do let (v, c) ← Cmd.LanePoint.fromCursor c; .ok (.laneCenterEnd v, c)
      | "LRS" => do let (v, c) ← Cmd.LanePoint.fromCursor c; .ok (.laneRightStart v, c)
      | "LRN" => do let (v, c) ← Cmd.LanePoint.fromCursor c; .ok (.laneRightNext v, c)
      | "LRE" => do let (v, c) ← Cmd.LanePoint.fromCursor c; .ok (.laneRightEnd v, c)
      | "CLS" => do
        let (v, c) ← Cmd.ColorfulLanePoint.fromCursor c; .ok (.colorfulLaneStart v, c)
      | "CLN" => do
        let (v, c) ← Cmd.ColorfulLanePoint.fromCursor c; .ok (.colorfulLaneNext v, c)
      | "CLE" => do
        let (v, c) ← Cmd.ColorfulLanePoint.fromCursor c; .ok (.colorfulLaneEnd v, c)
      | "ENS" => do let (v, c) ← Cmd.EnemyLanePoint.fromCursor c; .ok (.enemyLaneStart v, c)
      | "ENN" => do let (v, c) ← Cmd.EnemyLanePoint.fromCursor c; .ok (.enemyLaneNext v, c)
      | "ENE" => do let (v, c) ← Cmd.EnemyLanePoint.fromCursor c; .ok (.enemyLaneEnd v, c)
      | "LDP" => do let (v, c) ← Cmd.LaneEvent.fromCursor c; .ok (.laneDisappearance v, c)
      | "LBK" => do let (v, c) ← Cmd.LaneEvent.fromCursor c; .ok (.laneBlock v, c)
      | "BLT" => do let (v, c) ← Cmd.Bullet.fromCursor c; .ok (.bullet v, c)
      | "BMS" => do let (v, c) ← Cmd.BeamPoint.fromCursor c; .ok (.beamStart v, c)
      | "BMN" => do let (v, c) ← Cmd.BeamPoint.fromCursor c; .ok (.beamNext v, c)
      | "BME" => do let (v, c) ← Cmd.BeamPoint.fromCursor c; .ok (.beamEnd v, c)
      | "OBS" => do let (v, c) ← Cmd.ObliqueBeamPoint.fromCursor c; .ok (.obliqueBeamStart v, c)
      | "OBN" => do let (v, c) ← Cmd.ObliqueBeamPoint.fromCursor c; .ok (.obliqueBeamNext v, c)
      | "OBE" => do let (v, c) ← Cmd.ObliqueBeamPoint.fromCursor c; .ok (.obliqueBeamEnd v, c)
      | "BEL" => do let (v, c) ← Cmd.Bell.fromCursor c; .ok (.bell v, c)
      | "FLK" => do let (v, c) ← Cmd.Flick.fromCursor c; .ok (.flick v, c)
      | "CFK" => do let (v, c) ← Cmd.Flick.fromCursor c; .ok (.criticalFlick v, c)
      | "TAP" => do let (v, c) ← Cmd.Tap.fromCursor c; .ok (.tap v, c)
      | "CTP" | "XTP" => do let (v, c) ← Cmd.Tap.fromCursor c; .ok (.criticalTap v, c)
      | "HLD" => do let (v, c) ← Cmd.Hold.fromCursor c; .ok (.hold v, c)
      | "CHD" | "XHD" => do let (v, c) ← Cmd.Hold.fromCursor c; .ok (.criticalHold v, c)
      | _ => .error .unknownCommand

/-- Fuel-indexed lexer loop.  Every successful `Token.fromCursor` call
consumes at least the keyword token, so `source.length + 1` fuel always
suffices; the fuel-exhaustion branch is unreachable on every input
considered in this development. -/
def tokenizeLoop (fuel : Nat) (c : Cursor) (acc : List Token) :
    Except LexErr (List Token) :=
  match fuel with
  | 0 => .error (.expectedToken "tokenize fuel exhausted")
  | fuel + 1 =>
    if cursorIsEnd c then .ok acc
    else
      match Token.fromCursor c with
      | .ok (t, c') => tokenizeLoop fuel c' (acc ++ [t])
      | .error e => .error e

/-- `tokenize` (lex/mod.rs). -/
def tokenize (source : String) : Except LexErr (List Token) :=
  tokenizeLoop (source.length + 1) source.data []

/-! ## Analysis base types (`parse/analysis.rs`) -/

namespace Ana

structure TimingPoint where
  measure : Nat
  beatOffset : Nat
  deriving DecidableEq

/-- `Ord for TimingPoint`: measure then beat offset. -/
def tcmp (a b : TimingPoint) : Ordering :=
  (compare a.measure b.measure).then (compare a.beatOffset b.beatOffset)

def TimingPoint.ofCommandTime (t : Cmd.CommandTime) : TimingPoint :=
  { measure := t.measure, beatOffset := t.offset }

/-- The strict order underlying `tcmp`: lexicographic on measure then beat
offset. -/
def timeLt (a b : TimingPoint) : Prop :=
  a.measure < b.measure ∨ (a.measure = b.measure ∧ a.beatOffset < b.beatOffset)

instance (a b : TimingPoint) : Decidable (timeLt a b) := by
  unfold timeLt
  infer_instance

structure XPosition where
  position : Int
  offset : Int
  deriving DecidableEq

def XPosition.newPosition (position : Int) : XPosition :=
  { position, offset := 0 }

/-- Ordered solely by `time`; equality (used by the interpolation assertions)
is full structural equality. -/
structure TrackPosition where
  time : TimingPoint
  x : XPosition
  deriving DecidableEq

def TrackPosition.fromCommandInfo (time : Cmd.CommandTime) (xPosition xOffset : Int) :
    TrackPosition :=
  { time := TimingPoint.ofCommandTime time, x := { position := xPosition, offset := xOffset } }

def TrackPosition.fromWallPoint (p : Cmd.WallPoint) : TrackPosition :=
  { time := TimingPoint.ofCommandTime p.time, x := XPosition.newPosition p.xPosition }

def TrackPosition.fromLanePoint (p : Cmd.LanePoint) : TrackPosition :=
  { time := TimingPoint.ofCommandTime p.time, x := XPosition.newPosition p.xPosition }

def TrackPosition.fromCommandColorfulLanePoint (p : Cmd.ColorfulLanePoint) : TrackPosition :=
  { time := TimingPoint.ofCommandTime p.time, x := XPosition.newPosition p.xPosition }

/-- The documented `Lane.points` invariant, as used by the binary search:
strictly increasing times. -/
def TimeSorted (points : List TrackPosition) : Prop :=
  points.Pairwise (fun a b => timeLt a.time b.time)

instance (points : List TrackPosition) : Decidable (TimeSorted points) :=
  inferInstanceAs (Decidable (points.Pairwise fun a b : TrackPosition => timeLt a.time b.time))

structure BulletPaletteId where
  id : String
  deriving DecidableEq

structure Bullet where
  paletteId : BulletPaletteId
  position : TrackPosition
  damageType : Cmd.BulletDamageType
  deriving DecidableEq

/-- `impl From<command::Bullet> for Bullet`: resolution copies the decoded
damage type through unchanged. -/
def Bullet.ofCommand (b : Cmd.Bullet) : Bullet :=
  { paletteId := { id := b.palleteId },
    position := TrackPosition.fromCommandInfo b.time b.xPosition 0,
    damageType := b.damageType }

end Ana

/-! ## Parse errors (`parse/mod.rs`)

`format!`-built messages are modelled structurally (the constructor carries
the interpolated values); literal messages are carried verbatim. -/

inductive SemMsg where
  | lit (message : String)
  | laneSectionMinPoints (id : Nat)
  | colorfulLaneMinPoints (id : Nat)
  | beamSectionMinPoints (id : Nat)
  | obliqueBeamSectionMinPoints (id : Nat)
  | tapInvalidLane (note : Cmd.Tap)
  | holdInvalidLane (note : Cmd.Hold)
  | bulletInvalidPalette (bullet : Ana.Bullet)
  deriving DecidableEq

inductive ParseErr where
  | syntaxError (unexpected : Token)
  | semanticError (m : SemMsg)
  | semanticErrorExpectedCommand (message : String)
  deriving DecidableEq

/-- Parse/analysis-layer result: the panic constructor of `PResult` models a
Rust panic. -/
abbrev PRes (α : Type) := PResult ParseErr α

/-! ## Raw parsing (`parse/raw.rs`)

The `Commands` reader is its remaining token list (`next_command` pops the
front). -/

namespace Raw

structure WallSection where
  groupId : Nat
  points : List Cmd.WallPoint
  deriving DecidableEq

structure LaneSection where
  groupId : Nat
  points : List Cmd.LanePoint
  deriving DecidableEq

structure ColorfulLaneSection where
  groupId : Nat
  points : List Cmd.ColorfulLanePoint
  deriving DecidableEq

structure BeamSection where
  recordId : Nat
  points : List Cmd.BeamPoint
  deriving DecidableEq

structure ObliqueBeamSection where
  recordId : Nat
  points : List Cmd.ObliqueBeamPoint
  deriving DecidableEq

/-- `verify_group_id`. -/
def verifyGroupId (referenceId newId : Nat) : PRes Unit :=
  if referenceId ≠ newId then
    .err (.semanticError (.lit "different group ids for consequetive section"))
  else .ok ()

/-- Loop body of `WallSection::wall_left_from_commands`. -/
def wallLeftLoop (groupId : Nat) (points : List Cmd.WallPoint) (commands : List Token) :
    PRes (WallSection × List Token) :=
  match commands with
  | [] => .err (.semanticErrorExpectedCommand "more commands for left wall section")
  | t :: rest =>
    match t with
    | .wallLeftNext p => do
      let _ ← verifyGroupId groupId p.groupId
      wallLeftLoop groupId (points ++ [p]) rest
    | .wallLeftEnd p => do
      let _ ← verifyGroupId groupId p.groupId
      .ok ({ groupId, points := points ++ [p] }, rest)
    | _ => .err (.semanticError (.lit "unexpected command on left wall section"))

def WallSection.wallLeftFromCommands (commands : List Token) (firstPoint : Cmd.WallPoint) :
    PRes (WallSection × List Token) :=
  wallLeftLoop firstPoint.groupId [firstPoint] commands

/-- Loop body of `WallSection::wall_right_from_commands`. -/
def wallRightLoop (groupId : Nat) (points : List Cmd.WallPoint) (commands : List Token) :
    PRes (WallSection × List Token) :=
  match commands with
  | [] => .err (.semanticErrorExpectedCommand "more commands for right wall section")
  | t :: rest =>
    match t with
    | .wallRightNext p => do
      let _ ← verifyGroupId groupId p.groupId
      wallRightLoop groupId (points ++ [p]) rest
    | .wallRightEnd p => do
      let _ ← verifyGroupId groupId p.groupId
      .ok ({ groupId, points := points ++ [p] }, rest)
    | _ => .err (.semanticError (.lit "unexpected command on right wall section"))

def WallSection.wallRightFromCommands (commands : List Token) (firstPoint : Cmd.WallPoint) :
    PRes (WallSection × List Token) :=
  wallRightLoop firstPoint.groupId [firstPoint] commands

/-- Loop body of `LaneSection::lane_left_from_commands`. -/
def laneLeftLoop (groupId : Nat) (points : List Cmd.LanePoint) (commands : List Token) :
    PRes (LaneSection × List Token) :=
  match commands with
  | [] => .err (.semanticErrorExpectedCommand "more commands for left lane section")
  | t :: rest =>
    match t with
    | .laneLeftNext p => do
      let _ ← verifyGroupId groupId p.groupId
      laneLeftLoop groupId (points ++ [p]) rest
    | .laneLeftEnd p => do
      let _ ← verifyGroupId groupId p.groupId
      .ok ({ groupId, points := points ++ [p] }, rest)
    | _ => .err (.semanticError (.lit "unexpected command on left lane section"))

def LaneSection.laneLeftFromCommands (commands : List Token) (firstPoint : Cmd.LanePoint) :
    PRes (LaneSection × List Token) :=
  laneLeftLoop firstPoint.groupId [firstPoint] commands

/-- Loop body of `LaneSection::lane_center_from_commands`. -/
def laneCenterLoop (groupId : Nat) (points : List Cmd.LanePoint) (commands : List Token) :
    PRes (LaneSection × List Token) :=
  match commands with
  | [] => .err (.semanticErrorExpectedCommand "more commands for center lane section")
  | t :: rest =>
    match t with
    | .laneCenterNext p => do
      let _ ← verifyGroupId groupId p.groupId
      laneCenterLoop groupId (points ++ [p]) rest
    | .laneCenterEnd p => do
      let _ ← verifyGroupId groupId p.groupId
      .ok ({ groupId, points := points ++ [p] }, rest)
    | _ => .err (.semanticError (.lit "unexpected command on center lane section"))

def LaneSection.laneCenterFromCommands (commands : List Token) (firstPoint : Cmd.LanePoint) :
    PRes (LaneSection × List Token) :=
  laneCenterLoop firstPoint.groupId [firstPoint] commands

/-- Loop body of `LaneSection::lane_right_from_commands`. -/
def laneRightLoop (groupId : Nat) (points : List Cmd.LanePoint) (commands : List Token) :
    PRes (LaneSection × List Token) :=
  match commands with
  | [] => .err (.semanticErrorExpectedCommand "more commands for right lane section")
  | t :: rest =>
    match t with
    | .laneRightNext p => do
      let _ ← verifyGroupId groupId p.groupId
      laneRightLoop groupId (points ++ [p]) rest
    | .laneRightEnd p => do
      let _ ← verifyGroupId groupId p.groupId
      .ok ({ groupId, points := points ++ [p] }, rest)
    | _ => .err (.semanticError (.lit "unexpected command on right lane section"))

def LaneSection.laneRightFromCommands (commands : List Token) (firstPoint : Cmd.LanePoint) :
    PRes (LaneSection × List Token) :=
  laneRightLoop firstPoint.groupId [firstPoint] commands

/-- Loop body of `LaneSection::enemy_lane_from_commands`; enemy lane points
are converted to `LanePoint` on push. -/
def enemyLaneLoop (groupId : Nat) (points : List Cmd.LanePoint) (commands : List Token) :
    PRes (LaneSection × List Token) :=
  match commands with
  | [] => .err (.semanticErrorExpectedCommand "more commands for enemy lane section")
  | t :: rest =>
    match t with
    | .enemyLaneNext p => do
      let _ ← verifyGroupId groupId p.groupId
      enemyLaneLoop groupId (points ++ [Cmd.LanePoint.ofEnemyLanePoint p]) rest
    | .enemyLaneEnd p => do
      let _ ← verifyGroupId groupId p.groupId
      .ok ({ groupId, points := points ++ [Cmd.LanePoint.ofEnemyLanePoint p] }, rest)
    | _ => .err (.semanticError (.lit "unexpected command on enemy lane section"))

def LaneSection.enemyLaneFromCommands (commands : List Token) (firstPoint : Cmd.EnemyLanePoint) :
    PRes (LaneSection × List Token) :=
  enemyLaneLoop firstPoint.groupId [Cmd.LanePoint.ofEnemyLanePoint firstPoint] commands

/-- Loop body of `ColorfulLaneSection::from_commands`. -/
def colorfulLaneLoop (groupId : Nat) (points : List Cmd.ColorfulLanePoint)
    (commands : List Token) : PRes (ColorfulLaneSection × List Token) :=
  match commands with
  | [] => .err (.semanticErrorExpectedCommand "more commands for colorful lane section")
  | t :: rest =>
    match t with
    | .colorfulLaneNext p => do
      let _ ← verifyGroupId groupId p.groupId
      colorfulLaneLoop groupId (points ++ [p]) rest
    | .colorfulLaneEnd p => do
      let _ ← verifyGroupId groupId p.groupId
      .ok ({ groupId, points := points ++ [p] }, rest)
    | _ => .err (.semanticError (.lit "unexpected command on colorful lane section"))

def ColorfulLaneSection.fromCommands (commands : List Token)
    (firstPoint : Cmd.ColorfulLanePoint) : PRes (ColorfulLaneSection × List Token) :=
  colorfulLaneLoop firstPoint.groupId [firstPoint] commands

/-- Loop body of `BeamSection::from_commands` (its error messages in the
source say "enemy lane section" verbatim). -/
def beamLoop (recordId : Nat) (points : List Cmd.BeamPoint) (commands : List Token) :
    PRes (BeamSection × List Token) :=
  match commands with
  | [] => .err (.semanticErrorExpectedCommand "more commands for enemy lane section")
  | t :: rest =>
    match t with
    | .beamNext p => do
      let _ ← verifyGroupId recordId p.recordId
      beamLoop recordId (points ++ [p]) rest
    | .beamEnd p => do
      let _ ← verifyGroupId recordId p.recordId
      .ok ({ recordId, points := points ++ [p] }, rest)
    | _ => .err (.semanticError (.lit "unexpected command on enemy lane section"))

def BeamSection.fromCommands (commands : List Token) (firstPoint : Cmd.BeamPoint) :
    PRes (BeamSection × List Token) :=
  beamLoop firstPoint.recordId [firstPoint] commands

/-- Loop body of `ObliqueBeamSection::from_commands`. -/
def obliqueBeamLoop (recordId : Nat) (points : List Cmd.ObliqueBeamPoint)
    (commands : List Token) : PRes (ObliqueBeamSection × List Token) :=
  match commands with
  | [] => .err (.semanticErrorExpectedCommand "more commands for enemy lane section")
  | t :: rest =>
    match t with
    | .obliqueBeamNext p => do
      let _ ← verifyGroupId recordId p.recordId
      obliqueBeamLoop recordId (points ++ [p]) rest
    | .obliqueBeamEnd p => do
      let _ ← verifyGroupId recordId p.recordId
      .ok ({ recordId, points := points ++ [p] }, rest)
    | _ => .err (.semanticError (.lit "unexpected command on enemy lane section"))

def ObliqueBeamSection.fromCommands (commands : List Token)
    (firstPoint : Cmd.ObliqueBeamPoint) : PRes (ObliqueBeamSection × List Token) :=
  obliqueBeamLoop firstPoint.recordId [firstPoint] commands

end Raw

/-! ## Header (`parse/header.rs`) and raw aggregate (`parse/raw.rs`) -/

structure DamageValues where
  normal : Nat := 0
  hard : Nat := 0
  danger : Nat := 0
  beam : Nat := 0
  deriving DecidableEq

structure Totals where
  notes : Nat := 0
  tap : Nat := 0
  hold : Nat := 0
  side : Nat := 0
  sideHold : Nat := 0
  flick : Nat := 0
  bell : Nat := 0
  deriving DecidableEq

structure Header where
  version : Option Cmd.Version := none
  creator : Option Cmd.Creator := none
  bpmDefinition : Option Cmd.BpmDefinition := none
  meterDefinition : Option Cmd.MeterDefinition := none
  tickResolution : Option Cmd.TickResolution := none
  xResolution : Option Cmd.XResolution := none
  clickDefinition : Option Cmd.ClickDefinition := none
  tutorial : Option Cmd.Tutorial := none
  damageValues : DamageValues := {}
  totals : Totals := {}
  progJudgeBpm : Option Cmd.ProgJudgeBpm := none
  deriving DecidableEq

structure EnemyWaveAssignment where
  wave1 : Cmd.CommandTime := { measure := 0, offset := 0 }
  wave2 : Cmd.CommandTime := { measure := 0, offset := 0 }
  boss : Cmd.CommandTime := { measure := 0, offset := 0 }
  deriving DecidableEq

/-- `EnemyWaveAssignment::update_from_command`. -/
def EnemyWaveAssignment.updateFromCommand (a : EnemyWaveAssignment) (c : Cmd.EnemySet) :
    EnemyWaveAssignment :=
  match c.wave with
  | .wave1 => { a with wave1 := c.time }
  | .wave2 => { a with wave2 := c.time }
  | .boss => { a with boss := c.time }

namespace Raw

structure RawComposition where
  bpmFirst : Nat := 0
  bpmChanges : List Cmd.BpmChange := []
  meterFirst : Cmd.MeterDefinition := { numBeats := 0, noteValue := 0 }
  meterChanges : List Cmd.MeterChange := []
  soflans : List Cmd.Soflan := []
  deriving DecidableEq

structure RawNotes where
  bells : List Cmd.Bell := []
  flicks : List Cmd.Flick := []
  criticalFlicks : List Cmd.Flick := []
  taps : List Cmd.Tap := []
  criticalTaps : List Cmd.Tap := []
  holds : List Cmd.Hold := []
  criticalHolds : List Cmd.Hold := []
  deriving DecidableEq

structure RawTrack where
  wallsLeft : List WallSection := []
  wallsRight : List WallSection := []
  lanesLeft : List LaneSection := []
  lanesCenter : List LaneSection := []
  lanesRight : List LaneSection := []
  colorfulLanes : List ColorfulLaneSection := []
  enemyLanes : List LaneSection := []
  laneDisappearances : List Cmd.LaneEvent := []
  laneBlocks : List Cmd.LaneEvent := []
  beams : List BeamSection := []
  obliqueBeams : List ObliqueBeamSection := []
  deriving DecidableEq

structure RawOgkr where
  header : Header := {}
  composition : RawComposition := {}
  bulletPalleteList : List Cmd.BulletPalette := []
  bullets : List Cmd.Bullet := []
  clickSounds : List Cmd.ClickSound := []
  enemyWaveAssignment : EnemyWaveAssignment := {}
  track : RawTrack := {}
  notes : RawNotes := {}
  deriving DecidableEq

/-- Fuel-indexed loop of `parse_tokens` (raw.rs).  Every iteration consumes at
least the dispatched token, so `commands.length + 1` fuel always suffices;
the fuel-exhaustion branch is unreachable on every input considered here. -/
def parseTokensLoop (fuel : Nat) (commands : List Token) (ogkr : RawOgkr) : PRes RawOgkr :=
  match fuel with
  | 0 => .err (.semanticErrorExpectedCommand "parse fuel exhausted")
  | fuel + 1 =>
    match commands with
    | [] => .ok ogkr
    | token :: commands =>
      match token with
      | .sectionName => parseTokensLoop fuel commands ogkr
      | .version v =>
        parseTokensLoop fuel commands { ogkr with header := { ogkr.header with version := some v } }
      | .creator v =>
        parseTokensLoop fuel commands { ogkr with header := { ogkr.header with creator := some v } }
      | .bpmDefinition v =>
        parseTokensLoop fuel commands
          { ogkr with
            header := { ogkr.header with bpmDefinition := some v }
            composition := { ogkr.composition with bpmFirst := v.first } }
      | .meterDefinition v =>
        parseTokensLoop fuel commands
          { ogkr with
            header := { ogkr.header with meterDefinition := some v }
            composition := { ogkr.composition with meterFirst := v } }
      | .tickResolution v =>
        parseTokensLoop fuel commands
          { ogkr with header := { ogkr.header with tickResolution := some v } }
      | .xResolution v =>
        parseTokensLoop fuel commands
          { ogkr with header := { ogkr.header with xResolution := some v } }
      | .clickDefinition v =>
        parseTokensLoop fuel commands
          { ogkr with header := { ogkr.header with clickDefinition := some v } }
      | .tutorial v =>
        parseTokensLoop fuel commands
          { ogkr with header := { ogkr.header with tutorial := some v } }
      | .bulletDamage v =>
        parseTokensLoop fuel commands
          { ogkr with header := { ogkr.header with
              damageValues := { ogkr.header.damageValues with normal := v.damage } } }
      | .hardBulletDamage v =>
        parseTokensLoop fuel commands
          { ogkr with header := { ogkr.header with
              damageValues := { ogkr.header.damageValues with hard := v.damage } } }
      | .dangerBulletDamage v =>
        parseTokensLoop fuel commands
          { ogkr with header := { ogkr.header with
              damageValues := { ogkr.header.damageValues with danger := v.damage } } }
      | .beamDamage v =>
        parseTokensLoop fuel commands
          { ogkr with header := { ogkr.header with
              damageValues := { ogkr.header.damageValues with beam := v.damage } } }
      | .progJudgeBpm v =>
        parseTokensLoop fuel commands
          { ogkr with header := { ogkr.header with progJudgeBpm := some v } }
      | .totalNotes v =>
        parseTokensLoop fuel commands
          { ogkr with header := { ogkr.header with
              totals := { ogkr.header.totals with notes := v.value } } }
      | .totalTapNotes v =>
        parseTokensLoop fuel commands
          { ogkr with header := { ogkr.header with
              totals := { ogkr.header.totals with notes := v.value } } }
      | .totalHoldNotes v =>
        parseTokensLoop fuel commands
          { ogkr with header := { ogkr.header with
              totals := { ogkr.header.totals with hold := v.value } } }
      | .totalSideNotes v =>
        parseTokensLoop fuel commands
          { ogkr with header := { ogkr.header with
              totals := { ogkr.header.totals with side := v.value } } }
      | .totalSideHoldNotes v =>
        parseTokensLoop fuel commands
          { ogkr with header := { ogkr.header with
              totals := { ogkr.header.totals with side := v.value } } }
      | .totalFlickNotes v =>
        parseTokensLoop fuel commands
          { ogkr with header := { ogkr.header with
              totals := { ogkr.header.totals with flick := v.value } } }
      | .totalBellNotes v =>
        parseTokensLoop fuel commands
          { ogkr with header := { ogkr.header with
              totals := { ogkr.header.totals with bell := v.value } } }
      | .bulletPalette v =>
        parseTokensLoop fuel commands
          { ogkr with bulletPalleteList := ogkr.bulletPalleteList ++ [v] }
      | .bpmChange v =>
        parseTokensLoop fuel commands
          { ogkr with composition :=
              { ogkr.composition with bpmChanges := ogkr.composition.bpmChanges ++ [v] } }
      | .meterChange v =>
        parseTokensLoop fuel commands
          { ogkr with composition :=
              { ogkr.composition with meterChanges := ogkr.composition.meterChanges ++ [v] } }
      | .soflan v =>
        parseTokensLoop fuel commands
          { ogkr with composition :=
              { ogkr.composition with soflans := ogkr.composition.soflans ++ [v] } }
      | .clickSound v =>
        parseTokensLoop fuel commands { ogkr with clickSounds := ogkr.clickSounds ++ [v] }
      | .enemySet v =>
        parseTokensLoop fuel commands
          { ogkr with enemyWaveAssignment := ogkr.enemyWaveAssignment.updateFromCommand v }
      | .wallLeftStart p =>
        match WallSection.wallLeftFromCommands commands p with
        | .ok (sec, commands') =>
          parseTokensLoop fuel commands'
            { ogkr with track := { ogkr.track with wallsLeft := ogkr.track.wallsLeft ++ [sec] } }
        | .err e => .err e
        | .panic => .panic
      | .wallRightStart p =>
        match WallSection.wallRightFromCommands commands p with
        | .ok (sec, commands') =>
          parseTokensLoop fuel commands'
            { ogkr with track := { ogkr.track with wallsRight := ogkr.track.wallsRight ++ [sec] } }
        | .err e => .err e
        | .panic => .panic
      | .laneLeftStart p =>
        match LaneSection.laneLeftFromCommands commands p with
        | .ok (sec, commands') =>
          parseTokensLoop fuel commands'
            { ogkr with track := { ogkr.track with lanesLeft := ogkr.track.lanesLeft ++ [sec] } }
        | .err e => .err e
        | .panic => .panic
      | .laneCenterStart p =>
        match LaneSection.laneCenterFromCommands commands p with
        | .ok (sec, commands') =>
          parseTokensLoop fuel commands'
            { ogkr with track :=
                { ogkr.track with lanesCenter := ogkr.track.lanesCenter ++ [sec] } }
        | .err e => .err e
        | .panic => .panic
      | .laneRightStart p =>
        match LaneSection.laneRightFromCommands commands p with
        | .ok (sec, commands') =>
          parseTokensLoop fuel commands'
            { ogkr with track := { ogkr.track with lanesRight := ogkr.track.lanesRight ++ [sec] } }
        | .err e => .err e
        | .panic => .panic
      | .colorfulLaneStart p =>
        match ColorfulLaneSection.fromCommands commands p with
        | .ok (sec, commands') =>
          parseTokensLoop fuel commands'
            { ogkr with track :=
                { ogkr.track with colorfulLanes := ogkr.track.colorfulLanes ++ [sec] } }
        | .err e => .err e
        | .panic => .panic
      | .enemyLaneStart p =>
        match LaneSection.enemyLaneFromCommands commands p with
        | .ok (sec, commands') =>
          parseTokensLoop fuel commands'
            { ogkr with track := { ogkr.track with enemyLanes := ogkr.track.enemyLanes ++ [sec] } }
        | .err e => .err e
        | .panic => .panic
      | .laneDisappearance v =>
        parseTokensLoop fuel commands
          { ogkr with track :=
              { ogkr.track with laneDisappearances := ogkr.track.laneDisappearances ++ [v] } }
      | .laneBlock v =>
        parseTokensLoop fuel commands
          { ogkr with track := { ogkr.track with laneBlocks := ogkr.track.laneBlocks ++ [v] } }
      | .bullet v =>
        parseTokensLoop fuel commands { ogkr with bullets := ogkr.bullets ++ [v] }
      | .beamStart p =>
        match BeamSection.fromCommands commands p with
        | .ok (sec, commands') =>
          parseTokensLoop fuel commands'
            { ogkr with track := { ogkr.track with beams := ogkr.track.beams ++ [sec] } }
        | .err e => .err e
        | .panic => .panic
      | .obliqueBeamStart p =>
        match ObliqueBeamSection.fromCommands commands p with
        | .ok (sec, commands') =>
          parseTokensLoop fuel commands'
            { ogkr with track :=
                { ogkr.track with obliqueBeams := ogkr.track.obliqueBeams ++ [sec] } }
        | .err e => .err e
        | .panic => .panic
      | .bell v =>
        parseTokensLoop fuel commands
          { ogkr with notes := { ogkr.notes with bells := ogkr.notes.bells ++ [v] } }
      | .flick v =>
        parseTokensLoop fuel commands
          { ogkr with notes := { ogkr.notes with flicks := ogkr.notes.flicks ++ [v] } }
      | .criticalFlick v =>
        parseTokensLoop fuel commands
          { ogkr with notes :=
              { ogkr.notes with criticalFlicks := ogkr.notes.criticalFlicks ++ [v] } }
      | .tap v =>
        parseTokensLoop fuel commands
          { ogkr with notes := { ogkr.notes with taps := ogkr.notes.taps ++ [v] } }
      | .criticalTap v =>
        parseTokensLoop fuel commands
          { ogkr with notes :=
              { ogkr.notes with criticalTaps := ogkr.notes.criticalTaps ++ [v] } }
      | .hold v =>
        parseTokensLoop fuel commands
          { ogkr with notes := { ogkr.notes with holds := ogkr.notes.holds ++ [v] } }
      | .criticalHold v =>
        parseTokensLoop fuel commands
          { ogkr with notes :=
              { ogkr.notes with criticalHolds := ogkr.notes.criticalHolds ++ [v] } }
      | t => .err (.syntaxError t)

/-- `parse_tokens` (raw.rs). -/
def parseTokens (tokenStream : List Token) : PRes RawOgkr :=
  parseTokensLoop (tokenStream.length + 1) tokenStream {}

end Raw

/-! ## Association-list models of the std maps

`HashMap` becomes an association list: `alInsert` replaces the value of an
existing key in place (Rust `insert`); `alValues` determinizes the
unspecified `HashMap::values` iteration order to insertion order — no
theorem below depends on that order.  `BTreeMap` becomes an association
list kept sorted by key. -/

def alInsert {κ β : Type} [DecidableEq κ] (m : List (κ × β)) (k : κ) (v : β) :
    List (κ × β) :=
  match m with
  | [] => [(k, v)]
  | (k', v') :: rest => if k' = k then (k, v) :: rest else (k', v') :: alInsert rest k v

def alLookup {κ β : Type} [DecidableEq κ] (m : List (κ × β)) (k : κ) : Option β :=
  match m with
  | [] => none
  | (k', v) :: rest => if k' = k then some v else alLookup rest k

def alContainsKey {κ β : Type} [DecidableEq κ] (m : List (κ × β)) (k : κ) : Bool :=
  (alLookup m k).isSome

def alValues {κ β : Type} (m : List (κ × β)) : List β := m.map Prod.snd

/-- `HashMap::extend`: insert every pair of the second map. -/
def alExtend {κ β : Type} [DecidableEq κ] (m m' : List (κ × β)) : List (κ × β) :=
  m'.foldl (fun acc e => alInsert acc e.1 e.2) m

/-- `BTreeMap::insert` on a `TimingPoint`-keyed sorted association list. -/
def btInsert {β : Type} (m : List (Ana.TimingPoint × β)) (k : Ana.TimingPoint) (v : β) :
    List (Ana.TimingPoint × β) :=
  match m with
  | [] => [(k, v)]
  | (k', v') :: rest =>
    match Ana.tcmp k k' with
    | .lt => (k, v) :: (k', v') :: rest
    | .eq => (k, v) :: rest
    | .gt => (k', v') :: btInsert rest k v

/-- `map.entry(k).or_insert_with(Vec::new).push(x)`. -/
def btEntryPush {β : Type} (m : List (Ana.TimingPoint × List β)) (k : Ana.TimingPoint)
    (x : β) : List (Ana.TimingPoint × List β) :=
  match m with
  | [] => [(k, [x])]
  | (k', l) :: rest =>
    match Ana.tcmp k k' with
    | .lt => (k, [x]) :: (k', l) :: rest
    | .eq => (k', l ++ [x]) :: rest
    | .gt => (k', l) :: btEntryPush rest k x

/-- `BTreeMap::last_key_value`. -/
def btLast {β : Type} (m : List (Ana.TimingPoint × β)) : Option (Ana.TimingPoint × β) :=
  m.getLast?

/-! ## Semantic resolution (`parse/analysis.rs`) -/

namespace Ana

structure BulletPalette where
  id : BulletPaletteId
  shooter : Cmd.BulletShooter
  target : Cmd.BulletTarget
  xOffset : Int
  /-- `f32::from_bits(palette.speed)`: the float value is represented by its
  bit pattern. -/
  speed : Nat
  size : Option Cmd.BulletSize
  bulletType : Option Cmd.BulletType
  randomPositionOffset : Option Int
  damageType : Option Cmd.BulletDamageType
  deriving DecidableEq

def BulletPalette.ofCommand (palette : Cmd.BulletPalette) : BulletPalette :=
  { id := { id := palette.id }
    shooter := palette.shooter
    target := palette.target
    xOffset := palette.targetXOffset
    speed := palette.speed
    size := palette.size
    bulletType := palette.ty
    randomPositionOffset := palette.randomPositionOffset
    damageType := palette.damageType }

inductive LaneType where
  | wallLeft
  | wallRight
  | left
  | center
  | right
  | enemy
  deriving DecidableEq

/-- Walls and lanes share one id space. -/
structure LaneId where
  id : Nat
  deriving DecidableEq

structure Lane where
  id : LaneId
  laneType : LaneType
  /-- Sorted by time (documented invariant). -/
  points : List TrackPosition
  deriving DecidableEq

/-- Result of `slice::binary_search_by`. -/
inductive BsResult where
  | found (i : Nat)
  | notFound (i : Nat)
  deriving DecidableEq

/-- The `slice::binary_search_by` loop (Rust std): invariantly
`mid = left + (right - left) / 2`; `left < right` keeps searching.  The
loop is written with a structural fuel argument so that concrete inputs
evaluate inside the kernel: whenever `right - left ≤ fuel` (true at every
call site below, since the window shrinks by at least one per iteration)
the function computes exactly the std loop.  The `none` branch of the
index lookup is unreachable while `right ≤ points.length`. -/
def bsLoop (points : List TrackPosition) (key : TimingPoint) :
    Nat → Nat → Nat → BsResult
  | fuel + 1, left, right =>
    if left < right then
      match points[left + (right - left) / 2]? with
      | some p =>
        match tcmp p.time key with
        | .lt => bsLoop points key fuel (left + (right - left) / 2 + 1) right
        | .gt => bsLoop points key fuel left (left + (right - left) / 2)
        | .eq => .found (left + (right - left) / 2)
      | none => .notFound left
    else .notFound left
  | 0, left, _ => .notFound left

/-- `self.points.binary_search_by(|point| point.time.cmp(&t))`. -/
def binarySearchByTime (points : List TrackPosition) (key : TimingPoint) : BsResult :=
  bsLoop points key points.length 0 points.length

/-- The `(start_index, start_exact)` match of
`create_points_within_time_interval`. -/
def resolveStartIdx (points : List TrackPosition) (start : TrackPosition) : Nat × Bool :=
  match binarySearchByTime points start.time with
  | .found idx => (idx, true)
  | .notFound idx => (idx, false)

/-- The `(end_index, end_exact)` match: a miss uses the insertion index minus
one, clamped to zero. -/
def resolveEndIdx (points : List TrackPosition) (endPoint : TrackPosition) : Nat × Bool :=
  match binarySearchByTime points endPoint.time with
  | .found idx => (idx, true)
  | .notFound idx => (if idx > 0 then idx - 1 else idx, false)

/-- `assert_ne!(l[i], l[j])` at already-fetched operands: `false` models a
panic (assertion failure, or out-of-bounds indexing when an operand is
missing). -/
def assertNePair (a? b? : Option TrackPosition) : Bool :=
  match a?, b? with
  | some a, some b => decide (a ≠ b)
  | _, _ => false

/-- The `result` vector built inside the valid-range branch of
`create_points_within_time_interval`: the synthetic start when the start
search was inexact, then the included slice `points[start_index..=end_index]`,
then the synthetic end when the end search was inexact. -/
def interpolationResult (lane : Lane) (start endPoint : TrackPosition) :
    List TrackPosition :=
  let rs := resolveStartIdx lane.points start
  let re := resolveEndIdx lane.points endPoint
  (if rs.2 then [] else [start]) ++
    ((lane.points.drop rs.1).take (re.1 + 1 - rs.1)) ++
    (if re.2 then [] else [endPoint])

/-- `Lane::create_points_within_time_interval`.  The two `assert_ne!`
statements are modelled in source order; the commented-out error path of
the source is dead code, so the invalid-range branch returns
`Ok(vec![start, end])`. -/
def Lane.createPointsWithinTimeInterval (lane : Lane) (start endPoint : TrackPosition) :
    PRes (List TrackPosition) :=
  let rs := resolveStartIdx lane.points start
  let re := resolveEndIdx lane.points endPoint
  if rs.1 ≤ re.1 ∧ re.1 < lane.points.length then
    let result := interpolationResult lane start endPoint
    if assertNePair result[0]? result[1]? then
      if assertNePair result[result.length - 2]? result[result.length - 1]? then
        .ok result
      else .panic
    else .panic
  else .ok [start, endPoint]

def Lane.fromWallSection (wallSection : Raw.WallSection) (laneType : LaneType) : PRes Lane :=
  if wallSection.points.length ≥ 2 then
    .ok { id := { id := wallSection.groupId }
          laneType
          points := wallSection.points.map TrackPosition.fromWallPoint }
  else .err (.semanticError (.laneSectionMinPoints wallSection.groupId))

def Lane.fromLaneSection (laneSection : Raw.LaneSection) (laneType : LaneType) : PRes Lane :=
  if laneSection.points.length ≥ 2 then
    .ok { id := { id := laneSection.groupId }
          laneType
          points := laneSection.points.map TrackPosition.fromLanePoint }
  else .err (.semanticError (.laneSectionMinPoints laneSection.groupId))

structure ColorfulLaneId where
  id : Nat
  deriving DecidableEq

structure ColorfulLaneColor where
  color : Nat
  deriving DecidableEq

structure ColorfulLanePoint where
  position : TrackPosition
  color : ColorfulLaneColor
  brightness : Nat
  deriving DecidableEq

def ColorfulLanePoint.ofCommand (p : Cmd.ColorfulLanePoint) : ColorfulLanePoint :=
  { position := TrackPosition.fromCommandColorfulLanePoint p
    color := { color := p.color }
    brightness := p.brightness }

structure ColorfulLane where
  id : ColorfulLaneId
  start : ColorfulLanePoint
  middle : List ColorfulLanePoint
  endPoint : ColorfulLanePoint
  deriving DecidableEq

/-- `ColorfulLane::from_section`.  The interior slice `points[1..len-1]`
panics in Rust when the section has exactly one point (range `1..0`); the
semantic error is raised only for an empty point list. -/
def ColorfulLane.fromSection (laneSection : Raw.ColorfulLaneSection) : PRes ColorfulLane :=
  match laneSection.points.head?, laneSection.points.getLast? with
  | some start, some endPoint =>
    if laneSection.points.length ≥ 2 then
      .ok { id := { id := laneSection.groupId }
            start := ColorfulLanePoint.ofCommand start
            middle := ((laneSection.points.drop 1).take (laneSection.points.length - 2)).map
              ColorfulLanePoint.ofCommand
            endPoint := ColorfulLanePoint.ofCommand endPoint }
    else .panic
  | _, _ => .err (.semanticError (.colorfulLaneMinPoints laneSection.groupId))

structure BeamId where
  id : Nat
  deriving DecidableEq

structure BeamPoint where
  position : TrackPosition
  width : Nat
  deriving DecidableEq

def BeamPoint.ofCommand (p : Cmd.BeamPoint) : BeamPoint :=
  { position := TrackPosition.fromCommandInfo p.time p.xPosition 0, width := p.width }

structure Beam where
  id : BeamId
  start : BeamPoint
  middle : List BeamPoint
  endPoint : BeamPoint
  deriving DecidableEq

/-- `Beam::from_section`; same one-point panic as `ColorfulLane::from_section`. -/
def Beam.fromSection (beamSection : Raw.BeamSection) : PRes Beam :=
  match beamSection.points.head?, beamSection.points.getLast? with
  | some start, some endPoint =>
    if beamSection.points.length ≥ 2 then
      .ok { id := { id := beamSection.recordId }
            start := BeamPoint.ofCommand start
            middle := ((beamSection.points.drop 1).take (beamSection.points.length - 2)).map
              BeamPoint.ofCommand
            endPoint := BeamPoint.ofCommand endPoint }
    else .panic
  | _, _ => .err (.semanticError (.beamSectionMinPoints beamSection.recordId))

structure ObliqueBeamId where
  id : Nat
  deriving DecidableEq

structure ObliqueBeamPoint where
  position : TrackPosition
  width : Nat
  shootXOffset : Int
  deriving DecidableEq

def ObliqueBeamPoint.ofCommand (p : Cmd.ObliqueBeamPoint) : ObliqueBeamPoint :=
  { position := TrackPosition.fromCommandInfo p.time p.xPosition 0
    width := p.width
    shootXOffset := p.shootPositionXOffset }

structure ObliqueBeam where
  id : ObliqueBeamId
  start : ObliqueBeamPoint
  middle : List ObliqueBeamPoint
  endPoint : ObliqueBeamPoint
  deriving DecidableEq

/-- `ObliqueBeam::from_section`; same one-point panic as above. -/
def ObliqueBeam.fromSection (beamSection : Raw.ObliqueBeamSection) : PRes ObliqueBeam :=
  match beamSection.points.head?, beamSection.points.getLast? with
  | some start, some endPoint =>
    if beamSection.points.length ≥ 2 then
      .ok { id := { id := beamSection.recordId }
            start := ObliqueBeamPoint.ofCommand start
            middle := ((beamSection.points.drop 1).take (beamSection.points.length - 2)).map
              ObliqueBeamPoint.ofCommand
            endPoint := ObliqueBeamPoint.ofCommand endPoint }
    else .panic
  | _, _ => .err (.semanticError (.obliqueBeamSectionMinPoints beamSection.recordId))

structure BellNote where
  position : TrackPosition
  bulletPalette : Option BulletPaletteId
  deriving DecidableEq

def BellNote.ofCommand (bell : Cmd.Bell) : BellNote :=
  { position := TrackPosition.fromCommandInfo bell.time bell.xPosition 0
    bulletPalette := bell.bulletPaletteId.map (fun b => { id := b }) }

structure FlickNote where
  position : TrackPosition
  direction : Cmd.FlickDirection
  isCritical : Bool
  deriving DecidableEq

def FlickNote.fromFlick (flick : Cmd.Flick) (isCritical : Bool) : FlickNote :=
  { position := TrackPosition.fromCommandInfo flick.time flick.xPosition 0
    direction := flick.direction
    isCritical }

structure TapNote where
  laneId : LaneId
  laneType : LaneType
  position : TrackPosition
  isCritical : Bool
  deriving DecidableEq

def TapNote.fromTap (tap : Cmd.Tap) (laneType : LaneType) (isCritical : Bool) : TapNote :=
  { laneId := { id := tap.laneGroupId }
    laneType
    position := TrackPosition.fromCommandInfo tap.time tap.xPosition tap.xOffset
    isCritical }

structure HoldNote where
  laneId : LaneId
  laneType : LaneType
  start : TrackPosition
  endPoint : TrackPosition
  /-- Includes start and end. -/
  points : List TrackPosition
  isCritical : Bool
  deriving DecidableEq

/-- `HoldNote::from_hold_and_lane`. -/
def HoldNote.fromHoldAndLane (hold : Cmd.Hold) (lane : Lane) (isCritical : Bool) :
    PRes HoldNote := do
  let start := TrackPosition.fromCommandInfo hold.startTime hold.startXPosition hold.startXOffset
  let endPoint := TrackPosition.fromCommandInfo hold.endTime hold.endXPosition hold.endXOffset
  let points ← lane.createPointsWithinTimeInterval start endPoint
  pure { laneId := { id := hold.laneGroupId }
         laneType := lane.laneType
         start
         endPoint
         points
         isCritical }

structure Track where
  lanesLeft : List (TimingPoint × List LaneId)
  lanesCenter : List (TimingPoint × List LaneId)
  lanesRight : List (TimingPoint × List LaneId)
  colorfulLanes : List (TimingPoint × ColorfulLaneId)
  wallsLeft : List (TimingPoint × LaneId)
  wallsRight : List (TimingPoint × LaneId)
  enemyLanes : List (TimingPoint × List LaneId)
  beams : List (TimingPoint × BeamId)
  obliqueBeams : List (TimingPoint × ObliqueBeamId)
  lanesData : List (LaneId × Lane)
  colorfulLanesData : List (ColorfulLaneId × ColorfulLane)
  beamsData : List (BeamId × Beam)
  obliqueBeamsData : List (ObliqueBeamId × ObliqueBeam)
  deriving DecidableEq

def Track.getLane (track : Track) (id : LaneId) : Option Lane :=
  alLookup track.lanesData id

/-- The duplicated try-fold shared by the five `Track::map_*` functions:
build each section's entity, then insert it into the id-keyed lookup.  A
duplicate id only logs a warning in the source; the insert replaces the
previous entry. -/
def indexFoldBy {σ β κ : Type} [DecidableEq κ] (mk : σ → PRes β) (key : β → κ)
    (l : List σ) : PRes (List (κ × β)) :=
  l.foldlM (fun m s => do
    let e ← mk s
    pure (alInsert m (key e) e)) []

/-- Specification view of one `indexFoldBy` step at a fixed key `k`: the
optional value recorded at `k` after processing source `s` (used to state the
last-write-wins characterization of the duplicate-id folds). -/
def lastStep {σ β κ : Type} [DecidableEq κ] (mk : σ → PRes β) (key : β → κ) (k : κ)
    (acc : Option β) (s : σ) : Option β :=
  match mk s with
  | .ok e => if key e = k then some e else acc
  | _ => acc

/-- Second fold of `Track::map_lanes`: index the lanes by first-point time
into id lists; `points.first().unwrap()` panics on an empty point list. -/
def indexLanesByFirstTime (lanesData : List (LaneId × Lane)) :
    PRes (List (TimingPoint × List LaneId)) :=
  (alValues lanesData).foldlM (fun m lane =>
    match lane.points.head? with
    | some p => pure (btEntryPush m p.time lane.id)
    | none => (.panic : PRes _)) []

/-- Second fold of `Track::map_walls`: like `indexLanesByFirstTime` but the
time index maps to a single id (`insert`, not entry-push). -/
def indexWallsByFirstTime (wallsData : List (LaneId × Lane)) :
    PRes (List (TimingPoint × LaneId)) :=
  (alValues wallsData).foldlM (fun m wall =>
    match wall.points.head? with
    | some p => pure (btInsert m p.time wall.id)
    | none => (.panic : PRes _)) []

/-- `Track::map_lanes`. -/
def Track.mapLanes (lanes : List Raw.LaneSection) (laneType : LaneType) :
    PRes (List (TimingPoint × List LaneId) × List (LaneId × Lane)) := do
  let lanesData ← indexFoldBy (fun laneSection => Lane.fromLaneSection laneSection laneType)
    (fun lane => lane.id) lanes
  let lanesSorted ← indexLanesByFirstTime lanesData
  pure (lanesSorted, lanesData)

/-- `Track::map_walls`. -/
def Track.mapWalls (walls : List Raw.WallSection) (laneType : LaneType) :
    PRes (List (TimingPoint × LaneId) × List (LaneId × Lane)) := do
  let wallsData ← indexFoldBy (fun wallSection => Lane.fromWallSection wallSection laneType)
    (fun wall => wall.id) walls
  let wallsSorted ← indexWallsByFirstTime wallsData
  pure (wallsSorted, wallsData)

/-- `Track::map_colorful_lanes`. -/
def Track.mapColorfulLanes (lanes : List Raw.ColorfulLaneSection) :
    PRes (List (TimingPoint × ColorfulLaneId) × List (ColorfulLaneId × ColorfulLane)) := do
  let lanesData ← indexFoldBy (fun laneSection => ColorfulLane.fromSection laneSection)
    (fun lane => lane.id) lanes
  let lanesSorted := (alValues lanesData).foldl
    (fun m lane => btInsert m lane.start.position.time lane.id) []
  pure (lanesSorted, lanesData)

/-- `Track::map_beams`. -/
def Track.mapBeams (beams : List Raw.BeamSection) :
    PRes (List (TimingPoint × BeamId) × List (BeamId × Beam)) := do
  let beamsData ← indexFoldBy (fun beamSection => Beam.fromSection beamSection)
    (fun beam => beam.id) beams
  let beamsSorted := (alValues beamsData).foldl
    (fun m beam => btInsert m beam.start.position.time beam.id) []
  pure (beamsSorted, beamsData)

/-- `Track::map_oblique_beams`. -/
def Track.mapObliqueBeams (beams : List Raw.ObliqueBeamSection) :
    PRes (List (TimingPoint × ObliqueBeamId) × List (ObliqueBeamId × ObliqueBeam)) := do
  let beamsData ← indexFoldBy (fun beamSection => ObliqueBeam.fromSection beamSection)
    (fun beam => beam.id) beams
  let beamsSorted := (alValues beamsData).foldl
    (fun m beam => btInsert m beam.start.position.time beam.id) []
  pure (beamsSorted, beamsData)

/-- `Track::from_raw`. -/
def Track.fromRaw (raw : Raw.RawTrack) : PRes Track := do
  let (lanesLeft, lanesLeftData) ← Track.mapLanes raw.lanesLeft .left
  let (lanesCenter, lanesCenterData) ← Track.mapLanes raw.lanesCenter .center
  let (lanesRight, lanesRightData) ← Track.mapLanes raw.lanesRight .right
  let (enemyLanes, enemyLanesData) ← Track.mapLanes raw.enemyLanes .enemy
  let (wallsLeft, wallsLeftData) ← Track.mapWalls raw.wallsLeft .wallLeft
  let (wallsRight, wallsRightData) ← Track.mapWalls raw.wallsRight .wallRight
  let lanesData :=
    alExtend (alExtend (alExtend (alExtend (alExtend lanesLeftData lanesCenterData)
      lanesRightData) enemyLanesData) wallsLeftData) wallsRightData
  let (colorfulLanes, colorfulLanesData) ← Track.mapColorfulLanes raw.colorfulLanes
  let (beams, beamsData) ← Track.mapBeams raw.beams
  let (obliqueBeams, obliqueBeamsData) ← Track.mapObliqueBeams raw.obliqueBeams
  pure { lanesLeft, lanesCenter, lanesRight, wallsLeft, wallsRight, colorfulLanes,
         enemyLanes, beams, obliqueBeams, lanesData, colorfulLanesData, beamsData,
         obliqueBeamsData }

structure Notes where
  taps : List (TimingPoint × List TapNote)
  holds : List (TimingPoint × List HoldNote)
  bells : List (TimingPoint × List BellNote)
  flicks : List (TimingPoint × List FlickNote)
  deriving DecidableEq

/-- `Notes::map_tap_notes`: a tap whose lane id has no resolved lane is a
hard semantic error carrying the offending note. -/
def Notes.mapTapNotes (taps : List Cmd.Tap) (track : Track) (isCritical : Bool) :
    PRes (List (TimingPoint × List TapNote)) :=
  taps.foldlM (fun m note =>
    match track.getLane { id := note.laneGroupId } with
    | some lane =>
      let tapNote := TapNote.fromTap note lane.laneType isCritical
      pure (btEntryPush m tapNote.position.time tapNote)
    | none => (.err (.semanticError (.tapInvalidLane note)) : PRes _)) []

/-- `Notes::map_hold_notes`. -/
def Notes.mapHoldNotes (holds : List Cmd.Hold) (track : Track) (isCritical : Bool) :
    PRes (List (TimingPoint × List HoldNote)) :=
  holds.foldlM (fun m note =>
    match track.getLane { id := note.laneGroupId } with
    | some lane => do
      let holdNote ← HoldNote.fromHoldAndLane note lane isCritical
      pure (btEntryPush m holdNote.start.time holdNote)
    | none => (.err (.semanticError (.holdInvalidLane note)) : PRes _)) []

/-- `Notes::map_bell_notes`. -/
def Notes.mapBellNotes (bells : List Cmd.Bell) : PRes (List (TimingPoint × List BellNote)) :=
  bells.foldlM (fun m note =>
    let bellNote := BellNote.ofCommand note
    pure (btEntryPush m bellNote.position.time bellNote)) []

/-- `Notes::map_flick_notes`. -/
def Notes.mapFlickNotes (flicks : List Cmd.Flick) (isCritical : Bool) :
    PRes (List (TimingPoint × List FlickNote)) :=
  flicks.foldlM (fun m note =>
    let flickNote := FlickNote.fromFlick note isCritical
    pure (btEntryPush m flickNote.position.time flickNote)) []

/-- `Notes::from_raw`: critical and non-critical maps are chained and
re-collected; a shared timing key makes the critical entry replace the
non-critical one (BTreeMap `collect` semantics). -/
def Notes.fromRaw (raw : Raw.RawNotes) (track : Track) : PRes Notes := do
  let tapsA ← Notes.mapTapNotes raw.taps track false
  let tapsB ← Notes.mapTapNotes raw.criticalTaps track true
  let taps := (tapsA ++ tapsB).foldl (fun m e => btInsert m e.1 e.2) []
  let holdsA ← Notes.mapHoldNotes raw.holds track false
  let holdsB ← Notes.mapHoldNotes raw.criticalHolds track true
  let holds := (holdsA ++ holdsB).foldl (fun m e => btInsert m e.1 e.2) []
  let bells ← Notes.mapBellNotes raw.bells
  let flicksA ← Notes.mapFlickNotes raw.flicks false
  let flicksB ← Notes.mapFlickNotes raw.criticalFlicks true
  let flicks := (flicksA ++ flicksB).foldl (fun m e => btInsert m e.1 e.2) []
  pure { taps, holds, bells, flicks }

structure Bullets where
  bulletPaletteList : List (BulletPaletteId × BulletPalette)
  bullets : List (TimingPoint × List Bullet)
  deriving DecidableEq

/-- First fold of `Bullets::from_raw`: palettes into an id-keyed lookup
without duplicate detection. -/
def buildPaletteList (palettes : List Cmd.BulletPalette) :
    List (BulletPaletteId × BulletPalette) :=
  palettes.foldl (fun m p =>
    let palette := BulletPalette.ofCommand p
    alInsert m palette.id palette) []

/-- `Bullets::from_raw`: palettes are folded into an id-keyed lookup without
duplicate detection; a bullet whose palette id is absent from that lookup is
a hard semantic error carrying the resolved bullet. -/
def Bullets.fromRaw (palettes : List Cmd.BulletPalette) (bullets : List Cmd.Bullet) :
    PRes Bullets := do
  let bulletPaletteList := buildPaletteList palettes
  let bullets ← bullets.foldlM (fun m b =>
    let bullet := Bullet.ofCommand b
    if alContainsKey bulletPaletteList bullet.paletteId then
      pure (btEntryPush m bullet.position.time bullet)
    else (.err (.semanticError (.bulletInvalidPalette bullet)) : PRes _)) []
  pure { bulletPaletteList, bullets }

def Bullets.getBulletPalette (bullets : Bullets) (id : BulletPaletteId) :
    Option BulletPalette :=
  alLookup bullets.bulletPaletteList id

structure BpmChange where
  time : TimingPoint
  bpm : Nat
  deriving DecidableEq

def BpmChange.ofCommand (b : Cmd.BpmChange) : BpmChange :=
  { time := TimingPoint.ofCommandTime b.time, bpm := b.bpm }

structure MeterChange where
  time : TimingPoint
  numBeats : Nat
  noteValue : Nat
  deriving DecidableEq

def MeterChange.ofCommand (m : Cmd.MeterChange) : MeterChange :=
  { time := TimingPoint.ofCommandTime m.time, numBeats := m.numBeats, noteValue := m.noteValue }

structure Soflan where
  time : TimingPoint
  duration : Nat
  /-- `f32::from_bits`: carried as the bit pattern. -/
  speedMultiplier : Nat
  deriving DecidableEq

def Soflan.ofCommand (s : Cmd.Soflan) : Soflan :=
  { time := TimingPoint.ofCommandTime s.time, duration := s.duration,
    speedMultiplier := s.currentSpeedMultiplier }

structure Composition where
  bpmChanges : List (TimingPoint × BpmChange)
  meterChanges : List (TimingPoint × MeterChange)
  soflans : List (TimingPoint × Soflan)
  deriving DecidableEq

/-- `Composition::from_raw`. -/
def Composition.fromRaw (raw : Raw.RawComposition) : Composition :=
  { bpmChanges := raw.bpmChanges.foldl (fun m b =>
      let bpmChange := BpmChange.ofCommand b
      btInsert m bpmChange.time bpmChange) []
    meterChanges := raw.meterChanges.foldl (fun m b =>
      let meterChange := MeterChange.ofCommand b
      btInsert m meterChange.time meterChange) []
    soflans := raw.soflans.foldl (fun m b =>
      let soflan := Soflan.ofCommand b
      btInsert m soflan.time soflan) [] }

structure ClickSound where
  time : TimingPoint
  deriving DecidableEq

def ClickSound.ofCommand (c : Cmd.ClickSound) : ClickSound :=
  { time := TimingPoint.ofCommandTime c.time }

structure ExtraMetadata where
  numMeasures : Nat
  deriving DecidableEq

/-- `ExtraMetadata::new`: unwraps `last_key_value()` of the left and right
wall indexes — a chart with no left or no right wall section makes this
panic. -/
def ExtraMetadata.new (track : Track) (_notes : Notes) (_bullets : Bullets) :
    PRes ExtraMetadata :=
  match btLast track.wallsLeft with
  | some l =>
    match btLast track.wallsRight with
    | some r => .ok { numMeasures := max l.1.measure r.1.measure }
    | none => .panic
  | none => .panic

structure Ogkr where
  header : Header
  composition : Composition
  track : Track
  notes : Notes
  bullets : Bullets
  clickSounds : List ClickSound
  enemyWaveAssignment : EnemyWaveAssignment
  extraMetadata : ExtraMetadata
  deriving DecidableEq

/-- `Ogkr::map_click_sounds`. -/
def mapClickSounds (clickSounds : List Cmd.ClickSound) : List ClickSound :=
  clickSounds.map ClickSound.ofCommand

/-- `Ogkr::from_raw`. -/
def Ogkr.fromRaw (raw : Raw.RawOgkr) : PRes Ogkr := do
  let header := raw.header
  let composition := Composition.fromRaw raw.composition
  let track ← Track.fromRaw raw.track
  let notes ← Notes.fromRaw raw.notes track
  let bullets ← Bullets.fromRaw raw.bulletPalleteList raw.bullets
  let clickSounds := mapClickSounds raw.clickSounds
  let enemyWaveAssignment := raw.enemyWaveAssignment
  let extraMetadata ← ExtraMetadata.new track notes bullets
  pure { header, composition, track, notes, bullets, clickSounds,
         enemyWaveAssignment, extraMetadata }

end Ana

/-- `parse_raw_ogkr` (analysis.rs). -/
def parseRawOgkr (raw : Raw.RawOgkr) : PRes Ana.Ogkr :=
  Ana.Ogkr.fromRaw raw

/-! ## Concrete fixtures used by witnesses and counterexamples -/

namespace Fixture

/-- A track position at time `(m, o)` and x position `x` (offset 0). -/
def tpos (m o : Nat) (x : Int) : Ana.TrackPosition :=
  { time := { measure := m, beatOffset := o }, x := { position := x, offset := 0 } }

/-- Two-point lane at times (0,0) and (1,0). -/
def laneA : Ana.Lane :=
  { id := { id := 1 }, laneType := .left, points := [tpos 0 0 0, tpos 1 0 2] }

/-- Three-point lane at times (0,0), (1,0), (2,0). -/
def laneB : Ana.Lane :=
  { id := { id := 2 }, laneType := .center, points := [tpos 0 0 0, tpos 1 0 2, tpos 2 0 4] }

/-- Two-point left-lane raw section with group id 1, x positions 0. -/
def sectionA : Raw.LaneSection :=
  { groupId := 1
    points := [{ groupId := 1, time := { measure := 0, offset := 0 }, xPosition := 0 },
               { groupId := 1, time := { measure := 1, offset := 0 }, xPosition := 0 }] }

/-- Two-point left-lane raw section with the same group id 1 but x positions 5. -/
def sectionB : Raw.LaneSection :=
  { groupId := 1
    points := [{ groupId := 1, time := { measure := 0, offset := 0 }, xPosition := 5 },
               { groupId := 1, time := { measure := 1, offset := 0 }, xPosition := 5 }] }

/-- The lane entity resolved from `sectionA`. -/
def laneFromSectionA : Ana.Lane :=
  { id := { id := 1 }, laneType := .left, points := [tpos 0 0 0, tpos 1 0 0] }

/-- The lane entity resolved from `sectionB`. -/
def laneFromSectionB : Ana.Lane :=
  { id := { id := 1 }, laneType := .left, points := [tpos 0 0 5, tpos 1 0 5] }

/-- Two-point wall raw sections sharing group id 3. -/
def wallSectionA : Raw.WallSection :=
  { groupId := 3
    points := [{ groupId := 3, time := { measure := 0, offset := 0 }, xPosition := 0 },
               { groupId := 3, time := { measure := 1, offset := 0 }, xPosition := 0 }] }

def wallSectionB : Raw.WallSection :=
  { groupId := 3
    points := [{ groupId := 3, time := { measure := 0, offset := 0 }, xPosition := 4 },
               { groupId := 3, time := { measure := 1, offset := 0 }, xPosition := 4 }] }

/-- Two-point colorful lane raw section with group id 4. -/
def colorfulSectionA : Raw.ColorfulLaneSection :=
  { groupId := 4
    points := [{ groupId := 4, time := { measure := 0, offset := 0 }, xPosition := 0,
                 color := 1, brightness := 2 },
               { groupId := 4, time := { measure := 1, offset := 0 }, xPosition := 0,
                 color := 1, brightness := 2 }] }

/-- Two-point beam raw section with record id 5. -/
def beamSectionA : Raw.BeamSection :=
  { recordId := 5
    points := [{ recordId := 5, time := { measure := 0, offset := 0 }, xPosition := 0,
                 width := 2 },
               { recordId := 5, time := { measure := 1, offset := 0 }, xPosition := 0,
                 width := 2 }] }

/-- Two-point oblique beam raw section with record id 6. -/
def obliqueSectionA : Raw.ObliqueBeamSection :=
  { recordId := 6
    points := [{ recordId := 6, time := { measure := 0, offset := 0 }, xPosition := 0,
                 width := 2, shootPositionXOffset := 0 },
               { recordId := 6, time := { measure := 1, offset := 0 }, xPosition := 0,
                 width := 2, shootPositionXOffset := 0 }] }

/-- The undeclared-lane chart of the concrete reference-integrity scenario. -/
def src6 : String := "BPM_DEF 500000000 500000000 500000000 500000000\nTAP 1 0 0 0 0\n"

/-- The tap command decoded from `TAP 1 0 0 0 0`. -/
def tap6 : Cmd.Tap :=
  { laneGroupId := 1, time := { measure := 0, offset := 0 }, xPosition := 0, xOffset := 0 }

/-- The BPM definition decoded from `BPM_DEF 500000000 ...`: the four fields
hold the `f32` bit pattern of `5e8`. -/
def bpm6 : Cmd.BpmDefinition :=
  { first := 1307470632, common := 1307470632, minimum := 1307470632, maximum := 1307470632 }

/-- The token stream of `src6`. -/
def toks6 : List Token := [.bpmDefinition bpm6, .tap tap6]

/-- The raw aggregate parsed from `toks6`. -/
def raw6 : Raw.RawOgkr :=
  { header := { bpmDefinition := some bpm6 }
    composition := { bpmFirst := 1307470632 }
    notes := { taps := [tap6] } }

/-- A tap citing the undeclared lane id 99. -/
def tapMissing : Cmd.Tap :=
  { laneGroupId := 99, time := { measure := 0, offset := 0 }, xPosition := 0, xOffset := 0 }

/-- A bullet citing palette id "zz", absent from the empty palette list. -/
def bulletMissing : Cmd.Bullet :=
  { palleteId := "zz", time := { measure := 0, offset := 0 }, xPosition := 0
    damageType := .normal }

/-- A zero-length hold landing exactly on the first point of lane 1: its
interpolation panics. -/
def holdPanic : Cmd.Hold :=
  { laneGroupId := 1
    startTime := { measure := 0, offset := 0 }, startXPosition := 7, startXOffset := 0
    endTime := { measure := 0, offset := 0 }, endXPosition := 7, endXOffset := 0 }

/-- A hold citing the undeclared lane id 99. -/
def holdMissing : Cmd.Hold :=
  { laneGroupId := 99
    startTime := { measure := 0, offset := 0 }, startXPosition := 0, startXOffset := 0
    endTime := { measure := 1, offset := 0 }, endXPosition := 0, endXOffset := 0 }

/-- Wall points for the group-id-mismatch scenario. -/
def wallPt1 : Cmd.WallPoint :=
  { groupId := 1, time := { measure := 0, offset := 0 }, xPosition := 0 }

def wallPt1b : Cmd.WallPoint :=
  { groupId := 1, time := { measure := 1, offset := 0 }, xPosition := 0 }

def wallPt2 : Cmd.WallPoint :=
  { groupId := 2, time := { measure := 1, offset := 0 }, xPosition := 0 }

/-- Lane points for the section-contiguity scenario (all group id 1). -/
def lanePt1a : Cmd.LanePoint :=
  { groupId := 1, time := { measure := 0, offset := 0 }, xPosition := 0 }

def lanePt1b : Cmd.LanePoint :=
  { groupId := 1, time := { measure := 1, offset := 0 }, xPosition := 1 }

def lanePt1c : Cmd.LanePoint :=
  { groupId := 1, time := { measure := 2, offset := 0 }, xPosition := 2 }

/-- Enemy lane points (group id 1). -/
def enemyPt1a : Cmd.EnemyLanePoint :=
  { groupId := 1, time := { measure := 0, offset := 0 }, xPosition := 0 }

def enemyPt1b : Cmd.EnemyLanePoint :=
  { groupId := 1, time := { measure := 1, offset := 0 }, xPosition := 1 }

/-- The palette decoded from `pal UPS 0 PLR 1 NML` (old one-field tail). -/
def palOld : Cmd.BulletPalette :=
  { id := "pal", shooter := .endPosition, targetXOffset := 0, target := .player
    speed := 1065353216, size := none, ty := none, randomPositionOffset := none
    damageType := some .normal }

/-- The bullet decoded from `pal 2 3 4`. -/
def blt1 : Cmd.Bullet :=
  { palleteId := "pal", time := { measure := 2, offset := 3 }, xPosition := 4
    damageType := .normal }

/-- A track whose only lane is `laneA` (lane id 1). -/
def trackA : Ana.Track :=
  { lanesLeft := [], lanesCenter := [], lanesRight := [], colorfulLanes := []
    wallsLeft := [], wallsRight := [], enemyLanes := [], beams := [], obliqueBeams := []
    lanesData := [({ id := 1 }, laneA)]
    colorfulLanesData := [], beamsData := [], obliqueBeamsData := [] }

end Fixture

/-! # Lemmas -/

namespace Ana

theorem tcmp_eq_iff (a b : TimingPoint) : tcmp a b = .eq ↔ a = b := by
  unfold tcmp
  cases hm : compare a.measure b.measure with
  | lt => simp only [Ordering.then]
          constructor
          · intro h; exact absurd h (by simp)
          · rintro rfl; exact absurd hm (by simp [Nat.compare_eq_lt])
  | gt => simp only [Ordering.then]
          constructor
          · intro h; exact absurd h (by simp)
          · rintro rfl; exact absurd hm (by simp [Nat.compare_eq_gt])
  | eq => simp only [Ordering.then]
          have h1 := Nat.compare_eq_eq.mp hm
          constructor
          · intro h
            have h2 := Nat.compare_eq_eq.mp h
            cases a; cases b; simp_all
          · rintro rfl; exact Nat.compare_eq_eq.mpr rfl

theorem tcmp_lt_iff (a b : TimingPoint) : tcmp a b = .lt ↔ timeLt a b := by
  unfold tcmp timeLt
  cases hm : compare a.measure b.measure with
  | lt => simp only [Ordering.then]
          have h1 := Nat.compare_eq_lt.mp hm
          simp [h1]
  | gt => simp only [Ordering.then]
          have h1 := Nat.compare_eq_gt.mp hm
          constructor
          · intro h; exact absurd h (by simp)
          · intro h; omega
  | eq => simp only [Ordering.then]
          have h1 := Nat.compare_eq_eq.mp hm
          rw [Nat.compare_eq_lt]
          omega

theorem tcmp_gt_iff (a b : TimingPoint) : tcmp a b = .gt ↔ timeLt b a := by
  unfold tcmp timeLt
  cases hm : compare a.measure b.measure with
  | lt => simp only [Ordering.then]
          have h1 := Nat.compare_eq_lt.mp hm
          constructor
          · intro h; exact absurd h (by simp)
          · intro h; omega
  | gt => simp only [Ordering.then]
          have h1 := Nat.compare_eq_gt.mp hm
          simp [h1]
  | eq => simp only [Ordering.then]
          have h1 := Nat.compare_eq_eq.mp hm
          rw [Nat.compare_eq_gt]
          omega

theorem timeLt_ne {a b : TimingPoint} (h : timeLt a b) : a ≠ b := by
  rintro rfl
  unfold timeLt at h
  omega

theorem timeLt_asymm {a b : TimingPoint} (h : timeLt a b) : ¬ timeLt b a := by
  unfold timeLt at *
  omega

theorem timeLt_trans {a b c : TimingPoint} (h1 : timeLt a b) (h2 : timeLt b c) :
    timeLt a c := by
  unfold timeLt at *
  omega

theorem timeSorted_getElem? {points : List TrackPosition} (hs : TimeSorted points)
    {i j : Nat} {p q : TrackPosition} (hi : points[i]? = some p) (hj : points[j]? = some q)
    (hij : i < j) : timeLt p.time q.time := by
  obtain ⟨hi', hpi⟩ := List.getElem?_eq_some.mp hi
  obtain ⟨hj', hpj⟩ := List.getElem?_eq_some.mp hj
  have h := (List.pairwise_iff_get.mp hs) ⟨i, hi'⟩ ⟨j, hj'⟩ hij
  simp only [List.get_eq_getElem] at h
  rw [hpi, hpj] at h
  exact h

theorem bsLoop_step (points : List TrackPosition) (key : TimingPoint) (n left right : Nat)
    (hlr : left < right) (q : TrackPosition)
    (hq : points[left + (right - left) / 2]? = some q) :
    bsLoop points key (n + 1) left right =
      match tcmp q.time key with
      | .lt => bsLoop points key n (left + (right - left) / 2 + 1) right
      | .gt => bsLoop points key n left (left + (right - left) / 2)
      | .eq => .found (left + (right - left) / 2) := by
  rw [bsLoop, if_pos hlr, hq]

theorem bsLoop_found_sound (points : List TrackPosition) (key : TimingPoint) :
    ∀ (n left right : Nat), right - left ≤ n → right ≤ points.length →
    ∀ m, bsLoop points key n left right = .found m →
    ∃ p, points[m]? = some p ∧ tcmp p.time key = .eq := by
  intro n
  induction n with
  | zero =>
    intro left right _hn _hr m hfound
    simp only [bsLoop] at hfound
    exact absurd hfound (by simp)
  | succ n ih =>
    intro left right hn hr m hfound
    rw [bsLoop] at hfound
    split at hfound
    · split at hfound
      next p hp =>
        split at hfound
        next hc => exact ih _ _ (by omega) hr m hfound
        next hc => exact ih _ _ (by omega) (by omega) m hfound
        next hc =>
          cases hfound
          exact ⟨p, hp, hc⟩
      next hp => exact absurd hfound (by simp)
    · exact absurd hfound (by simp)

theorem bsLoop_notFound_absent (points : List TrackPosition) (key : TimingPoint)
    (hs : TimeSorted points) :
    ∀ (n left right : Nat), right - left ≤ n → right ≤ points.length →
    ∀ j, bsLoop points key n left right = .notFound j →
    ∀ i p, points[i]? = some p → left ≤ i → i < right → p.time ≠ key := by
  intro n
  induction n with
  | zero =>
    intro left right hn _hr j _hnf i p _hi hli hir
    omega
  | succ n ih =>
    intro left right hn hr j hnf i p hi hli hir
    rw [bsLoop] at hnf
    split at hnf
    next hlr =>
      split at hnf
      next q hq =>
        split at hnf
        next hc =>
          -- comparator said Less at mid: everything up to mid is below the key
          by_cases hmi : i ≤ left + (right - left) / 2
          · rcases Nat.lt_or_ge i (left + (right - left) / 2) with hlt | hge
            · have hlt1 : timeLt p.time q.time := timeSorted_getElem? hs hi hq hlt
              have hlt2 : timeLt q.time key := (tcmp_lt_iff _ _).mp hc
              exact timeLt_ne (timeLt_trans hlt1 hlt2)
            · have : i = left + (right - left) / 2 := by omega
              subst this
              rw [hi] at hq
              cases hq
              exact timeLt_ne ((tcmp_lt_iff _ _).mp hc)
          · exact ih _ _ (by omega) hr j hnf i p hi (by omega) hir
        next hc =>
          -- comparator said Greater at mid: everything from mid on is above the key
          by_cases hmi : left + (right - left) / 2 ≤ i
          · rcases Nat.lt_or_ge (left + (right - left) / 2) i with hlt | hge
            · have hlt1 : timeLt q.time p.time := timeSorted_getElem? hs hq hi hlt
              have hlt2 : timeLt key q.time := (tcmp_gt_iff _ _).mp hc
              exact fun h => timeLt_ne (timeLt_trans hlt2 hlt1) h.symm
            · have : i = left + (right - left) / 2 := by omega
              subst this
              rw [hi] at hq
              cases hq
              exact fun h => timeLt_ne ((tcmp_gt_iff _ _).mp hc) h.symm
          · exact ih _ _ (by omega) (by omega) j hnf i p hi hli (by omega)
        next hc => exact absurd hnf (by simp)
      next hq =>
        -- `none` at mid is impossible while `right ≤ points.length`
        have hmr : left + (right - left) / 2 < points.length := by omega
        rw [List.getElem?_eq_getElem hmr] at hq
        exact absurd hq (by simp)
    next hlr => omega

theorem bsLoop_found_complete (points : List TrackPosition) (key : TimingPoint)
    (hs : TimeSorted points) :
    ∀ (n left right : Nat), right - left ≤ n → right ≤ points.length →
    ∀ i p, points[i]? = some p → p.time = key → left ≤ i → i < right →
    bsLoop points key n left right = .found i := by
  intro n
  induction n with
  | zero =>
    intro left right hn _hr i p _hi _hp hli hir
    omega
  | succ n ih =>
    intro left right hn hr i p hi hp hli hir
    have hlr : left < right := by omega
    have hmr : left + (right - left) / 2 < points.length := by omega
    obtain ⟨q, hq⟩ : ∃ q : TrackPosition, points[left + (right - left) / 2]? = some q := by
      rw [List.getElem?_eq_getElem hmr]
      exact ⟨_, rfl⟩
    rw [bsLoop_step points key n left right hlr q hq]
    cases hc : tcmp q.time key with
    | lt =>
      -- the key is strictly above mid, so `i` lies in the upper half
      have hmid : left + (right - left) / 2 < i := by
        rcases Nat.lt_or_ge (left + (right - left) / 2) i with h | h
        · exact h
        · exfalso
          rcases Nat.lt_or_ge i (left + (right - left) / 2) with h2 | h2
          · have hlt1 : timeLt p.time q.time := timeSorted_getElem? hs hi hq h2
            have hlt2 : timeLt q.time key := (tcmp_lt_iff _ _).mp hc
            rw [hp] at hlt1
            exact timeLt_asymm hlt2 hlt1
          · have : i = left + (right - left) / 2 := by omega
            subst this
            rw [hi] at hq
            cases hq
            rw [hp] at hc
            rw [(tcmp_eq_iff key key).mpr rfl] at hc
            exact absurd hc (by simp)
      exact ih (left + (right - left) / 2 + 1) right (by omega) hr i p hi hp (by omega) hir
    | gt =>
      -- the key is strictly below mid, so `i` lies in the lower half
      have hmid : i < left + (right - left) / 2 := by
        rcases Nat.lt_or_ge i (left + (right - left) / 2) with h | h
        · exact h
        · exfalso
          rcases Nat.lt_or_ge (left + (right - left) / 2) i with h2 | h2
          · have hlt1 : timeLt q.time p.time := timeSorted_getElem? hs hq hi h2
            have hlt2 : timeLt key q.time := (tcmp_gt_iff _ _).mp hc
            rw [hp] at hlt1
            exact timeLt_asymm hlt2 hlt1
          · have : i = left + (right - left) / 2 := by omega
            subst this
            rw [hi] at hq
            cases hq
            rw [hp] at hc
            rw [show tcmp key key = .eq from (tcmp_eq_iff key key).mpr rfl] at hc
            exact absurd hc (by simp)
      exact ih left (left + (right - left) / 2) (by omega) (by omega) i p hi hp hli hmid
    | eq =>
      -- exact hit: strict sortedness forces mid = i
      have hqk : q.time = key := (tcmp_eq_iff _ _).mp hc
      have hmi : left + (right - left) / 2 = i := by
        rcases Nat.lt_or_ge (left + (right - left) / 2) i with h | h
        · exfalso
          have hlt1 : timeLt q.time p.time := timeSorted_getElem? hs hq hi h
          rw [hqk, hp] at hlt1
          exact timeLt_ne hlt1 rfl
        · rcases Nat.lt_or_ge i (left + (right - left) / 2) with h2 | h2
          · exfalso
            have hlt1 : timeLt p.time q.time := timeSorted_getElem? hs hi hq h2
            rw [hqk, hp] at hlt1
            exact timeLt_ne hlt1 rfl
          · omega
      rw [hmi]

theorem binarySearchByTime_found_sound {points : List TrackPosition} {key : TimingPoint}
    {m : Nat} (h : binarySearchByTime points key = .found m) :
    ∃ p : TrackPosition, points[m]? = some p ∧ p.time = key := by
  obtain ⟨p, hp, hc⟩ :=
    bsLoop_found_sound points key points.length 0 points.length (by omega) (le_refl _) m h
  exact ⟨p, hp, (tcmp_eq_iff _ _).mp hc⟩

theorem binarySearchByTime_found_complete {points : List TrackPosition} {key : TimingPoint}
    {i : Nat} {p : TrackPosition} (hs : TimeSorted points) (hi : points[i]? = some p)
    (hp : p.time = key) : binarySearchByTime points key = .found i := by
  have hlen : i < points.length := (List.getElem?_eq_some.mp hi).1
  exact bsLoop_found_complete points key hs points.length 0 points.length (by omega)
    (le_refl _) i p hi hp (by omega) hlen

theorem binarySearchByTime_notFound_absent {points : List TrackPosition} {key : TimingPoint}
    {j : Nat} (hs : TimeSorted points) (h : binarySearchByTime points key = .notFound j) :
    ∀ (i : Nat) (p : TrackPosition), points[i]? = some p → p.time ≠ key := by
  intro i p hi
  have hlen : i < points.length := (List.getElem?_eq_some.mp hi).1
  exact bsLoop_notFound_absent points key hs points.length 0 points.length (by omega)
    (le_refl _) j h i p hi (by omega) hlen

theorem slice_getElem? (points : List TrackPosition) (si t k : Nat) (hk : k < t) :
    ((points.drop si).take t)[k]? = points[si + k]? := by
  rw [List.getElem?_take, if_pos hk, List.getElem?_drop]

theorem slice_length (points : List TrackPosition) (si ei : Nat) (h1 : si ≤ ei)
    (h2 : ei < points.length) :
    ((points.drop si).take (ei + 1 - si)).length = ei + 1 - si := by
  simp only [List.length_take, List.length_drop]
  omega

theorem slice_sublist (points : List TrackPosition) (si t : Nat) :
    List.Sublist ((points.drop si).take t) points :=
  (List.take_sublist _ _).trans (List.drop_sublist _ _)

theorem assertNePair_true {a b : TrackPosition} (h : a ≠ b) :
    assertNePair (some a) (some b) = true := by
  simp [assertNePair, h]

theorem timeSorted_distinct {points : List TrackPosition} (hs : TimeSorted points)
    {i j : Nat} {p q : TrackPosition} (hi : points[i]? = some p) (hj : points[j]? = some q)
    (hij : i < j) : p ≠ q :=
  fun he => timeLt_ne (timeSorted_getElem? hs hi hj hij) (congrArg TrackPosition.time he)

theorem append_one_getElem?_last {α : Type} (l : List α) (x : α) :
    (l ++ [x])[l.length]? = some x := by
  simp

theorem append_one_getElem?_lt {α : Type} (l : List α) (x : α) (k : Nat)
    (hk : k < l.length) : (l ++ [x])[k]? = l[k]? := by
  rw [List.getElem?_append, if_pos hk]

theorem getLast?_append_one {α : Type} (l : List α) (x : α) :
    (l ++ [x]).getLast? = some x := by
  simp

theorem resolveStartIdx_exact {points : List TrackPosition} {start : TrackPosition} {si : Nat}
    (h : resolveStartIdx points start = (si, true)) :
    binarySearchByTime points start.time = .found si := by
  unfold resolveStartIdx at h
  cases hbs : binarySearchByTime points start.time with
  | found i => rw [hbs] at h; cases h; rfl
  | notFound i => rw [hbs] at h; simp at h

theorem resolveStartIdx_inexact {points : List TrackPosition} {start : TrackPosition} {si : Nat}
    (h : resolveStartIdx points start = (si, false)) :
    binarySearchByTime points start.time = .notFound si := by
  unfold resolveStartIdx at h
  cases hbs : binarySearchByTime points start.time with
  | found i => rw [hbs] at h; simp at h
  | notFound i => rw [hbs] at h; cases h; rfl

theorem resolveEndIdx_exact {points : List TrackPosition} {endPoint : TrackPosition} {ei : Nat}
    (h : resolveEndIdx points endPoint = (ei, true)) :
    binarySearchByTime points endPoint.time = .found ei := by
  unfold resolveEndIdx at h
  cases hbs : binarySearchByTime points endPoint.time with
  | found i => rw [hbs] at h; cases h; rfl
  | notFound i => rw [hbs] at h; simp at h

theorem resolveEndIdx_inexact {points : List TrackPosition} {endPoint : TrackPosition} {ei : Nat}
    (h : resolveEndIdx points endPoint = (ei, false)) :
    ∃ idx, binarySearchByTime points endPoint.time = .notFound idx := by
  unfold resolveEndIdx at h
  cases hbs : binarySearchByTime points endPoint.time with
  | found i => rw [hbs] at h; simp at h
  | notFound i => exact ⟨i, rfl⟩

/-! ### Last-write-wins characterization of the duplicate-id folds -/

theorem PRes_bind_ok {ε α β : Type} (a : α) (f : α → PResult ε β) :
    (PResult.ok a : PResult ε α) >>= f = f a := rfl

theorem PRes_bind_err {ε α β : Type} (e : ε) (f : α → PResult ε β) :
    (PResult.err e : PResult ε α) >>= f = .err e := rfl

theorem PRes_bind_panic {ε α β : Type} (f : α → PResult ε β) :
    (PResult.panic : PResult ε α) >>= f = .panic := rfl

theorem PRes_pure {ε α : Type} (a : α) : (pure a : PResult ε α) = .ok a := rfl

theorem alLookup_alInsert {κ β : Type} [DecidableEq κ] (m : List (κ × β)) (k : κ) (v : β)
    (k' : κ) : alLookup (alInsert m k v) k' = if k = k' then some v else alLookup m k' := by
  induction m with
  | nil => simp [alInsert, alLookup]
  | cons e rest ih =>
    obtain ⟨k2, v2⟩ := e
    by_cases h2 : k2 = k
    · subst h2
      by_cases h3 : k2 = k'
      · subst h3; simp [alInsert, alLookup]
      · simp [alInsert, alLookup, h3]
    · by_cases h3 : k2 = k'
      · subst h3
        have hk : ¬ k = k2 := fun h => h2 h.symm
        simp [alInsert, alLookup, h2, hk]
      · simp [alInsert, alLookup, h2, h3, ih]

theorem alValues_alInsert_mem {κ β : Type} [DecidableEq κ] (m : List (κ × β)) (k : κ) (v : β)
    (e : β) : e ∈ alValues (alInsert m k v) → e = v ∨ e ∈ alValues m := by
  induction m with
  | nil =>
    intro h
    simp [alInsert, alValues] at h
    exact Or.inl h
  | cons p rest ih =>
    obtain ⟨k2, v2⟩ := p
    intro h
    by_cases h2 : k2 = k
    · subst h2
      simp only [alInsert] at h
      simp only [if_true] at h
      simp only [alValues, List.map_cons, List.mem_cons] at h ⊢
      rcases h with h | h
      · exact Or.inl h
      · exact Or.inr (Or.inr h)
    · simp only [alInsert, if_neg h2, alValues, List.map_cons, List.mem_cons] at h ⊢
      rcases h with h | h
      · exact Or.inr (Or.inl h)
      · rcases ih h with h' | h'
        · exact Or.inl h'
        · exact Or.inr (Or.inr h')

theorem lastStep_ok {σ β κ : Type} [DecidableEq κ] (mk : σ → PRes β) (key : β → κ) (k : κ)
    (acc : Option β) (s : σ) (b : β) (hb : mk s = .ok b) :
    lastStep mk key k acc s = if key b = k then some b else acc := by
  unfold lastStep
  rw [hb]

theorem indexFold_go {σ β κ : Type} [DecidableEq κ] (mk : σ → PRes β) (key : β → κ) :
    ∀ (l : List σ) (m₀ : List (κ × β)),
    (∀ s ∈ l, ∃ b, mk s = .ok b) →
    ∃ m, (l.foldlM (fun m s => do
        let e ← mk s
        pure (alInsert m (key e) e)) m₀ : PRes (List (κ × β))) = .ok m ∧
      ∀ k, alLookup m k = l.foldl (lastStep mk key k) (alLookup m₀ k) := by
  intro l
  induction l with
  | nil =>
    intro m₀ _
    exact ⟨m₀, rfl, fun _ => rfl⟩
  | cons s l ih =>
    intro m₀ hok
    obtain ⟨b, hb⟩ := hok s (List.mem_cons_self s l)
    obtain ⟨m, hm, hlk⟩ :=
      ih (alInsert m₀ (key b) b) (fun s' hs' => hok s' (List.mem_cons_of_mem s hs'))
    refine ⟨m, ?_, ?_⟩
    · simp only [List.foldlM_cons, hb, PRes_bind_ok, PRes_pure]
      exact hm
    · intro k
      have hstep : lastStep mk key k (alLookup m₀ k) s = alLookup (alInsert m₀ (key b) b) k := by
        rw [lastStep_ok mk key k (alLookup m₀ k) s b hb, alLookup_alInsert]
      rw [hlk k, List.foldl_cons, hstep]

theorem indexFoldBy_spec {σ β κ : Type} [DecidableEq κ] (mk : σ → PRes β) (key : β → κ)
    (l : List σ) (hok : ∀ s ∈ l, ∃ b, mk s = .ok b) :
    ∃ m, indexFoldBy mk key l = .ok m ∧
      ∀ k, alLookup m k = l.foldl (lastStep mk key k) none := by
  obtain ⟨m, hm, hlk⟩ := indexFold_go mk key l [] hok
  exact ⟨m, hm, hlk⟩

theorem indexFold_values {σ β κ : Type} [DecidableEq κ] (mk : σ → PRes β) (key : β → κ)
    (P : β → Prop) :
    ∀ (l : List σ) (m₀ m : List (κ × β)),
    (∀ s ∈ l, ∀ b, mk s = .ok b → P b) → (∀ e ∈ alValues m₀, P e) →
    (l.foldlM (fun m s => do
        let e ← mk s
        pure (alInsert m (key e) e)) m₀ : PRes (List (κ × β))) = .ok m →
    ∀ e ∈ alValues m, P e := by
  intro l
  induction l with
  | nil =>
    intro m₀ m _ h0 hfold
    rw [List.foldlM_nil, PRes_pure] at hfold
    cases hfold
    exact h0
  | cons s l ih =>
    intro m₀ m hP h0 hfold
    cases hb : mk s with
    | ok b =>
      simp only [List.foldlM_cons, hb, PRes_bind_ok, PRes_pure] at hfold
      refine ih (alInsert m₀ (key b) b) m (fun s' hs' => hP s' (List.mem_cons_of_mem s hs'))
        ?_ hfold
      intro e he
      rcases alValues_alInsert_mem m₀ (key b) b e he with rfl | he'
      · exact hP s (List.mem_cons_self s l) e hb
      · exact h0 e he'
    | err e2 =>
      simp only [List.foldlM_cons, hb, PRes_bind_err] at hfold
      cases hfold
    | panic =>
      simp only [List.foldlM_cons, hb, PRes_bind_panic] at hfold
      cases hfold

theorem indexFoldBy_values {σ β κ : Type} [DecidableEq κ] (mk : σ → PRes β) (key : β → κ)
    (P : β → Prop) (l : List σ) (m : List (κ × β))
    (hP : ∀ s ∈ l, ∀ b, mk s = .ok b → P b)
    (hfold : indexFoldBy mk key l = .ok m) :
    ∀ e ∈ alValues m, P e :=
  indexFold_values mk key P l [] m hP (by simp [alValues]) hfold

theorem foldlM_lanesIndex_ok :
    ∀ (ls : List Lane) (m : List (TimingPoint × List LaneId)),
    (∀ lane ∈ ls, lane.points ≠ []) →
    ∃ r, (ls.foldlM (fun m lane =>
      match lane.points.head? with
      | some p => pure (btEntryPush m p.time lane.id)
      | none => (.panic : PRes _)) m : PRes (List (TimingPoint × List LaneId))) = .ok r := by
  intro ls
  induction ls with
  | nil => intro m _; exact ⟨m, rfl⟩
  | cons lane ls ih =>
    intro m hne
    cases hh : lane.points.head? with
    | none =>
      exact absurd (List.head?_eq_none_iff.mp hh) (hne lane (List.mem_cons_self lane ls))
    | some p =>
      obtain ⟨r, hr⟩ := ih (btEntryPush m p.time lane.id)
        (fun l hl => hne l (List.mem_cons_of_mem lane hl))
      refine ⟨r, ?_⟩
      simp only [List.foldlM_cons, hh, PRes_pure, PRes_bind_ok]
      exact hr

theorem foldlM_wallsIndex_ok :
    ∀ (ls : List Lane) (m : List (TimingPoint × LaneId)),
    (∀ wall ∈ ls, wall.points ≠ []) →
    ∃ r, (ls.foldlM (fun m wall =>
      match wall.points.head? with
      | some p => pure (btInsert m p.time wall.id)
      | none => (.panic : PRes _)) m : PRes (List (TimingPoint × LaneId))) = .ok r := by
  intro ls
  induction ls with
  | nil => intro m _; exact ⟨m, rfl⟩
  | cons wall ls ih =>
    intro m hne
    cases hh : wall.points.head? with
    | none =>
      exact absurd (List.head?_eq_none_iff.mp hh) (hne wall (List.mem_cons_self wall ls))
    | some p =>
      obtain ⟨r, hr⟩ := ih (btInsert m p.time wall.id)
        (fun l hl => hne l (List.mem_cons_of_mem wall hl))
      refine ⟨r, ?_⟩
      simp only [List.foldlM_cons, hh, PRes_pure, PRes_bind_ok]
      exact hr

theorem indexLanesByFirstTime_ok (lanesData : List (LaneId × Lane))
    (h : ∀ lane ∈ alValues lanesData, lane.points ≠ []) :
    ∃ r, indexLanesByFirstTime lanesData = .ok r :=
  foldlM_lanesIndex_ok (alValues lanesData) [] h

theorem indexWallsByFirstTime_ok (wallsData : List (LaneId × Lane))
    (h : ∀ wall ∈ alValues wallsData, wall.points ≠ []) :
    ∃ r, indexWallsByFirstTime wallsData = .ok r :=
  foldlM_wallsIndex_ok (alValues wallsData) [] h

theorem foldl_lastStep_find {σ β κ : Type} [DecidableEq κ] (mk : σ → PRes β) (key : β → κ)
    (keyOf : σ → κ) :
    ∀ (l : List σ),
    (∀ s ∈ l, ∃ b, mk s = .ok b ∧ key b = keyOf s) →
    ∀ (k : κ) (s0 : σ) (b0 : β) (dflt : Option β),
    l.reverse.find? (fun s => decide (keyOf s = k)) = some s0 → mk s0 = .ok b0 →
    l.foldl (lastStep mk key k) dflt = some b0 := by
  intro l
  induction l using List.reverseRecOn with
  | nil =>
    intro _ k s0 b0 dflt hfind _
    simp at hfind
  | append_singleton l a ih =>
    intro hka k s0 b0 dflt hfind hmk
    rw [List.reverse_append, List.reverse_singleton, List.singleton_append] at hfind
    rw [List.foldl_append, List.foldl_cons, List.foldl_nil]
    obtain ⟨b, hb, hkb⟩ := hka a (by simp)
    by_cases ha : keyOf a = k
    · rw [@List.find?_cons_of_pos _ (fun s => decide (keyOf s = k)) a l.reverse
        (decide_eq_true ha)] at hfind
      have hsa : a = s0 := Option.some_inj.mp hfind
      rw [lastStep_ok mk key k _ a b hb, if_pos (by rw [hkb]; exact ha)]
      rw [← hsa] at hmk
      rw [hb] at hmk
      cases hmk
      rfl
    · rw [@List.find?_cons_of_neg _ (fun s => decide (keyOf s = k)) a l.reverse
        (by simp [ha])] at hfind
      rw [lastStep_ok mk key k _ a b hb, if_neg (by rw [hkb]; exact ha)]
      exact ih (fun s hs => hka s (by simp [hs])) k s0 b0 dflt hfind hmk

theorem fromLaneSection_ok (s : Raw.LaneSection) (laneType : LaneType)
    (h2 : s.points.length ≥ 2) :
    Lane.fromLaneSection s laneType =
      .ok { id := { id := s.groupId }, laneType
            points := s.points.map TrackPosition.fromLanePoint } := by
  unfold Lane.fromLaneSection
  rw [if_pos h2]

theorem fromWallSection_ok (s : Raw.WallSection) (laneType : LaneType)
    (h2 : s.points.length ≥ 2) :
    Lane.fromWallSection s laneType =
      .ok { id := { id := s.groupId }, laneType
            points := s.points.map TrackPosition.fromWallPoint } := by
  unfold Lane.fromWallSection
  rw [if_pos h2]

theorem fromColorfulSection_ok (s : Raw.ColorfulLaneSection) (h2 : s.points.length ≥ 2) :
    ∃ lane, ColorfulLane.fromSection s = .ok lane ∧ lane.id = { id := s.groupId } := by
  cases hpts : s.points with
  | nil => rw [hpts] at h2; exact absurd h2 (by simp)
  | cons p rest =>
    obtain ⟨q, hq⟩ : ∃ q, s.points.getLast? = some q := by
      rw [hpts]
      exact ⟨(p :: rest).getLast (by simp), List.getLast?_eq_getLast _ _⟩
    have hhd : s.points.head? = some p := by rw [hpts]; rfl
    refine ⟨{ id := { id := s.groupId }
              start := ColorfulLanePoint.ofCommand p
              middle := ((s.points.drop 1).take (s.points.length - 2)).map
                ColorfulLanePoint.ofCommand
              endPoint := ColorfulLanePoint.ofCommand q }, ?_, rfl⟩
    simp only [ColorfulLane.fromSection, hhd, hq]
    rw [if_pos h2]

theorem fromBeamSection_ok (s : Raw.BeamSection) (h2 : s.points.length ≥ 2) :
    ∃ beam, Beam.fromSection s = .ok beam ∧ beam.id = { id := s.recordId } := by
  cases hpts : s.points with
  | nil => rw [hpts] at h2; exact absurd h2 (by simp)
  | cons p rest =>
    obtain ⟨q, hq⟩ : ∃ q, s.points.getLast? = some q := by
      rw [hpts]
      exact ⟨(p :: rest).getLast (by simp), List.getLast?_eq_getLast _ _⟩
    have hhd : s.points.head? = some p := by rw [hpts]; rfl
    refine ⟨{ id := { id := s.recordId }
              start := BeamPoint.ofCommand p
              middle := ((s.points.drop 1).take (s.points.length - 2)).map
                BeamPoint.ofCommand
              endPoint := BeamPoint.ofCommand q }, ?_, rfl⟩
    simp only [Beam.fromSection, hhd, hq]
    rw [if_pos h2]

theorem fromObliqueSection_ok (s : Raw.ObliqueBeamSection) (h2 : s.points.length ≥ 2) :
    ∃ beam, ObliqueBeam.fromSection s = .ok beam ∧ beam.id = { id := s.recordId } := by
  cases hpts : s.points with
  | nil => rw [hpts] at h2; exact absurd h2 (by simp)
  | cons p rest =>
    obtain ⟨q, hq⟩ : ∃ q, s.points.getLast? = some q := by
      rw [hpts]
      exact ⟨(p :: rest).getLast (by simp), List.getLast?_eq_getLast _ _⟩
    have hhd : s.points.head? = some p := by rw [hpts]; rfl
    refine ⟨{ id := { id := s.recordId }
              start := ObliqueBeamPoint.ofCommand p
              middle := ((s.points.drop 1).take (s.points.length - 2)).map
                ObliqueBeamPoint.ofCommand
              endPoint := ObliqueBeamPoint.ofCommand q }, ?_, rfl⟩
    simp only [ObliqueBeam.fromSection, hhd, hq]
    rw [if_pos h2]

theorem mapLanes_last_wins (sections : List Raw.LaneSection) (laneType : LaneType)
    (h2 : ∀ s ∈ sections, s.points.length ≥ 2) :
    ∃ r, Track.mapLanes sections laneType = .ok r ∧
      ∀ (id : LaneId) (s0 : Raw.LaneSection),
        sections.reverse.find? (fun s => decide (({ id := s.groupId } : LaneId) = id))
          = some s0 →
        alLookup r.2 id =
          some { id := { id := s0.groupId }, laneType
                 points := s0.points.map TrackPosition.fromLanePoint } := by
  have hok : ∀ s ∈ sections, ∃ b, Lane.fromLaneSection s laneType = .ok b :=
    fun s hs => ⟨_, fromLaneSection_ok s laneType (h2 s hs)⟩
  obtain ⟨data, hdata, hlk⟩ := indexFoldBy_spec
    (fun laneSection => Lane.fromLaneSection laneSection laneType) (fun lane => lane.id)
    sections hok
  have hvals : ∀ lane ∈ alValues data, lane.points ≠ [] := by
    refine indexFoldBy_values _ _ _ sections data ?_ hdata
    intro s hs b hb
    rw [fromLaneSection_ok s laneType (h2 s hs)] at hb
    cases hb
    intro hmap
    have hlen := congrArg List.length hmap
    simp only [List.length_map, List.length_nil] at hlen
    have := h2 s hs
    omega
  obtain ⟨sorted, hsorted⟩ := indexLanesByFirstTime_ok data hvals
  refine ⟨(sorted, data), ?_, ?_⟩
  · simp only [Track.mapLanes]
    rw [hdata]
    simp only [PRes_bind_ok]
    rw [hsorted]
    simp only [PRes_bind_ok]
    rfl
  · intro id s0 hfind
    have hmem : s0 ∈ sections := List.mem_reverse.mp (List.mem_of_find?_eq_some hfind)
    show alLookup data id = _
    rw [hlk id]
    refine foldl_lastStep_find _ _ (fun s => ({ id := s.groupId } : LaneId)) sections ?_
      id s0 _ none hfind (fromLaneSection_ok s0 laneType (h2 s0 hmem))
    intro s hs
    exact ⟨_, fromLaneSection_ok s laneType (h2 s hs), rfl⟩

theorem mapWalls_last_wins (sections : List Raw.WallSection) (laneType : LaneType)
    (h2 : ∀ s ∈ sections, s.points.length ≥ 2) :
    ∃ r, Track.mapWalls sections laneType = .ok r ∧
      ∀ (id : LaneId) (s0 : Raw.WallSection),
        sections.reverse.find? (fun s => decide (({ id := s.groupId } : LaneId) = id))
          = some s0 →
        alLookup r.2 id =
          some { id := { id := s0.groupId }, laneType
                 points := s0.points.map TrackPosition.fromWallPoint } := by
  have hok : ∀ s ∈ sections, ∃ b, Lane.fromWallSection s laneType = .ok b :=
    fun s hs => ⟨_, fromWallSection_ok s laneType (h2 s hs)⟩
  obtain ⟨data, hdata, hlk⟩ := indexFoldBy_spec
    (fun wallSection => Lane.fromWallSection wallSection laneType) (fun wall => wall.id)
    sections hok
  have hvals : ∀ wall ∈ alValues data, wall.points ≠ [] := by
    refine indexFoldBy_values _ _ _ sections data ?_ hdata
    intro s hs b hb
    rw [fromWallSection_ok s laneType (h2 s hs)] at hb
    cases hb
    intro hmap
    have hlen := congrArg List.length hmap
    simp only [List.length_map, List.length_nil] at hlen
    have := h2 s hs
    omega
  obtain ⟨sorted, hsorted⟩ := indexWallsByFirstTime_ok data hvals
  refine ⟨(sorted, data), ?_, ?_⟩
  · simp only [Track.mapWalls]
    rw [hdata]
    simp only [PRes_bind_ok]
    rw [hsorted]
    simp only [PRes_bind_ok]
    rfl
  · intro id s0 hfind
    have hmem : s0 ∈ sections := List.mem_reverse.mp (List.mem_of_find?_eq_some hfind)
    show alLookup data id = _
    rw [hlk id]
    refine foldl_lastStep_find _ _ (fun s => ({ id := s.groupId } : LaneId)) sections ?_
      id s0 _ none hfind (fromWallSection_ok s0 laneType (h2 s0 hmem))
    intro s hs
    exact ⟨_, fromWallSection_ok s laneType (h2 s hs), rfl⟩

theorem mapColorfulLanes_last_wins (sections : List Raw.ColorfulLaneSection)
    (h2 : ∀ s ∈ sections, s.points.length ≥ 2) :
    ∃ r, Track.mapColorfulLanes sections = .ok r ∧
      ∀ (id : ColorfulLaneId) (s0 : Raw.ColorfulLaneSection),
        sections.reverse.find?
            (fun s => decide (({ id := s.groupId } : ColorfulLaneId) = id)) = some s0 →
        ∃ lane, ColorfulLane.fromSection s0 = .ok lane ∧ alLookup r.2 id = some lane := by
  have hok : ∀ s ∈ sections, ∃ b, ColorfulLane.fromSection s = .ok b :=
    fun s hs => (fromColorfulSection_ok s (h2 s hs)).imp (fun lane h => h.1)
  obtain ⟨data, hdata, hlk⟩ := indexFoldBy_spec
    (fun laneSection => ColorfulLane.fromSection laneSection) (fun lane => lane.id)
    sections hok
  refine ⟨((alValues data).foldl (fun m lane => btInsert m lane.start.position.time lane.id)
    [], data), ?_, ?_⟩
  · simp only [Track.mapColorfulLanes]
    rw [hdata]
    simp only [PRes_bind_ok]
    rfl
  · intro id s0 hfind
    have hmem : s0 ∈ sections := List.mem_reverse.mp (List.mem_of_find?_eq_some hfind)
    obtain ⟨lane, hlane, hid⟩ := fromColorfulSection_ok s0 (h2 s0 hmem)
    refine ⟨lane, hlane, ?_⟩
    show alLookup data id = some lane
    rw [hlk id]
    refine foldl_lastStep_find _ _ (fun s => ({ id := s.groupId } : ColorfulLaneId))
      sections ?_ id s0 lane none hfind hlane
    intro s hs
    obtain ⟨l2, hl2, hlid⟩ := fromColorfulSection_ok s (h2 s hs)
    exact ⟨l2, hl2, hlid⟩

theorem mapBeams_last_wins (sections : List Raw.BeamSection)
    (h2 : ∀ s ∈ sections, s.points.length ≥ 2) :
    ∃ r, Track.mapBeams sections = .ok r ∧
      ∀ (id : BeamId) (s0 : Raw.BeamSection),
        sections.reverse.find?
            (fun s => decide (({ id := s.recordId } : BeamId) = id)) = some s0 →
        ∃ beam, Beam.fromSection s0 = .ok beam ∧ alLookup r.2 id = some beam := by
  have hok : ∀ s ∈ sections, ∃ b, Beam.fromSection s = .ok b :=
    fun s hs => (fromBeamSection_ok s (h2 s hs)).imp (fun beam h => h.1)
  obtain ⟨data, hdata, hlk⟩ := indexFoldBy_spec
    (fun beamSection => Beam.fromSection beamSection) (fun beam => beam.id) sections hok
  refine ⟨((alValues data).foldl (fun m beam => btInsert m beam.start.position.time beam.id)
    [], data), ?_, ?_⟩
  · simp only [Track.mapBeams]
    rw [hdata]
    simp only [PRes_bind_ok]
    rfl
  · intro id s0 hfind
    have hmem : s0 ∈ sections := List.mem_reverse.mp (List.mem_of_find?_eq_some hfind)
    obtain ⟨beam, hbeam, hid⟩ := fromBeamSection_ok s0 (h2 s0 hmem)
    refine ⟨beam, hbeam, ?_⟩
    show alLookup data id = some beam
    rw [hlk id]
    refine foldl_lastStep_find _ _ (fun s => ({ id := s.recordId } : BeamId))
      sections ?_ id s0 beam none hfind hbeam
    intro s hs
    obtain ⟨b2, hb2, hbid⟩ := fromBeamSection_ok s (h2 s hs)
    exact ⟨b2, hb2, hbid⟩

theorem mapObliqueBeams_last_wins (sections : List Raw.ObliqueBeamSection)
    (h2 : ∀ s ∈ sections, s.points.length ≥ 2) :
    ∃ r, Track.mapObliqueBeams sections = .ok r ∧
      ∀ (id : ObliqueBeamId) (s0 : Raw.ObliqueBeamSection),
        sections.reverse.find?
            (fun s => decide (({ id := s.recordId } : ObliqueBeamId) = id)) = some s0 →
        ∃ beam, ObliqueBeam.fromSection s0 = .ok beam ∧ alLookup r.2 id = some beam := by
  have hok : ∀ s ∈ sections, ∃ b, ObliqueBeam.fromSection s = .ok b :=
    fun s hs => (fromObliqueSection_ok s (h2 s hs)).imp (fun beam h => h.1)
  obtain ⟨data, hdata, hlk⟩ := indexFoldBy_spec
    (fun beamSection => ObliqueBeam.fromSection beamSection) (fun beam => beam.id)
    sections hok
  refine ⟨((alValues data).foldl (fun m beam => btInsert m beam.start.position.time beam.id)
    [], data), ?_, ?_⟩
  · simp only [Track.mapObliqueBeams]
    rw [hdata]
    simp only [PRes_bind_ok]
    rfl
  · intro id s0 hfind
    have hmem : s0 ∈ sections := List.mem_reverse.mp (List.mem_of_find?_eq_some hfind)
    obtain ⟨beam, hbeam, hid⟩ := fromObliqueSection_ok s0 (h2 s0 hmem)
    refine ⟨beam, hbeam, ?_⟩
    show alLookup data id = some beam
    rw [hlk id]
    refine foldl_lastStep_find _ _ (fun s => ({ id := s.recordId } : ObliqueBeamId))
      sections ?_ id s0 beam none hfind hbeam
    intro s hs
    obtain ⟨b2, hb2, hbid⟩ := fromObliqueSection_ok s (h2 s hs)
    exact ⟨b2, hb2, hbid⟩

/-! ### Reference-integrity lemmas (missing lane / missing palette) -/

theorem createPoints_not_err (lane : Lane) (start endPoint : TrackPosition) (e : ParseErr) :
    lane.createPointsWithinTimeInterval start endPoint ≠ .err e := by
  unfold Lane.createPointsWithinTimeInterval
  intro h
  simp only [] at h
  split at h
  · split at h
    · split at h
      · cases h
      · cases h
    · cases h
  · cases h

theorem fromHoldAndLane_ok_or_panic (hold : Cmd.Hold) (lane : Lane) (isCritical : Bool) :
    (∃ hn, HoldNote.fromHoldAndLane hold lane isCritical = .ok hn) ∨
    HoldNote.fromHoldAndLane hold lane isCritical = .panic := by
  unfold HoldNote.fromHoldAndLane
  cases hcp : Lane.createPointsWithinTimeInterval lane
    (TrackPosition.fromCommandInfo hold.startTime hold.startXPosition hold.startXOffset)
    (TrackPosition.fromCommandInfo hold.endTime hold.endXPosition hold.endXOffset) with
  | ok pts =>
    left
    refine ⟨{ laneId := { id := hold.laneGroupId }, laneType := lane.laneType
              start := TrackPosition.fromCommandInfo hold.startTime hold.startXPosition
                hold.startXOffset
              endPoint := TrackPosition.fromCommandInfo hold.endTime hold.endXPosition
                hold.endXOffset
              points := pts, isCritical }, ?_⟩
    simp only [hcp, PRes_bind_ok, PRes_pure]
  | err e => exact absurd hcp (createPoints_not_err lane _ _ e)
  | panic =>
    right
    simp only [hcp, PRes_bind_panic]

theorem mapTapGo (track : Track) (isCritical : Bool) :
    ∀ (taps : List Cmd.Tap) (m : List (TimingPoint × List TapNote)),
    (∃ tap ∈ taps, track.getLane { id := tap.laneGroupId } = none) →
    ∃ t ∈ taps, track.getLane { id := t.laneGroupId } = none ∧
      (taps.foldlM (fun m note =>
        match track.getLane { id := note.laneGroupId } with
        | some lane =>
          let tapNote := TapNote.fromTap note lane.laneType isCritical
          pure (btEntryPush m tapNote.position.time tapNote)
        | none => (.err (.semanticError (.tapInvalidLane note)) : PRes _)) m
        : PRes (List (TimingPoint × List TapNote))) =
        .err (.semanticError (.tapInvalidLane t)) := by
  intro taps
  induction taps with
  | nil =>
    rintro m ⟨tap, htap, _⟩
    cases htap
  | cons tap rest ih =>
    intro m hex
    cases hl : track.getLane { id := tap.laneGroupId } with
    | none =>
      refine ⟨tap, List.mem_cons_self tap rest, hl, ?_⟩
      simp only [List.foldlM_cons, hl, PRes_bind_err]
    | some lane =>
      obtain ⟨t0, ht0, hnone⟩ := hex
      have ht0' : t0 ∈ rest := by
        rcases List.mem_cons.mp ht0 with rfl | h
        · rw [hl] at hnone; cases hnone
        · exact h
      obtain ⟨t, ht, htn, hfold⟩ := ih (btEntryPush m
        (TapNote.fromTap tap lane.laneType isCritical).position.time
        (TapNote.fromTap tap lane.laneType isCritical)) ⟨t0, ht0', hnone⟩
      refine ⟨t, List.mem_cons_of_mem tap ht, htn, ?_⟩
      simp only [List.foldlM_cons, hl, PRes_pure, PRes_bind_ok]
      exact hfold

theorem mapHoldGo (track : Track) (isCritical : Bool) :
    ∀ (holds : List Cmd.Hold) (m : List (TimingPoint × List HoldNote)),
    (∃ hold ∈ holds, track.getLane { id := hold.laneGroupId } = none) →
    (∃ h ∈ holds, track.getLane { id := h.laneGroupId } = none ∧
      (holds.foldlM (fun m note =>
        match track.getLane { id := note.laneGroupId } with
        | some lane => do
          let holdNote ← HoldNote.fromHoldAndLane note lane isCritical
          pure (btEntryPush m holdNote.start.time holdNote)
        | none => (.err (.semanticError (.holdInvalidLane note)) : PRes _)) m
        : PRes (List (TimingPoint × List HoldNote))) =
        .err (.semanticError (.holdInvalidLane h))) ∨
    (holds.foldlM (fun m note =>
        match track.getLane { id := note.laneGroupId } with
        | some lane => do
          let holdNote ← HoldNote.fromHoldAndLane note lane isCritical
          pure (btEntryPush m holdNote.start.time holdNote)
        | none => (.err (.semanticError (.holdInvalidLane note)) : PRes _)) m
        : PRes (List (TimingPoint × List HoldNote))) = .panic := by
  intro holds
  induction holds with
  | nil =>
    rintro m ⟨hold, hmem, _⟩
    cases hmem
  | cons hold rest ih =>
    intro m hex
    cases hl : track.getLane { id := hold.laneGroupId } with
    | none =>
      left
      refine ⟨hold, List.mem_cons_self hold rest, hl, ?_⟩
      simp only [List.foldlM_cons, hl, PRes_bind_err]
    | some lane =>
      obtain ⟨h0, hh0, hnone⟩ := hex
      have hh0' : h0 ∈ rest := by
        rcases List.mem_cons.mp hh0 with rfl | h
        · rw [hl] at hnone; cases hnone
        · exact h
      rcases fromHoldAndLane_ok_or_panic hold lane isCritical with ⟨hn, hfh⟩ | hfh
      · rcases ih (btEntryPush m hn.start.time hn) ⟨h0, hh0', hnone⟩ with
          ⟨h, hh, hhn, hfold⟩ | hfold
        · left
          refine ⟨h, List.mem_cons_of_mem hold hh, hhn, ?_⟩
          simp only [List.foldlM_cons, hl, hfh, PRes_bind_ok, PRes_pure]
          exact hfold
        · right
          simp only [List.foldlM_cons, hl, hfh, PRes_bind_ok, PRes_pure]
          exact hfold
      · right
        simp only [List.foldlM_cons, hl, hfh, PRes_bind_panic]

theorem bulletsGo (bulletPaletteList : List (BulletPaletteId × BulletPalette)) :
    ∀ (bullets : List Cmd.Bullet) (m : List (TimingPoint × List Bullet)),
    (∃ b ∈ bullets, alContainsKey bulletPaletteList (Bullet.ofCommand b).paletteId = false) →
    ∃ b ∈ bullets, alContainsKey bulletPaletteList (Bullet.ofCommand b).paletteId = false ∧
      (bullets.foldlM (fun m b =>
        let bullet := Bullet.ofCommand b
        if alContainsKey bulletPaletteList bullet.paletteId then
          pure (btEntryPush m bullet.position.time bullet)
        else (.err (.semanticError (.bulletInvalidPalette bullet)) : PRes _)) m
        : PRes (List (TimingPoint × List Bullet))) =
        .err (.semanticError (.bulletInvalidPalette (Bullet.ofCommand b))) := by
  intro bullets
  induction bullets with
  | nil =>
    rintro m ⟨b, hb, _⟩
    cases hb
  | cons b rest ih =>
    intro m hex
    by_cases hc : alContainsKey bulletPaletteList (Bullet.ofCommand b).paletteId = true
    · obtain ⟨b0, hb0, habs⟩ := hex
      have hb0' : b0 ∈ rest := by
        rcases List.mem_cons.mp hb0 with rfl | h
        · rw [hc] at habs; cases habs
        · exact h
      obtain ⟨b1, hb1, hb1abs, hfold⟩ := ih (btEntryPush m
        (Bullet.ofCommand b).position.time (Bullet.ofCommand b)) ⟨b0, hb0', habs⟩
      refine ⟨b1, List.mem_cons_of_mem b hb1, hb1abs, ?_⟩
      simp only [List.foldlM_cons]
      rw [if_pos hc]
      simp only [PRes_pure, PRes_bind_ok]
      exact hfold
    · refine ⟨b, List.mem_cons_self b rest, Bool.not_eq_true _ ▸ hc, ?_⟩
      simp only [List.foldlM_cons]
      rw [if_neg hc]
      simp only [PRes_bind_err]

end Ana

/-! ## Raw-parsing lemmas: group-id verification and section contiguity -/

namespace Raw

theorem wallLeftLoop_ok_groupIds :
    ∀ (commands : List Token) (groupId : Nat) (points : List Cmd.WallPoint)
      (s : WallSection) (rest' : List Token),
    wallLeftLoop groupId points commands = .ok (s, rest') →
    s.groupId = groupId ∧ ∀ p ∈ s.points, p ∈ points ∨ p.groupId = groupId := by
  intro commands
  induction commands with
  | nil =>
    intro groupId points s rest' h
    simp only [wallLeftLoop] at h
    cases h
  | cons t rest ih =>
    intro groupId points s rest' h
    simp only [wallLeftLoop] at h
    split at h
    · rename_i p
      by_cases hg : groupId = p.groupId
      · have hv : verifyGroupId groupId p.groupId = .ok () := by
          unfold verifyGroupId
          rw [if_neg (not_not_intro hg)]
        rw [hv] at h
        simp only [Ana.PRes_bind_ok] at h
        obtain ⟨hsg, hpts⟩ := ih groupId (points ++ [p]) s rest' h
        refine ⟨hsg, ?_⟩
        intro q hq
        rcases hpts q hq with hmem | hgid
        · rcases List.mem_append.mp hmem with h1 | h1
          · exact Or.inl h1
          · right
            rw [List.mem_singleton.mp h1, ← hg]
        · exact Or.inr hgid
      · have hv : verifyGroupId groupId p.groupId =
            .err (.semanticError (.lit "different group ids for consequetive section")) := by
          unfold verifyGroupId
          rw [if_pos hg]
        rw [hv] at h
        simp only [Ana.PRes_bind_err] at h
        cases h
    · rename_i p
      by_cases hg : groupId = p.groupId
      · have hv : verifyGroupId groupId p.groupId = .ok () := by
          unfold verifyGroupId
          rw [if_neg (not_not_intro hg)]
        rw [hv] at h
        simp only [Ana.PRes_bind_ok] at h
        cases h
        refine ⟨rfl, ?_⟩
        intro q hq
        rcases List.mem_append.mp hq with h1 | h1
        · exact Or.inl h1
        · right
          rw [List.mem_singleton.mp h1, ← hg]
      · have hv : verifyGroupId groupId p.groupId =
            .err (.semanticError (.lit "different group ids for consequetive section")) := by
          unfold verifyGroupId
          rw [if_pos hg]
        rw [hv] at h
        simp only [Ana.PRes_bind_err] at h
        cases h
    · cases h

theorem wallLeft_mismatch_next (first p : Cmd.WallPoint) (rest : List Token)
    (hne : first.groupId ≠ p.groupId) :
    WallSection.wallLeftFromCommands (Token.wallLeftNext p :: rest) first =
      .err (.semanticError (.lit "different group ids for consequetive section")) := by
  unfold WallSection.wallLeftFromCommands
  simp only [wallLeftLoop]
  have hv : verifyGroupId first.groupId p.groupId =
      .err (.semanticError (.lit "different group ids for consequetive section")) := by
    unfold verifyGroupId
    rw [if_pos hne]
  rw [hv]
  simp only [Ana.PRes_bind_err]

theorem wallLeft_mismatch_end (first p : Cmd.WallPoint) (rest : List Token)
    (hne : first.groupId ≠ p.groupId) :
    WallSection.wallLeftFromCommands (Token.wallLeftEnd p :: rest) first =
      .err (.semanticError (.lit "different group ids for consequetive section")) := by
  unfold WallSection.wallLeftFromCommands
  simp only [wallLeftLoop]
  have hv : verifyGroupId first.groupId p.groupId =
      .err (.semanticError (.lit "different group ids for consequetive section")) := by
    unfold verifyGroupId
    rw [if_pos hne]
  rw [hv]
  simp only [Ana.PRes_bind_err]

theorem laneLeftLoop_happy :
    ∀ (nexts : List Cmd.LanePoint) (groupId : Nat) (points : List Cmd.LanePoint)
      (endP : Cmd.LanePoint) (rest : List Token),
    (∀ p ∈ nexts, p.groupId = groupId) → endP.groupId = groupId →
    laneLeftLoop groupId points
        (nexts.map Token.laneLeftNext ++ [Token.laneLeftEnd endP] ++ rest) =
      .ok ({ groupId, points := points ++ nexts ++ [endP] }, rest) := by
  intro nexts
  induction nexts with
  | nil =>
    intro groupId points endP rest _ hend
    simp only [List.map_nil, List.nil_append, List.singleton_append, laneLeftLoop]
    have hv : verifyGroupId groupId endP.groupId = .ok () := by
      unfold verifyGroupId
      rw [if_neg (not_not_intro hend.symm)]
    rw [hv]
    simp only [Ana.PRes_bind_ok, List.append_nil]
    rfl
  | cons p nexts ih =>
    intro groupId points endP rest hnext hend
    simp only [List.map_cons, List.cons_append, laneLeftLoop]
    have hv : verifyGroupId groupId p.groupId = .ok () := by
      unfold verifyGroupId
      rw [if_neg (not_not_intro (hnext p (List.mem_cons_self p nexts)).symm)]
    rw [hv]
    simp only [Ana.PRes_bind_ok, List.append_eq]
    rw [ih groupId (points ++ [p]) endP rest
      (fun q hq => hnext q (List.mem_cons_of_mem p hq)) hend]
    simp [List.append_assoc]

theorem laneLeftLoop_exhausted :
    ∀ (nexts : List Cmd.LanePoint) (groupId : Nat) (points : List Cmd.LanePoint),
    (∀ p ∈ nexts, p.groupId = groupId) →
    laneLeftLoop groupId points (nexts.map Token.laneLeftNext) =
      .err (.semanticErrorExpectedCommand "more commands for left lane section") := by
  intro nexts
  induction nexts with
  | nil => intro groupId points _; rfl
  | cons p nexts ih =>
    intro groupId points hnext
    simp only [List.map_cons, laneLeftLoop]
    have hv : verifyGroupId groupId p.groupId = .ok () := by
      unfold verifyGroupId
      rw [if_neg (not_not_intro (hnext p (List.mem_cons_self p nexts)).symm)]
    rw [hv]
    simp only [Ana.PRes_bind_ok]
    exact ih groupId (points ++ [p]) (fun q hq => hnext q (List.mem_cons_of_mem p hq))

theorem laneLeftLoop_unexpected (groupId : Nat) (points : List Cmd.LanePoint)
    (t : Token) (rest : List Token)
    (hn : ∀ p, t ≠ .laneLeftNext p) (he : ∀ p, t ≠ .laneLeftEnd p) :
    laneLeftLoop groupId points (t :: rest) =
      .err (.semanticError (.lit "unexpected command on left lane section")) := by
  simp only [laneLeftLoop]

theorem laneCenterLoop_happy :
    ∀ (nexts : List Cmd.LanePoint) (groupId : Nat) (points : List Cmd.LanePoint)
      (endP : Cmd.LanePoint) (rest : List Token),
    (∀ p ∈ nexts, p.groupId = groupId) → endP.groupId = groupId →
    laneCenterLoop groupId points
        (nexts.map Token.laneCenterNext ++ [Token.laneCenterEnd endP] ++ rest) =
      .ok ({ groupId, points := points ++ nexts ++ [endP] }, rest) := by
  intro nexts
  induction nexts with
  | nil =>
    intro groupId points endP rest _ hend
    simp only [List.map_nil, List.nil_append, List.singleton_append, laneCenterLoop]
    have hv : verifyGroupId groupId endP.groupId = .ok () := by
      unfold verifyGroupId
      rw [if_neg (not_not_intro hend.symm)]
    rw [hv]
    simp only [Ana.PRes_bind_ok, List.append_nil]
    rfl
  | cons p nexts ih =>
    intro groupId points endP rest hnext hend
    simp only [List.map_cons, List.cons_append, laneCenterLoop]
    have hv : verifyGroupId groupId p.groupId = .ok () := by
      unfold verifyGroupId
      rw [if_neg (not_not_intro (hnext p (List.mem_cons_self p nexts)).symm)]
    rw [hv]
    simp only [Ana.PRes_bind_ok, List.append_eq]
    rw [ih groupId (points ++ [p]) endP rest
      (fun q hq => hnext q (List.mem_cons_of_mem p hq)) hend]
    simp [List.append_assoc]

theorem laneCenterLoop_exhausted :
    ∀ (nexts : List Cmd.LanePoint) (groupId : Nat) (points : List Cmd.LanePoint),
    (∀ p ∈ nexts, p.groupId = groupId) →
    laneCenterLoop groupId points (nexts.map Token.laneCenterNext) =
      .err (.semanticErrorExpectedCommand "more commands for center lane section") := by
  intro nexts
  induction nexts with
  | nil => intro groupId points _; rfl
  | cons p nexts ih =>
    intro groupId points hnext
    simp only [List.map_cons, laneCenterLoop]
    have hv : verifyGroupId groupId p.groupId = .ok () := by
      unfold verifyGroupId
      rw [if_neg (not_not_intro (hnext p (List.mem_cons_self p nexts)).symm)]
    rw [hv]
    simp only [Ana.PRes_bind_ok]
    exact ih groupId (points ++ [p]) (fun q hq => hnext q (List.mem_cons_of_mem p hq))

theorem laneCenterLoop_unexpected (groupId : Nat) (points : List Cmd.LanePoint)
    (t : Token) (rest : List Token)
    (hn : ∀ p, t ≠ .laneCenterNext p) (he : ∀ p, t ≠ .laneCenterEnd p) :
    laneCenterLoop groupId points (t :: rest) =
      .err (.semanticError (.lit "unexpected command on center lane section")) := by
  simp only [laneCenterLoop]

theorem laneRightLoop_happy :
    ∀ (nexts : List Cmd.LanePoint) (groupId : Nat) (points : List Cmd.LanePoint)
      (endP : Cmd.LanePoint) (rest : List Token),
    (∀ p ∈ nexts, p.groupId = groupId) → endP.groupId = groupId →
    laneRightLoop groupId points
        (nexts.map Token.laneRightNext ++ [Token.laneRightEnd endP] ++ rest) =
      .ok ({ groupId, points := points ++ nexts ++ [endP] }, rest) := by
  intro nexts
  induction nexts with
  | nil =>
    intro groupId points endP rest _ hend
    simp only [List.map_nil, List.nil_append, List.singleton_append, laneRightLoop]
    have hv : verifyGroupId groupId endP.groupId = .ok () := by
      unfold verifyGroupId
      rw [if_neg (not_not_intro hend.symm)]
    rw [hv]
    simp only [Ana.PRes_bind_ok, List.append_nil]
    rfl
  | cons p nexts ih =>
    intro groupId points endP rest hnext hend
    simp only [List.map_cons, List.cons_append, laneRightLoop]
    have hv : verifyGroupId groupId p.groupId = .ok () := by
      unfold verifyGroupId
      rw [if_neg (not_not_intro (hnext p (List.mem_cons_self p nexts)).symm)]
    rw [hv]
    simp only [Ana.PRes_bind_ok, List.append_eq]
    rw [ih groupId (points ++ [p]) endP rest
      (fun q hq => hnext q (List.mem_cons_of_mem p hq)) hend]
    simp [List.append_assoc]

theorem laneRightLoop_exhausted :
    ∀ (nexts : List Cmd.LanePoint) (groupId : Nat) (points : List Cmd.LanePoint),
    (∀ p ∈ nexts, p.groupId = groupId) →
    laneRightLoop groupId points (nexts.map Token.laneRightNext) =
      .err (.semanticErrorExpectedCommand "more commands for right lane section") := by
  intro nexts
  induction nexts with
  | nil => intro groupId points _; rfl
  | cons p nexts ih =>
    intro groupId points hnext
    simp only [List.map_cons, laneRightLoop]
    have hv : verifyGroupId groupId p.groupId = .ok () := by
      unfold verifyGroupId
      rw [if_neg (not_not_intro (hnext p (List.mem_cons_self p nexts)).symm)]
    rw [hv]
    simp only [Ana.PRes_bind_ok]
    exact ih groupId (points ++ [p]) (fun q hq => hnext q (List.mem_cons_of_mem p hq))

theorem laneRightLoop_unexpected (groupId : Nat) (points : List Cmd.LanePoint)
    (t : Token) (rest : List Token)
    (hn : ∀ p, t ≠ .laneRightNext p) (he : ∀ p, t ≠ .laneRightEnd p) :
    laneRightLoop groupId points (t :: rest) =
      .err (.semanticError (.lit "unexpected command on right lane section")) := by
  simp only [laneRightLoop]

theorem enemyLaneLoop_happy :
    ∀ (nexts : List Cmd.EnemyLanePoint) (groupId : Nat) (points : List Cmd.LanePoint)
      (endP : Cmd.EnemyLanePoint) (rest : List Token),
    (∀ p ∈ nexts, p.groupId = groupId) → endP.groupId = groupId →
    enemyLaneLoop groupId points
        (nexts.map Token.enemyLaneNext ++ [Token.enemyLaneEnd endP] ++ rest) =
      .ok ({ groupId
             points := points ++ nexts.map Cmd.LanePoint.ofEnemyLanePoint ++
               [Cmd.LanePoint.ofEnemyLanePoint endP] }, rest) := by
  intro nexts
  induction nexts with
  | nil =>
    intro groupId points endP rest _ hend
    simp only [List.map_nil, List.nil_append, List.singleton_append, enemyLaneLoop]
    have hv : verifyGroupId groupId endP.groupId = .ok () := by
      unfold verifyGroupId
      rw [if_neg (not_not_intro hend.symm)]
    rw [hv]
    simp only [Ana.PRes_bind_ok, List.append_nil]
    rfl
  | cons p nexts ih =>
    intro groupId points endP rest hnext hend
    simp only [List.map_cons, List.cons_append, enemyLaneLoop]
    have hv : verifyGroupId groupId p.groupId = .ok () := by
      unfold verifyGroupId
      rw [if_neg (not_not_intro (hnext p (List.mem_cons_self p nexts)).symm)]
    rw [hv]
    simp only [Ana.PRes_bind_ok, List.append_eq]
    rw [ih groupId (points ++ [Cmd.LanePoint.ofEnemyLanePoint p]) endP rest
      (fun q hq => hnext q (List.mem_cons_of_mem p hq)) hend]
    simp [List.append_assoc]

theorem enemyLaneLoop_exhausted :
    ∀ (nexts : List Cmd.EnemyLanePoint) (groupId : Nat) (points : List Cmd.LanePoint),
    (∀ p ∈ nexts, p.groupId = groupId) →
    enemyLaneLoop groupId points (nexts.map Token.enemyLaneNext) =
      .err (.semanticErrorExpectedCommand "more commands for enemy lane section") := by
  intro nexts
  induction nexts with
  | nil => intro groupId points _; rfl
  | cons p nexts ih =>
    intro groupId points hnext
    simp only [List.map_cons, enemyLaneLoop]
    have hv : verifyGroupId groupId p.groupId = .ok () := by
      unfold verifyGroupId
      rw [if_neg (not_not_intro (hnext p (List.mem_cons_self p nexts)).symm)]
    rw [hv]
    simp only [Ana.PRes_bind_ok]
    exact ih groupId (points ++ [Cmd.LanePoint.ofEnemyLanePoint p])
      (fun q hq => hnext q (List.mem_cons_of_mem p hq))

theorem enemyLaneLoop_unexpected (groupId : Nat) (points : List Cmd.LanePoint)
    (t : Token) (rest : List Token)
    (hn : ∀ p, t ≠ .enemyLaneNext p) (he : ∀ p, t ≠ .enemyLaneEnd p) :
    enemyLaneLoop groupId points (t :: rest) =
      .err (.semanticError (.lit "unexpected command on enemy lane section")) := by
  simp only [enemyLaneLoop]

end Raw

/-! ## Lexer lemmas: the version-dependent BulletPalette tail (C9) -/

theorem exceptBind_ok {ε α β : Type} (x : α) (f : α → Except ε β) :
    (Except.ok x : Except ε α) >>= f = f x := rfl

theorem exceptBind_error {ε α β : Type} (err : ε) (f : α → Except ε β) :
    (Except.error err : Except ε α) >>= f = .error err := rfl

namespace Cmd

theorem fromStr_tag (s : String) (dt : BulletDamageType) :
    BulletDamageType.fromStr s = .ok dt → s = "NML" ∨ s = "STR" ∨ s = "DNG" := by
  intro h
  unfold BulletDamageType.fromStr at h
  split at h
  · exact Or.inl rfl
  · exact Or.inr (Or.inl rfl)
  · exact Or.inr (Or.inr rfl)
  · cases h

theorem bulletPaletteTail_old (c : Cursor) (dt : BulletDamageType)
    (hdt : BulletDamageType.fromStr ((peekToken c).getD "") = .ok dt) :
    ∀ tail c', bulletPaletteTailFromCursor c = .ok (tail, c') →
    tail.1 = none ∧ tail.2.1 = none ∧ tail.2.2.1 = none ∧ ∃ d, tail.2.2.2 = some d := by
  intro tail c' h
  unfold bulletPaletteTailFromCursor at h
  simp only [hdt] at h
  cases hfc : BulletDamageType.fromCursor c with
  | ok r =>
    obtain ⟨d2, c2⟩ := r
    simp only [hfc, exceptBind_ok] at h
    cases h
    exact ⟨rfl, rfl, rfl, d2, rfl⟩
  | error e2 =>
    simp only [hfc, exceptBind_error] at h
    cases h

theorem bulletPaletteTail_new (c : Cursor) (e : LexErr)
    (hdt : BulletDamageType.fromStr ((peekToken c).getD "") = .error e) :
    ∀ tail c', bulletPaletteTailFromCursor c = .ok (tail, c') →
    (∃ s, tail.1 = some s) ∧ (∃ t, tail.2.1 = some t) ∧ (∃ r, tail.2.2.1 = some r) ∧
    tail.2.2.2 = none := by
  intro tail c' h
  unfold bulletPaletteTailFromCursor at h
  simp only [hdt] at h
  cases h1 : BulletSize.fromCursor c with
  | error e1 => simp only [h1, exceptBind_error] at h; cases h
  | ok r1 =>
    obtain ⟨size, c1⟩ := r1
    simp only [h1, exceptBind_ok] at h
    cases h2 : BulletType.fromCursor c1 with
    | error e2 => simp only [h2, exceptBind_error] at h; cases h
    | ok r2 =>
      obtain ⟨ty, c2⟩ := r2
      simp only [h2, exceptBind_ok] at h
      cases h3 : nextTokenI32Or c2 "BulletPalette random_position_offset" with
      | error e3 => simp only [h3, exceptBind_error] at h; cases h
      | ok r3 =>
        obtain ⟨rpo, c3⟩ := r3
        simp only [h3, exceptBind_ok] at h
        cases h
        exact ⟨⟨size, rfl⟩, ⟨ty, rfl⟩, ⟨rpo, rfl⟩, rfl⟩

theorem bulletPaletteTail_shape (c : Cursor) (tail : Option BulletSize × Option BulletType ×
      Option Int × Option BulletDamageType) (c' : Cursor) :
    bulletPaletteTailFromCursor c = .ok (tail, c') →
    (tail.1 = none ∧ tail.2.1 = none ∧ tail.2.2.1 = none ∧ ∃ d, tail.2.2.2 = some d) ∨
    ((∃ s, tail.1 = some s) ∧ (∃ t, tail.2.1 = some t) ∧ (∃ r, tail.2.2.1 = some r) ∧
      tail.2.2.2 = none) := by
  intro h
  cases hdt : BulletDamageType.fromStr ((peekToken c).getD "") with
  | ok dt => exact Or.inl (bulletPaletteTail_old c dt hdt tail c' h)
  | error e => exact Or.inr (bulletPaletteTail_new c e hdt tail c' h)

theorem bulletPalette_shape (c : Cursor) (p : BulletPalette) (c' : Cursor) :
    BulletPalette.fromCursor c = .ok (p, c') →
    (p.size = none ∧ p.ty = none ∧ p.randomPositionOffset = none ∧
      ∃ d, p.damageType = some d) ∨
    ((∃ s, p.size = some s) ∧ (∃ t, p.ty = some t) ∧ (∃ r, p.randomPositionOffset = some r) ∧
      p.damageType = none) := by
  intro h
  unfold BulletPalette.fromCursor at h
  cases h1 : nextTokenOr c "BulletPalette id" with
  | error e1 => simp only [h1, exceptBind_error] at h; cases h
  | ok r1 =>
    obtain ⟨id, c1⟩ := r1
    simp only [h1, exceptBind_ok] at h
    cases h2 : BulletShooter.fromCursor c1 with
    | error e2 => simp only [h2, exceptBind_error] at h; cases h
    | ok r2 =>
      obtain ⟨shooter, c2⟩ := r2
      simp only [h2, exceptBind_ok] at h
      cases h3 : nextTokenI32Or c2 "BulletPalette target_x_offset" with
      | error e3 => simp only [h3, exceptBind_error] at h; cases h
      | ok r3 =>
        obtain ⟨txo, c3⟩ := r3
        simp only [h3, exceptBind_ok] at h
        cases h4 : BulletTarget.fromCursor c3 with
        | error e4 => simp only [h4, exceptBind_error] at h; cases h
        | ok r4 =>
          obtain ⟨target, c4⟩ := r4
          simp only [h4, exceptBind_ok] at h
          cases h5 : nextTokenF32Or c4 "BulletPalette speed" with
          | error e5 => simp only [h5, exceptBind_error] at h; cases h
          | ok r5 =>
            obtain ⟨speed, c5⟩ := r5
            simp only [h5, exceptBind_ok] at h
            cases h6 : bulletPaletteTailFromCursor c5 with
            | error e6 => simp only [h6, exceptBind_error] at h; cases h
            | ok r6 =>
              obtain ⟨⟨size, ty, rpo, dtp⟩, c6⟩ := r6
              simp only [h6, exceptBind_ok] at h
              cases h
              rcases bulletPaletteTail_shape c5 (size, ty, rpo, dtp) c' h6 with
                ⟨hs, ht, hr, d, hd⟩ | ⟨⟨s2, hs⟩, ⟨t2, ht⟩, ⟨r2, hr⟩, hd⟩
              · left
                simp only at hs ht hr hd
                exact ⟨hs, ht, hr, d, hd⟩
              · right
                simp only at hs ht hr hd
                exact ⟨⟨s2, hs⟩, ⟨t2, ht⟩, ⟨r2, hr⟩, hd⟩

end Cmd

/-! # Claim theorems -/

/-- C4: for every hold interval whose binary-search-resolved
`[start_index, end_index]` range is invalid (start after end, or end out of
bounds), `create_points_within_time_interval` returns `Ok` with exactly the
two-element path `[start, end]`: no error and no interior lane points. -/
theorem C4_invalid_range_two_point_fallback (lane : Ana.Lane)
    (start endPoint : Ana.TrackPosition)
    (hinvalid : ¬((Ana.resolveStartIdx lane.points start).1 ≤
        (Ana.resolveEndIdx lane.points endPoint).1 ∧
      (Ana.resolveEndIdx lane.points endPoint).1 < lane.points.length)) :
    lane.createPointsWithinTimeInterval start endPoint = .ok [start, endPoint] := by
  simp only [Ana.Lane.createPointsWithinTimeInterval]
  rw [if_neg hinvalid]

theorem C4_invalid_range_two_point_fallback_witness :
    ¬((Ana.resolveStartIdx Fixture.laneA.points (Fixture.tpos 5 0 0)).1 ≤
        (Ana.resolveEndIdx Fixture.laneA.points (Fixture.tpos 6 0 0)).1 ∧
      (Ana.resolveEndIdx Fixture.laneA.points (Fixture.tpos 6 0 0)).1 <
        Fixture.laneA.points.length) ∧
    Fixture.laneA.createPointsWithinTimeInterval (Fixture.tpos 5 0 0) (Fixture.tpos 6 0 0) =
      .ok [Fixture.tpos 5 0 0, Fixture.tpos 6 0 0] :=
  ⟨by decide, C4_invalid_range_two_point_fallback _ _ _ (by decide)⟩

/-- C2 counterexample: a hold whose start and end times both exactly match
the time of the same lane point (indices i = j = 0, allowed by the claim's
`i ≤ j`) makes the interpolation panic (the first assertion indexes the
second element of a one-element path) instead of returning
`lane.points[0..=0]`. -/
theorem C2_counterexample_equal_indices :
    Fixture.laneA.points[0]? = some (Fixture.tpos 0 0 0) ∧
    (Fixture.tpos 0 0 0).time = (Fixture.tpos 0 0 7).time ∧
    Fixture.laneA.createPointsWithinTimeInterval (Fixture.tpos 0 0 7) (Fixture.tpos 0 0 7) =
      .panic := by
  refine ⟨rfl, rfl, ?_⟩
  decide

/-- C2 (amended: the two exact-match indices must be distinct, `i < j`; at
`i = j` the routine panics, see the counterexample): for a hold whose start
and end times exactly match the lane points at indices `i < j` of a
strictly time-sorted lane, the interpolated path is exactly
`lane.points[i..=j]`, of length `j - i + 1`, with no two adjacent equal
entries. -/
theorem C2_exact_match_slice (lane : Ana.Lane) (start endPoint : Ana.TrackPosition)
    (i j : Nat) (p1 p2 : Ana.TrackPosition)
    (hs : Ana.TimeSorted lane.points)
    (hij : i < j)
    (hgi : lane.points[i]? = some p1) (hti : p1.time = start.time)
    (hgj : lane.points[j]? = some p2) (htj : p2.time = endPoint.time) :
    lane.createPointsWithinTimeInterval start endPoint =
      .ok ((lane.points.drop i).take (j + 1 - i)) ∧
    ((lane.points.drop i).take (j + 1 - i)).length = j - i + 1 ∧
    List.Chain' (fun a b => a ≠ b) ((lane.points.drop i).take (j + 1 - i)) := by
  have hjlen : j < lane.points.length := (List.getElem?_eq_some.mp hgj).1
  have hilen : i < lane.points.length := (List.getElem?_eq_some.mp hgi).1
  have hbs1 : Ana.binarySearchByTime lane.points start.time = .found i :=
    Ana.binarySearchByTime_found_complete hs hgi hti
  have hbs2 : Ana.binarySearchByTime lane.points endPoint.time = .found j :=
    Ana.binarySearchByTime_found_complete hs hgj htj
  have hrs : Ana.resolveStartIdx lane.points start = (i, true) := by
    unfold Ana.resolveStartIdx
    rw [hbs1]
  have hre : Ana.resolveEndIdx lane.points endPoint = (j, true) := by
    unfold Ana.resolveEndIdx
    rw [hbs2]
  have hlen2 : ((lane.points.drop i).take (j + 1 - i)).length = j + 1 - i :=
    Ana.slice_length _ _ _ (by omega) hjlen
  obtain ⟨q1, hq1⟩ : ∃ q : Ana.TrackPosition, lane.points[i + 1]? = some q := by
    rw [List.getElem?_eq_getElem (by omega)]
    exact ⟨_, rfl⟩
  obtain ⟨q2, hq2⟩ : ∃ q : Ana.TrackPosition, lane.points[j - 1]? = some q := by
    rw [List.getElem?_eq_getElem (by omega)]
    exact ⟨_, rfl⟩
  have e0 : ((lane.points.drop i).take (j + 1 - i))[0]? = some p1 := by
    rw [Ana.slice_getElem? lane.points i (j + 1 - i) 0 (by omega)]
    simpa using hgi
  have e1 : ((lane.points.drop i).take (j + 1 - i))[1]? = some q1 := by
    rw [Ana.slice_getElem? lane.points i (j + 1 - i) 1 (by omega)]
    exact hq1
  have eL2 : ((lane.points.drop i).take (j + 1 - i))[j + 1 - i - 2]? = some q2 := by
    rw [Ana.slice_getElem? lane.points i (j + 1 - i) (j + 1 - i - 2) (by omega)]
    have harith : i + (j + 1 - i - 2) = j - 1 := by omega
    rw [harith]
    exact hq2
  have eL1 : ((lane.points.drop i).take (j + 1 - i))[j + 1 - i - 1]? = some p2 := by
    rw [Ana.slice_getElem? lane.points i (j + 1 - i) (j + 1 - i - 1) (by omega)]
    have harith : i + (j + 1 - i - 1) = j := by omega
    rw [harith]
    exact hgj
  have hne01 : p1 ≠ q1 := Ana.timeSorted_distinct hs hgi hq1 (by omega)
  have hneL : q2 ≠ p2 := Ana.timeSorted_distinct hs hq2 hgj (by omega)
  have hchain : List.Chain' (fun a b => a ≠ b) ((lane.points.drop i).take (j + 1 - i)) := by
    have hps : ((lane.points.drop i).take (j + 1 - i)).Pairwise
        (fun a b => Ana.timeLt a.time b.time) :=
      hs.sublist (Ana.slice_sublist _ _ _)
    exact (hps.imp (fun h he =>
      Ana.timeLt_ne h (congrArg Ana.TrackPosition.time he))).chain'
  have hres : Ana.interpolationResult lane start endPoint =
      (lane.points.drop i).take (j + 1 - i) := by
    simp only [Ana.interpolationResult, hrs, hre, if_true, List.nil_append, List.append_nil]
  refine ⟨?_, by omega, hchain⟩
  simp only [Ana.Lane.createPointsWithinTimeInterval, hrs, hre]
  rw [if_pos (⟨(by omega : i ≤ j), hjlen⟩ : i ≤ j ∧ j < lane.points.length)]
  rw [hres, hlen2, e0, e1, eL2, eL1]
  rw [Ana.assertNePair_true hne01, Ana.assertNePair_true hneL]
  rfl

theorem C2_exact_match_slice_witness :
    Ana.TimeSorted Fixture.laneA.points ∧
    Fixture.laneA.createPointsWithinTimeInterval (Fixture.tpos 0 0 0) (Fixture.tpos 1 0 2) =
      .ok ((Fixture.laneA.points.drop 0).take 2) :=
  ⟨by decide,
    (C2_exact_match_slice Fixture.laneA (Fixture.tpos 0 0 0) (Fixture.tpos 1 0 2)
      0 1 (Fixture.tpos 0 0 0) (Fixture.tpos 1 0 2) (by decide) (by decide)
      rfl rfl rfl rfl).1⟩

/-- C3 counterexample: a hold whose resolved range is valid
(`start_index = end_index = 1 < 3`) but whose start and end both exactly
match the same lane point: the boundary assertion indexes past the
one-element path and the routine panics, so on this input the claim's
"the two boundary assertions never fail" part is false. -/
theorem C3_counterexample_degenerate_exact :
    Ana.resolveStartIdx Fixture.laneB.points (Fixture.tpos 1 0 9) = (1, true) ∧
    Ana.resolveEndIdx Fixture.laneB.points (Fixture.tpos 1 0 9) = (1, true) ∧
    Fixture.laneB.points.length = 3 ∧
    Fixture.laneB.createPointsWithinTimeInterval (Fixture.tpos 1 0 9) (Fixture.tpos 1 0 9) =
      .panic := by
  refine ⟨?_, ?_, rfl, ?_⟩ <;> decide

/-- C3 (amended: excluding the degenerate case in which both searches are
exact at the same index, where the routine panics — see the counterexample):
for a strictly time-sorted lane and a valid resolved range, the returned
path begins with the synthesized start when the start search was inexact,
ends with the synthesized end when the end search was inexact, and its
first two elements differ, as do its last two (the boundary assertions
pass). -/
theorem C3_synthesis_boundary_distinct (lane : Ana.Lane) (start endPoint : Ana.TrackPosition)
    (hs : Ana.TimeSorted lane.points)
    (hvalid1 : (Ana.resolveStartIdx lane.points start).1 ≤
      (Ana.resolveEndIdx lane.points endPoint).1)
    (hvalid2 : (Ana.resolveEndIdx lane.points endPoint).1 < lane.points.length)
    (hdeg : ¬((Ana.resolveStartIdx lane.points start).2 = true ∧
      (Ana.resolveEndIdx lane.points endPoint).2 = true ∧
      (Ana.resolveStartIdx lane.points start).1 = (Ana.resolveEndIdx lane.points endPoint).1)) :
    ∃ path, lane.createPointsWithinTimeInterval start endPoint = .ok path ∧
      2 ≤ path.length ∧
      ((Ana.resolveStartIdx lane.points start).2 = false → path.head? = some start) ∧
      ((Ana.resolveEndIdx lane.points endPoint).2 = false → path.getLast? = some endPoint) ∧
      (∃ a b, path[0]? = some a ∧ path[1]? = some b ∧ a ≠ b) ∧
      (∃ c d, path[path.length - 2]? = some c ∧ path[path.length - 1]? = some d ∧ c ≠ d) := by
  obtain ⟨si, sx, hrs⟩ : ∃ si sx, Ana.resolveStartIdx lane.points start = (si, sx) :=
    ⟨_, _, rfl⟩
  obtain ⟨ei, ex, hre⟩ : ∃ ei ex, Ana.resolveEndIdx lane.points endPoint = (ei, ex) :=
    ⟨_, _, rfl⟩
  rw [hrs] at hvalid1 hdeg ⊢
  rw [hre] at hvalid1 hvalid2 hdeg ⊢
  have hv1 : si ≤ ei := hvalid1
  have hv2 : ei < lane.points.length := hvalid2
  have hlenS : ((lane.points.drop si).take (ei + 1 - si)).length = ei + 1 - si :=
    Ana.slice_length _ _ _ hv1 hv2
  obtain ⟨psi, hpsi⟩ : ∃ q : Ana.TrackPosition, lane.points[si]? = some q := by
    rw [List.getElem?_eq_getElem (by omega)]
    exact ⟨_, rfl⟩
  obtain ⟨pei, hpei⟩ : ∃ q : Ana.TrackPosition, lane.points[ei]? = some q := by
    rw [List.getElem?_eq_getElem (by omega)]
    exact ⟨_, rfl⟩
  have e_first : ((lane.points.drop si).take (ei + 1 - si))[0]? = some psi := by
    rw [Ana.slice_getElem? lane.points si (ei + 1 - si) 0 (by omega)]
    simpa using hpsi
  have e_last : ((lane.points.drop si).take (ei + 1 - si))[ei - si]? = some pei := by
    rw [Ana.slice_getElem? lane.points si (ei + 1 - si) (ei - si) (by omega)]
    have harith : si + (ei - si) = ei := by omega
    rw [harith]
    exact hpei
  have hcond : (si ≤ ei ∧ ei < lane.points.length) := ⟨hv1, hv2⟩
  cases sx with
  | false =>
    have habsS : ∀ (i : Nat) (p : Ana.TrackPosition), lane.points[i]? = some p →
        p.time ≠ start.time :=
      Ana.binarySearchByTime_notFound_absent hs (Ana.resolveStartIdx_inexact hrs)
    have hneS : start ≠ psi := fun he => habsS si psi hpsi (congrArg Ana.TrackPosition.time he.symm)
    cases ex with
    | false =>
      -- synthesized on both sides
      obtain ⟨idx, hbsE⟩ := Ana.resolveEndIdx_inexact hre
      have habsE : ∀ (i : Nat) (p : Ana.TrackPosition), lane.points[i]? = some p →
          p.time ≠ endPoint.time :=
        Ana.binarySearchByTime_notFound_absent hs hbsE
      have hneE : pei ≠ endPoint := fun he => habsE ei pei hpei (congrArg Ana.TrackPosition.time he)
      have hresult : Ana.interpolationResult lane start endPoint =
          start :: ((lane.points.drop si).take (ei + 1 - si) ++ [endPoint]) := by
        simp [Ana.interpolationResult, hrs, hre]
      set slice := (lane.points.drop si).take (ei + 1 - si) with hslice
      set path := start :: (slice ++ [endPoint]) with hpath
      have hplen : path.length = slice.length + 2 := by
        rw [hpath]
        simp only [List.length_cons, List.length_append, List.length_nil]
      have p0 : path[0]? = some start := by
        rw [hpath]
        simp
      have p1 : path[1]? = some psi := by
        rw [hpath, List.getElem?_cons_succ, Ana.append_one_getElem?_lt _ _ _ (by omega)]
        exact e_first
      have pL2 : path[path.length - 2]? = some pei := by
        have h2 : path.length - 2 = (ei - si) + 1 := by omega
        rw [h2, hpath, List.getElem?_cons_succ, Ana.append_one_getElem?_lt _ _ _ (by omega)]
        exact e_last
      have pL1 : path[path.length - 1]? = some endPoint := by
        have h1 : path.length - 1 = slice.length + 1 := by omega
        rw [h1, hpath, List.getElem?_cons_succ, Ana.append_one_getElem?_last]
      have hok : lane.createPointsWithinTimeInterval start endPoint = .ok path := by
        simp only [Ana.Lane.createPointsWithinTimeInterval, hrs, hre]
        rw [if_pos hcond, hresult]
        rw [p0, p1, pL2, pL1]
        rw [Ana.assertNePair_true hneS, Ana.assertNePair_true hneE]
        rfl
      refine ⟨path, hok, by omega, fun _ => ?_, fun _ => ?_, ⟨start, psi, p0, p1, hneS⟩,
        ⟨pei, endPoint, pL2, pL1, hneE⟩⟩
      · rw [hpath]
        rfl
      · rw [hpath, show start :: (slice ++ [endPoint]) = (start :: slice) ++ [endPoint] from rfl]
        exact Ana.getLast?_append_one _ _
    | true =>
      -- synthesized start, exact end
      have hresult : Ana.interpolationResult lane start endPoint =
          start :: (lane.points.drop si).take (ei + 1 - si) := by
        simp [Ana.interpolationResult, hrs, hre]
      set slice := (lane.points.drop si).take (ei + 1 - si) with hslice
      set path := start :: slice with hpath
      have hplen : path.length = slice.length + 1 := by
        rw [hpath]
        simp
      have p0 : path[0]? = some start := by
        rw [hpath]
        simp
      have p1 : path[1]? = some psi := by
        rw [hpath, List.getElem?_cons_succ]
        exact e_first
      have pL1 : path[path.length - 1]? = some pei := by
        have h1 : path.length - 1 = (ei - si) + 1 := by omega
        rw [h1, hpath, List.getElem?_cons_succ]
        exact e_last
      rcases Nat.lt_or_ge si ei with hsiei | hsiei
      · -- at least two lane points in the slice
        obtain ⟨pe1, hpe1⟩ : ∃ q : Ana.TrackPosition, lane.points[ei - 1]? = some q := by
          rw [List.getElem?_eq_getElem (by omega)]
          exact ⟨_, rfl⟩
        have pL2 : path[path.length - 2]? = some pe1 := by
          have h2 : path.length - 2 = (ei - si - 1) + 1 := by omega
          rw [h2, hpath, List.getElem?_cons_succ,
            Ana.slice_getElem? lane.points si (ei + 1 - si) (ei - si - 1) (by omega)]
          have harith : si + (ei - si - 1) = ei - 1 := by omega
          rw [harith]
          exact hpe1
        have hneL : pe1 ≠ pei := Ana.timeSorted_distinct hs hpe1 hpei (by omega)
        have hok : lane.createPointsWithinTimeInterval start endPoint = .ok path := by
          simp only [Ana.Lane.createPointsWithinTimeInterval, hrs, hre]
          rw [if_pos hcond, hresult]
          rw [p0, p1, pL2, pL1]
          rw [Ana.assertNePair_true hneS, Ana.assertNePair_true hneL]
          rfl
        refine ⟨path, hok, by omega, fun _ => ?_, fun h => absurd h (by simp),
          ⟨start, psi, p0, p1, hneS⟩, ⟨pe1, pei, pL2, pL1, hneL⟩⟩
        rw [hpath]
        rfl
      · -- si = ei: the slice is the single point psi
        have hsieq : si = ei := by omega
        subst hsieq
        have hpp : psi = pei := by
          rw [hpsi] at hpei
          cases hpei
          rfl
        have pL2 : path[path.length - 2]? = some start := by
          have h2 : path.length - 2 = 0 := by omega
          rw [h2]
          exact p0
        have pL1' : path[path.length - 1]? = some psi := by
          rw [pL1, hpp]
        have hok : lane.createPointsWithinTimeInterval start endPoint = .ok path := by
          simp only [Ana.Lane.createPointsWithinTimeInterval, hrs, hre]
          rw [if_pos hcond, hresult]
          rw [p0, p1, pL2, pL1']
          rw [Ana.assertNePair_true hneS]
          rfl
        refine ⟨path, hok, by omega, fun _ => ?_, fun h => absurd h (by simp),
          ⟨start, psi, p0, p1, hneS⟩, ⟨start, psi, pL2, pL1', hneS⟩⟩
        rw [hpath]
        rfl
  | true =>
    cases ex with
    | false =>
      -- exact start, synthesized end
      obtain ⟨idx, hbsE⟩ := Ana.resolveEndIdx_inexact hre
      have habsE : ∀ (i : Nat) (p : Ana.TrackPosition), lane.points[i]? = some p →
          p.time ≠ endPoint.time :=
        Ana.binarySearchByTime_notFound_absent hs hbsE
      have hneE : pei ≠ endPoint := fun he => habsE ei pei hpei (congrArg Ana.TrackPosition.time he)
      have hresult : Ana.interpolationResult lane start endPoint =
          (lane.points.drop si).take (ei + 1 - si) ++ [endPoint] := by
        simp [Ana.interpolationResult, hrs, hre]
      set slice := (lane.points.drop si).take (ei + 1 - si) with hslice
      set path := slice ++ [endPoint] with hpath
      have hplen : path.length = slice.length + 1 := by
        rw [hpath]
        simp
      have p0 : path[0]? = some psi := by
        rw [hpath, Ana.append_one_getElem?_lt _ _ _ (by omega)]
        exact e_first
      have pL2 : path[path.length - 2]? = some pei := by
        have h2 : path.length - 2 = ei - si := by omega
        rw [h2, hpath, Ana.append_one_getElem?_lt _ _ _ (by omega)]
        exact e_last
      have pL1 : path[path.length - 1]? = some endPoint := by
        have h1 : path.length - 1 = slice.length := by omega
        rw [h1, hpath, Ana.append_one_getElem?_last]
      rcases Nat.lt_or_ge si ei with hsiei | hsiei
      · obtain ⟨ps1, hps1⟩ : ∃ q : Ana.TrackPosition, lane.points[si + 1]? = some q := by
          rw [List.getElem?_eq_getElem (by omega)]
          exact ⟨_, rfl⟩
        have p1 : path[1]? = some ps1 := by
          rw [hpath, Ana.append_one_getElem?_lt _ _ _ (by omega),
            Ana.slice_getElem? lane.points si (ei + 1 - si) 1 (by omega)]
          exact hps1
        have hne01 : psi ≠ ps1 := Ana.timeSorted_distinct hs hpsi hps1 (by omega)
        have hok : lane.createPointsWithinTimeInterval start endPoint = .ok path := by
          simp only [Ana.Lane.createPointsWithinTimeInterval, hrs, hre]
          rw [if_pos hcond, hresult]
          rw [p0, p1, pL2, pL1]
          rw [Ana.assertNePair_true hne01, Ana.assertNePair_true hneE]
          rfl
        refine ⟨path, hok, by omega, fun h => absurd h (by simp), fun _ => ?_,
          ⟨psi, ps1, p0, p1, hne01⟩, ⟨pei, endPoint, pL2, pL1, hneE⟩⟩
        rw [hpath]
        exact Ana.getLast?_append_one _ _
      · -- si = ei: path is [psi, endPoint]
        have hsieq : si = ei := by omega
        subst hsieq
        have hpp : psi = pei := by
          rw [hpsi] at hpei
          cases hpei
          rfl
        have p1 : path[1]? = some endPoint := by
          have h1 : path[1]? = path[path.length - 1]? := by
            rw [hplen, hlenS]
            have : si + 1 - si = 1 := by omega
            rw [this]
          rw [h1, pL1]
        have hne01 : psi ≠ endPoint := fun he => habsE si psi hpsi
          (congrArg Ana.TrackPosition.time he)
        have hok : lane.createPointsWithinTimeInterval start endPoint = .ok path := by
          simp only [Ana.Lane.createPointsWithinTimeInterval, hrs, hre]
          rw [if_pos hcond, hresult]
          rw [p0, p1, pL2, pL1]
          rw [Ana.assertNePair_true hne01, Ana.assertNePair_true hneE]
          rfl
        refine ⟨path, hok, by omega, fun h => absurd h (by simp), fun _ => ?_,
          ⟨psi, endPoint, p0, p1, hne01⟩, ⟨pei, endPoint, pL2, pL1, hneE⟩⟩
        rw [hpath]
        exact Ana.getLast?_append_one _ _
    | true =>
      -- both exact: the amendment rules out si = ei, so the slice has ≥ 2 points
      have hsiei : si < ei := by
        rcases Nat.lt_or_ge si ei with h | h
        · exact h
        · exact absurd ⟨rfl, rfl, by omega⟩ hdeg
      have hresult : Ana.interpolationResult lane start endPoint =
          (lane.points.drop si).take (ei + 1 - si) := by
        simp [Ana.interpolationResult, hrs, hre]
      set slice := (lane.points.drop si).take (ei + 1 - si) with hslice
      obtain ⟨ps1, hps1⟩ : ∃ q : Ana.TrackPosition, lane.points[si + 1]? = some q := by
        rw [List.getElem?_eq_getElem (by omega)]
        exact ⟨_, rfl⟩
      obtain ⟨pe1, hpe1⟩ : ∃ q : Ana.TrackPosition, lane.points[ei - 1]? = some q := by
        rw [List.getElem?_eq_getElem (by omega)]
        exact ⟨_, rfl⟩
      have p0 : slice[0]? = some psi := e_first
      have p1 : slice[1]? = some ps1 := by
        rw [hslice, Ana.slice_getElem? lane.points si (ei + 1 - si) 1 (by omega)]
        exact hps1
      have pL2 : slice[slice.length - 2]? = some pe1 := by
        have h2 : slice.length - 2 = ei - si - 1 := by omega
        rw [h2, hslice, Ana.slice_getElem? lane.points si (ei + 1 - si) (ei - si - 1) (by omega)]
        have harith : si + (ei - si - 1) = ei - 1 := by omega
        rw [harith]
        exact hpe1
      have pL1 : slice[slice.length - 1]? = some pei := by
        have h1 : slice.length - 1 = ei - si := by omega
        rw [h1]
        exact e_last
      have hne01 : psi ≠ ps1 := Ana.timeSorted_distinct hs hpsi hps1 (by omega)
      have hneL : pe1 ≠ pei := Ana.timeSorted_distinct hs hpe1 hpei (by omega)
      have hok : lane.createPointsWithinTimeInterval start endPoint = .ok slice := by
        simp only [Ana.Lane.createPointsWithinTimeInterval, hrs, hre]
        rw [if_pos hcond, hresult]
        rw [p0, p1, pL2, pL1]
        rw [Ana.assertNePair_true hne01, Ana.assertNePair_true hneL]
        rfl
      exact ⟨slice, hok, by omega, fun h => absurd h (by simp), fun h => absurd h (by simp),
        ⟨psi, ps1, p0, p1, hne01⟩, ⟨pe1, pei, pL2, pL1, hneL⟩⟩


theorem C3_synthesis_boundary_distinct_witness :
    Ana.TimeSorted Fixture.laneA.points ∧
    (Ana.resolveStartIdx Fixture.laneA.points (Fixture.tpos 0 5 1)).1 ≤
      (Ana.resolveEndIdx Fixture.laneA.points (Fixture.tpos 1 5 1)).1 ∧
    (Ana.resolveEndIdx Fixture.laneA.points (Fixture.tpos 1 5 1)).1 <
      Fixture.laneA.points.length ∧
    (∃ path, Fixture.laneA.createPointsWithinTimeInterval (Fixture.tpos 0 5 1)
        (Fixture.tpos 1 5 1) = .ok path ∧
      2 ≤ path.length ∧
      ((Ana.resolveStartIdx Fixture.laneA.points (Fixture.tpos 0 5 1)).2 = false →
        path.head? = some (Fixture.tpos 0 5 1)) ∧
      ((Ana.resolveEndIdx Fixture.laneA.points (Fixture.tpos 1 5 1)).2 = false →
        path.getLast? = some (Fixture.tpos 1 5 1)) ∧
      (∃ a b, path[0]? = some a ∧ path[1]? = some b ∧ a ≠ b) ∧
      (∃ c d, path[path.length - 2]? = some c ∧ path[path.length - 1]? = some d ∧ c ≠ d)) :=
  ⟨by decide, by decide, by decide,
    C3_synthesis_boundary_distinct Fixture.laneA (Fixture.tpos 0 5 1) (Fixture.tpos 1 5 1)
      (by decide) (by decide) (by decide) (by decide)⟩

/-- C1 counterexample: two well-formed lane sections share group id 1; the
resolved lookup maps id 1 to the entity built from the SECOND (last)
occurrence, not the first, even though the first occurrence resolves to a
distinct entity. -/
theorem C1_counterexample_first_occurrence_overwritten :
    Fixture.sectionA.groupId = Fixture.sectionB.groupId ∧
    Ana.Lane.fromLaneSection Fixture.sectionA .left = .ok Fixture.laneFromSectionA ∧
    Fixture.laneFromSectionA ≠ Fixture.laneFromSectionB ∧
    Ana.Track.mapLanes [Fixture.sectionA, Fixture.sectionB] .left =
      .ok ([(({ measure := 0, beatOffset := 0 } : Ana.TimingPoint),
             [({ id := 1 } : Ana.LaneId)])],
           [(({ id := 1 } : Ana.LaneId), Fixture.laneFromSectionB)]) ∧
    alLookup [(({ id := 1 } : Ana.LaneId), Fixture.laneFromSectionB)] { id := 1 } =
      some Fixture.laneFromSectionB := by
  refine ⟨rfl, by decide, by decide, by decide, by decide⟩

/-- C1 (amended: the resolved lookup keeps the entity built from the LAST
occurrence of a duplicated id, not the first; the `HashMap::insert` in each
indexing fold replaces the earlier entry after logging the diagnostic): for
every list of raw sections fed to resolution indexing — lanes, walls,
colorful lanes, beams, oblique beams — whose sections all have at least two
points, resolution succeeds, and the `(id -> entity)` lookup maps each id to
the entity built from the last section in the list carrying that id (the
first match in the reversed list). -/
theorem C1_duplicate_ids_last_wins
    (laneSections : List Raw.LaneSection) (wallSections : List Raw.WallSection)
    (colorfulSections : List Raw.ColorfulLaneSection) (beamSections : List Raw.BeamSection)
    (obliqueSections : List Raw.ObliqueBeamSection) (laneType wallType : Ana.LaneType)
    (hl : ∀ s ∈ laneSections, s.points.length ≥ 2)
    (hw : ∀ s ∈ wallSections, s.points.length ≥ 2)
    (hc : ∀ s ∈ colorfulSections, s.points.length ≥ 2)
    (hb : ∀ s ∈ beamSections, s.points.length ≥ 2)
    (ho : ∀ s ∈ obliqueSections, s.points.length ≥ 2) :
    (∃ r, Ana.Track.mapLanes laneSections laneType = .ok r ∧
      ∀ (id : Ana.LaneId) (s0 : Raw.LaneSection),
        laneSections.reverse.find?
            (fun s => decide (({ id := s.groupId } : Ana.LaneId) = id)) = some s0 →
        alLookup r.2 id =
          some { id := { id := s0.groupId }, laneType
                 points := s0.points.map Ana.TrackPosition.fromLanePoint }) ∧
    (∃ r, Ana.Track.mapWalls wallSections wallType = .ok r ∧
      ∀ (id : Ana.LaneId) (s0 : Raw.WallSection),
        wallSections.reverse.find?
            (fun s => decide (({ id := s.groupId } : Ana.LaneId) = id)) = some s0 →
        alLookup r.2 id =
          some { id := { id := s0.groupId }, laneType := wallType
                 points := s0.points.map Ana.TrackPosition.fromWallPoint }) ∧
    (∃ r, Ana.Track.mapColorfulLanes colorfulSections = .ok r ∧
      ∀ (id : Ana.ColorfulLaneId) (s0 : Raw.ColorfulLaneSection),
        colorfulSections.reverse.find?
            (fun s => decide (({ id := s.groupId } : Ana.ColorfulLaneId) = id)) = some s0 →
        ∃ lane, Ana.ColorfulLane.fromSection s0 = .ok lane ∧ alLookup r.2 id = some lane) ∧
    (∃ r, Ana.Track.mapBeams beamSections = .ok r ∧
      ∀ (id : Ana.BeamId) (s0 : Raw.BeamSection),
        beamSections.reverse.find?
            (fun s => decide (({ id := s.recordId } : Ana.BeamId) = id)) = some s0 →
        ∃ beam, Ana.Beam.fromSection s0 = .ok beam ∧ alLookup r.2 id = some beam) ∧
    (∃ r, Ana.Track.mapObliqueBeams obliqueSections = .ok r ∧
      ∀ (id : Ana.ObliqueBeamId) (s0 : Raw.ObliqueBeamSection),
        obliqueSections.reverse.find?
            (fun s => decide (({ id := s.recordId } : Ana.ObliqueBeamId) = id)) = some s0 →
        ∃ beam, Ana.ObliqueBeam.fromSection s0 = .ok beam ∧ alLookup r.2 id = some beam) :=
  ⟨Ana.mapLanes_last_wins laneSections laneType hl,
   Ana.mapWalls_last_wins wallSections wallType hw,
   Ana.mapColorfulLanes_last_wins colorfulSections hc,
   Ana.mapBeams_last_wins beamSections hb,
   Ana.mapObliqueBeams_last_wins obliqueSections ho⟩

theorem C1_duplicate_ids_last_wins_witness :
    (∃ r, Ana.Track.mapLanes [Fixture.sectionA, Fixture.sectionB] .left = .ok r ∧
      ∀ (id : Ana.LaneId) (s0 : Raw.LaneSection),
        [Fixture.sectionA, Fixture.sectionB].reverse.find?
            (fun s => decide (({ id := s.groupId } : Ana.LaneId) = id)) = some s0 →
        alLookup r.2 id =
          some { id := { id := s0.groupId }, laneType := .left
                 points := s0.points.map Ana.TrackPosition.fromLanePoint }) ∧
    (∃ r, Ana.Track.mapWalls [Fixture.wallSectionA, Fixture.wallSectionB] .wallLeft
        = .ok r ∧
      ∀ (id : Ana.LaneId) (s0 : Raw.WallSection),
        [Fixture.wallSectionA, Fixture.wallSectionB].reverse.find?
            (fun s => decide (({ id := s.groupId } : Ana.LaneId) = id)) = some s0 →
        alLookup r.2 id =
          some { id := { id := s0.groupId }, laneType := .wallLeft
                 points := s0.points.map Ana.TrackPosition.fromWallPoint }) ∧
    (∃ r, Ana.Track.mapColorfulLanes [Fixture.colorfulSectionA] = .ok r ∧
      ∀ (id : Ana.ColorfulLaneId) (s0 : Raw.ColorfulLaneSection),
        [Fixture.colorfulSectionA].reverse.find?
            (fun s => decide (({ id := s.groupId } : Ana.ColorfulLaneId) = id)) = some s0 →
        ∃ lane, Ana.ColorfulLane.fromSection s0 = .ok lane ∧ alLookup r.2 id = some lane) ∧
    (∃ r, Ana.Track.mapBeams [Fixture.beamSectionA] = .ok r ∧
      ∀ (id : Ana.BeamId) (s0 : Raw.BeamSection),
        [Fixture.beamSectionA].reverse.find?
            (fun s => decide (({ id := s.recordId } : Ana.BeamId) = id)) = some s0 →
        ∃ beam, Ana.Beam.fromSection s0 = .ok beam ∧ alLookup r.2 id = some beam) ∧
    (∃ r, Ana.Track.mapObliqueBeams [Fixture.obliqueSectionA] = .ok r ∧
      ∀ (id : Ana.ObliqueBeamId) (s0 : Raw.ObliqueBeamSection),
        [Fixture.obliqueSectionA].reverse.find?
            (fun s => decide (({ id := s.recordId } : Ana.ObliqueBeamId) = id)) = some s0 →
        ∃ beam, Ana.ObliqueBeam.fromSection s0 = .ok beam ∧ alLookup r.2 id = some beam) :=
  C1_duplicate_ids_last_wins [Fixture.sectionA, Fixture.sectionB]
    [Fixture.wallSectionA, Fixture.wallSectionB] [Fixture.colorfulSectionA]
    [Fixture.beamSectionA] [Fixture.obliqueSectionA] .left .wallLeft
    (by decide) (by decide) (by decide) (by decide) (by decide)

/-- C5 (code bug): on the empty chart source, tokenization and raw parsing
succeed with typed results, but semantic resolution PANICS instead of
returning a typed error: the chart declares no left-wall and no right-wall
section, so `ExtraMetadata::new` calls `last_key_value().unwrap()` on an
empty wall map. -/
theorem C5_empty_chart_wall_unwrap_panic :
    tokenize "" = .ok [] ∧
    Raw.parseTokens [] = .ok {} ∧
    parseRawOgkr {} = .panic :=
  ⟨rfl, rfl, by decide⟩

/-- C6 counterexample (hold clause): a hold list whose second entry cites the
undeclared lane id 99 does NOT yield the semantic error naming it, because an
earlier hold on a declared lane panics in interpolation first. -/
theorem C6_counterexample_hold_panic_preempts_error :
    Fixture.trackA.getLane { id := Fixture.holdMissing.laneGroupId } = none ∧
    Ana.Notes.mapHoldNotes [Fixture.holdPanic, Fixture.holdMissing] Fixture.trackA false =
      .panic :=
  ⟨by decide, by decide⟩

/-- C6 (amended: for holds the semantic error is only guaranteed up to an
earlier interpolation panic — resolution then returns a semantic error naming
some offending hold, or panics; see the counterexample): a tap citing an
unresolved lane id makes tap resolution return the semantic error naming an
offending tap; likewise for bullets citing an unknown palette id; and the
concrete chart `src6` (`BPM_DEF ...\nTAP 1 0 0 0 0` with lane 1 undeclared)
tokenizes and raw-parses successfully but fails resolution with the semantic
error naming its tap. -/
theorem C6_reference_integrity :
    (∀ (taps : List Cmd.Tap) (track : Ana.Track) (isCritical : Bool),
      (∃ tap ∈ taps, track.getLane { id := tap.laneGroupId } = none) →
      ∃ t ∈ taps, track.getLane { id := t.laneGroupId } = none ∧
        Ana.Notes.mapTapNotes taps track isCritical =
          .err (.semanticError (.tapInvalidLane t))) ∧
    (∀ (holds : List Cmd.Hold) (track : Ana.Track) (isCritical : Bool),
      (∃ hold ∈ holds, track.getLane { id := hold.laneGroupId } = none) →
      (∃ h ∈ holds, track.getLane { id := h.laneGroupId } = none ∧
        Ana.Notes.mapHoldNotes holds track isCritical =
          .err (.semanticError (.holdInvalidLane h))) ∨
      Ana.Notes.mapHoldNotes holds track isCritical = .panic) ∧
    (∀ (palettes : List Cmd.BulletPalette) (bullets : List Cmd.Bullet),
      (∃ b ∈ bullets, alContainsKey (Ana.buildPaletteList palettes)
        (Ana.Bullet.ofCommand b).paletteId = false) →
      ∃ b ∈ bullets, alContainsKey (Ana.buildPaletteList palettes)
          (Ana.Bullet.ofCommand b).paletteId = false ∧
        Ana.Bullets.fromRaw palettes bullets =
          .err (.semanticError (.bulletInvalidPalette (Ana.Bullet.ofCommand b)))) ∧
    (tokenize Fixture.src6 = .ok Fixture.toks6 ∧
     Raw.parseTokens Fixture.toks6 = .ok Fixture.raw6 ∧
     parseRawOgkr Fixture.raw6 = .err (.semanticError (.tapInvalidLane Fixture.tap6))) := by
  refine ⟨?_, ?_, ?_, by decide, by decide, by decide⟩
  · intro taps track isCritical hex
    exact Ana.mapTapGo track isCritical taps [] hex
  · intro holds track isCritical hex
    exact Ana.mapHoldGo track isCritical holds [] hex
  · intro palettes bullets hex
    obtain ⟨b, hb, habs, hfold⟩ :=
      Ana.bulletsGo (Ana.buildPaletteList palettes) bullets [] hex
    refine ⟨b, hb, habs, ?_⟩
    simp only [Ana.Bullets.fromRaw]
    rw [hfold]
    simp only [Ana.PRes_bind_err]

theorem C6_reference_integrity_witness :
    (∃ t ∈ [Fixture.tapMissing], Fixture.trackA.getLane { id := t.laneGroupId } = none ∧
      Ana.Notes.mapTapNotes [Fixture.tapMissing] Fixture.trackA false =
        .err (.semanticError (.tapInvalidLane t))) ∧
    ((∃ h ∈ [Fixture.holdMissing],
        Fixture.trackA.getLane { id := h.laneGroupId } = none ∧
        Ana.Notes.mapHoldNotes [Fixture.holdMissing] Fixture.trackA false =
          .err (.semanticError (.holdInvalidLane h))) ∨
      Ana.Notes.mapHoldNotes [Fixture.holdMissing] Fixture.trackA false = .panic) ∧
    (∃ b ∈ [Fixture.bulletMissing], alContainsKey (Ana.buildPaletteList [])
        (Ana.Bullet.ofCommand b).paletteId = false ∧
      Ana.Bullets.fromRaw [] [Fixture.bulletMissing] =
        .err (.semanticError (.bulletInvalidPalette (Ana.Bullet.ofCommand b)))) :=
  ⟨C6_reference_integrity.1 [Fixture.tapMissing] Fixture.trackA false
      ⟨Fixture.tapMissing, by decide, by decide⟩,
   C6_reference_integrity.2.1 [Fixture.holdMissing] Fixture.trackA false
      ⟨Fixture.holdMissing, by decide, by decide⟩,
   C6_reference_integrity.2.2.1 [] [Fixture.bulletMissing]
      ⟨Fixture.bulletMissing, by decide, by decide⟩⟩

/-- C7: a wall-left section whose Next or End token carries a group id
different from the Start token's id yields the "different group ids"
semantic error immediately; and every successful wall-left section parse
yields a section whose every point carries the Start token's group id — a
merged section of mixed group ids is impossible. -/
theorem C7_group_id_mismatch_error :
    (∀ (first p : Cmd.WallPoint) (rest : List Token), p.groupId ≠ first.groupId →
      Raw.WallSection.wallLeftFromCommands (Token.wallLeftNext p :: rest) first =
        .err (.semanticError (.lit "different group ids for consequetive section")) ∧
      Raw.WallSection.wallLeftFromCommands (Token.wallLeftEnd p :: rest) first =
        .err (.semanticError (.lit "different group ids for consequetive section"))) ∧
    (∀ (commands : List Token) (first : Cmd.WallPoint) (s : Raw.WallSection)
        (rest' : List Token),
      Raw.WallSection.wallLeftFromCommands commands first = .ok (s, rest') →
      s.groupId = first.groupId ∧ ∀ p ∈ s.points, p.groupId = first.groupId) := by
  constructor
  · intro first p rest hne
    exact ⟨Raw.wallLeft_mismatch_next first p rest (Ne.symm hne),
           Raw.wallLeft_mismatch_end first p rest (Ne.symm hne)⟩
  · intro commands first s rest' h
    obtain ⟨hsg, hpts⟩ :=
      Raw.wallLeftLoop_ok_groupIds commands first.groupId [first] s rest' h
    refine ⟨hsg, fun q hq => ?_⟩
    rcases hpts q hq with hmem | hgid
    · rw [List.mem_singleton.mp hmem]
    · exact hgid

theorem C7_group_id_mismatch_error_witness :
    (Fixture.wallPt2.groupId ≠ Fixture.wallPt1.groupId ∧
     Raw.WallSection.wallLeftFromCommands [Token.wallLeftNext Fixture.wallPt2]
         Fixture.wallPt1 =
       .err (.semanticError (.lit "different group ids for consequetive section")) ∧
     Raw.WallSection.wallLeftFromCommands [Token.wallLeftEnd Fixture.wallPt2]
         Fixture.wallPt1 =
       .err (.semanticError (.lit "different group ids for consequetive section"))) ∧
    (Raw.WallSection.wallLeftFromCommands [Token.wallLeftEnd Fixture.wallPt1b]
         Fixture.wallPt1 =
       .ok ({ groupId := 1, points := [Fixture.wallPt1, Fixture.wallPt1b] }, []) ∧
     ({ groupId := 1, points := [Fixture.wallPt1, Fixture.wallPt1b] } :
        Raw.WallSection).groupId = Fixture.wallPt1.groupId ∧
     ∀ p ∈ ({ groupId := 1, points := [Fixture.wallPt1, Fixture.wallPt1b] } :
        Raw.WallSection).points, p.groupId = Fixture.wallPt1.groupId) :=
  ⟨⟨by decide,
    (C7_group_id_mismatch_error.1 Fixture.wallPt1 Fixture.wallPt2 [] (by decide)).1,
    (C7_group_id_mismatch_error.1 Fixture.wallPt1 Fixture.wallPt2 [] (by decide)).2⟩,
   by decide,
   C7_group_id_mismatch_error.2 [Token.wallLeftEnd Fixture.wallPt1b] Fixture.wallPt1
     { groupId := 1, points := [Fixture.wallPt1, Fixture.wallPt1b] } [] (by decide)⟩

/-- C8: for each of the four lane-section kinds (left, center, right, enemy):
a Start point followed by any number of matching Next tokens and a matching
End token, all with the Start's group id, parses to exactly one section whose
point list is in source order with length 1 + #Nexts + 1, leaving the
trailing tokens unconsumed; any other token kind before the End yields the
"unexpected command" semantic error; and exhausting the stream before the End
yields the distinct "expected more commands" error. -/
theorem C8_section_contiguity :
    (∀ (first : Cmd.LanePoint) (nexts : List Cmd.LanePoint) (endP : Cmd.LanePoint)
        (rest : List Token),
      (∀ p ∈ nexts, p.groupId = first.groupId) → endP.groupId = first.groupId →
      Raw.LaneSection.laneLeftFromCommands
          (nexts.map Token.laneLeftNext ++ [Token.laneLeftEnd endP] ++ rest) first =
        .ok ({ groupId := first.groupId, points := first :: (nexts ++ [endP]) }, rest) ∧
      (first :: (nexts ++ [endP])).length = nexts.length + 2) ∧
    (∀ (first : Cmd.LanePoint) (nexts : List Cmd.LanePoint),
      (∀ p ∈ nexts, p.groupId = first.groupId) →
      Raw.LaneSection.laneLeftFromCommands (nexts.map Token.laneLeftNext) first =
        .err (.semanticErrorExpectedCommand "more commands for left lane section")) ∧
    (∀ (first : Cmd.LanePoint) (t : Token) (rest : List Token),
      (∀ p, t ≠ .laneLeftNext p) → (∀ p, t ≠ .laneLeftEnd p) →
      Raw.LaneSection.laneLeftFromCommands (t :: rest) first =
        .err (.semanticError (.lit "unexpected command on left lane section"))) ∧
    (∀ (first : Cmd.LanePoint) (nexts : List Cmd.LanePoint) (endP : Cmd.LanePoint)
        (rest : List Token),
      (∀ p ∈ nexts, p.groupId = first.groupId) → endP.groupId = first.groupId →
      Raw.LaneSection.laneCenterFromCommands
          (nexts.map Token.laneCenterNext ++ [Token.laneCenterEnd endP] ++ rest) first =
        .ok ({ groupId := first.groupId, points := first :: (nexts ++ [endP]) }, rest)) ∧
    (∀ (first : Cmd.LanePoint) (nexts : List Cmd.LanePoint),
      (∀ p ∈ nexts, p.groupId = first.groupId) →
      Raw.LaneSection.laneCenterFromCommands (nexts.map Token.laneCenterNext) first =
        .err (.semanticErrorExpectedCommand "more commands for center lane section")) ∧
    (∀ (first : Cmd.LanePoint) (t : Token) (rest : List Token),
      (∀ p, t ≠ .laneCenterNext p) → (∀ p, t ≠ .laneCenterEnd p) →
      Raw.LaneSection.laneCenterFromCommands (t :: rest) first =
        .err (.semanticError (.lit "unexpected command on center lane section"))) ∧
    (∀ (first : Cmd.LanePoint) (nexts : List Cmd.LanePoint) (endP : Cmd.LanePoint)
        (rest : List Token),
      (∀ p ∈ nexts, p.groupId = first.groupId) → endP.groupId = first.groupId →
      Raw.LaneSection.laneRightFromCommands
          (nexts.map Token.laneRightNext ++ [Token.laneRightEnd endP] ++ rest) first =
        .ok ({ groupId := first.groupId, points := first :: (nexts ++ [endP]) }, rest)) ∧
    (∀ (first : Cmd.LanePoint) (nexts : List Cmd.LanePoint),
      (∀ p ∈ nexts, p.groupId = first.groupId) →
      Raw.LaneSection.laneRightFromCommands (nexts.map Token.laneRightNext) first =
        .err (.semanticErrorExpectedCommand "more commands for right lane section")) ∧
    (∀ (first : Cmd.LanePoint) (t : Token) (rest : List Token),
      (∀ p, t ≠ .laneRightNext p) → (∀ p, t ≠ .laneRightEnd p) →
      Raw.LaneSection.laneRightFromCommands (t :: rest) first =
        .err (.semanticError (.lit "unexpected command on right lane section"))) ∧
    (∀ (first : Cmd.EnemyLanePoint) (nexts : List Cmd.EnemyLanePoint)
        (endP : Cmd.EnemyLanePoint) (rest : List Token),
      (∀ p ∈ nexts, p.groupId = first.groupId) → endP.groupId = first.groupId →
      Raw.LaneSection.enemyLaneFromCommands
          (nexts.map Token.enemyLaneNext ++ [Token.enemyLaneEnd endP] ++ rest) first =
        .ok ({ groupId := first.groupId
               points := (first :: (nexts ++ [endP])).map Cmd.LanePoint.ofEnemyLanePoint },
             rest)) ∧
    (∀ (first : Cmd.EnemyLanePoint) (nexts : List Cmd.EnemyLanePoint),
      (∀ p ∈ nexts, p.groupId = first.groupId) →
      Raw.LaneSection.enemyLaneFromCommands (nexts.map Token.enemyLaneNext) first =
        .err (.semanticErrorExpectedCommand "more commands for enemy lane section")) ∧
    (∀ (first : Cmd.EnemyLanePoint) (t : Token) (rest : List Token),
      (∀ p, t ≠ .enemyLaneNext p) → (∀ p, t ≠ .enemyLaneEnd p) →
      Raw.LaneSection.enemyLaneFromCommands (t :: rest) first =
        .err (.semanticError (.lit "unexpected command on enemy lane section"))) := by
  refine ⟨?_, ?_, ?_, ?_, ?_, ?_, ?_, ?_, ?_, ?_, ?_, ?_⟩
  · intro first nexts endP rest hnext hend
    constructor
    · unfold Raw.LaneSection.laneLeftFromCommands
      rw [Raw.laneLeftLoop_happy nexts first.groupId [first] endP rest hnext hend]
      simp
    · simp only [List.length_cons, List.length_append, List.length_nil]
  · intro first nexts hnext
    exact Raw.laneLeftLoop_exhausted nexts first.groupId [first] hnext
  · intro first t rest hn he
    exact Raw.laneLeftLoop_unexpected first.groupId [first] t rest hn he
  · intro first nexts endP rest hnext hend
    unfold Raw.LaneSection.laneCenterFromCommands
    rw [Raw.laneCenterLoop_happy nexts first.groupId [first] endP rest hnext hend]
    simp
  · intro first nexts hnext
    exact Raw.laneCenterLoop_exhausted nexts first.groupId [first] hnext
  · intro first t rest hn he
    exact Raw.laneCenterLoop_unexpected first.groupId [first] t rest hn he
  · intro first nexts endP rest hnext hend
    unfold Raw.LaneSection.laneRightFromCommands
    rw [Raw.laneRightLoop_happy nexts first.groupId [first] endP rest hnext hend]
    simp
  · intro first nexts hnext
    exact Raw.laneRightLoop_exhausted nexts first.groupId [first] hnext
  · intro first t rest hn he
    exact Raw.laneRightLoop_unexpected first.groupId [first] t rest hn he
  · intro first nexts endP rest hnext hend
    unfold Raw.LaneSection.enemyLaneFromCommands
    rw [Raw.enemyLaneLoop_happy nexts first.groupId
      [Cmd.LanePoint.ofEnemyLanePoint first] endP rest hnext hend]
    simp
  · intro first nexts hnext
    exact Raw.enemyLaneLoop_exhausted nexts first.groupId
      [Cmd.LanePoint.ofEnemyLanePoint first] hnext
  · intro first t rest hn he
    exact Raw.enemyLaneLoop_unexpected first.groupId
      [Cmd.LanePoint.ofEnemyLanePoint first] t rest hn he

theorem C8_section_contiguity_witness :
    (Raw.LaneSection.laneLeftFromCommands
        ([Fixture.lanePt1b].map Token.laneLeftNext ++ [Token.laneLeftEnd Fixture.lanePt1c]
          ++ [Token.sectionName]) Fixture.lanePt1a =
      .ok ({ groupId := Fixture.lanePt1a.groupId
             points := Fixture.lanePt1a :: ([Fixture.lanePt1b] ++ [Fixture.lanePt1c]) },
           [Token.sectionName]) ∧
     (Fixture.lanePt1a :: ([Fixture.lanePt1b] ++ [Fixture.lanePt1c])).length =
       [Fixture.lanePt1b].length + 2) ∧
    Raw.LaneSection.laneLeftFromCommands ([Fixture.lanePt1b].map Token.laneLeftNext)
        Fixture.lanePt1a =
      .err (.semanticErrorExpectedCommand "more commands for left lane section") ∧
    Raw.LaneSection.laneLeftFromCommands [Token.sectionName] Fixture.lanePt1a =
      .err (.semanticError (.lit "unexpected command on left lane section")) ∧
    Raw.LaneSection.laneCenterFromCommands
        ([Fixture.lanePt1b].map Token.laneCenterNext ++ [Token.laneCenterEnd Fixture.lanePt1c]
          ++ []) Fixture.lanePt1a =
      .ok ({ groupId := Fixture.lanePt1a.groupId
             points := Fixture.lanePt1a :: ([Fixture.lanePt1b] ++ [Fixture.lanePt1c]) }, []) ∧
    Raw.LaneSection.laneCenterFromCommands ([Fixture.lanePt1b].map Token.laneCenterNext)
        Fixture.lanePt1a =
      .err (.semanticErrorExpectedCommand "more commands for center lane section") ∧
    Raw.LaneSection.laneCenterFromCommands [Token.sectionName] Fixture.lanePt1a =
      .err (.semanticError (.lit "unexpected command on center lane section")) ∧
    Raw.LaneSection.laneRightFromCommands
        ([Fixture.lanePt1b].map Token.laneRightNext ++ [Token.laneRightEnd Fixture.lanePt1c]
          ++ []) Fixture.lanePt1a =
      .ok ({ groupId := Fixture.lanePt1a.groupId
             points := Fixture.lanePt1a :: ([Fixture.lanePt1b] ++ [Fixture.lanePt1c]) }, []) ∧
    Raw.LaneSection.laneRightFromCommands ([Fixture.lanePt1b].map Token.laneRightNext)
        Fixture.lanePt1a =
      .err (.semanticErrorExpectedCommand "more commands for right lane section") ∧
    Raw.LaneSection.laneRightFromCommands [Token.sectionName] Fixture.lanePt1a =
      .err (.semanticError (.lit "unexpected command on right lane section")) ∧
    Raw.LaneSection.enemyLaneFromCommands
        ([Fixture.enemyPt1b].map Token.enemyLaneNext ++ [Token.enemyLaneEnd Fixture.enemyPt1a]
          ++ []) Fixture.enemyPt1a =
      .ok ({ groupId := Fixture.enemyPt1a.groupId
             points := (Fixture.enemyPt1a :: ([Fixture.enemyPt1b] ++ [Fixture.enemyPt1a])).map
               Cmd.LanePoint.ofEnemyLanePoint }, []) ∧
    Raw.LaneSection.enemyLaneFromCommands ([Fixture.enemyPt1b].map Token.enemyLaneNext)
        Fixture.enemyPt1a =
      .err (.semanticErrorExpectedCommand "more commands for enemy lane section") ∧
    Raw.LaneSection.enemyLaneFromCommands [Token.sectionName] Fixture.enemyPt1a =
      .err (.semanticError (.lit "unexpected command on enemy lane section")) :=
  ⟨C8_section_contiguity.1 Fixture.lanePt1a [Fixture.lanePt1b] Fixture.lanePt1c
      [Token.sectionName] (by decide) (by decide),
   C8_section_contiguity.2.1 Fixture.lanePt1a [Fixture.lanePt1b] (by decide),
   C8_section_contiguity.2.2.1 Fixture.lanePt1a Token.sectionName []
      (by intro p h; cases h) (by intro p h; cases h),
   C8_section_contiguity.2.2.2.1 Fixture.lanePt1a [Fixture.lanePt1b] Fixture.lanePt1c
      [] (by decide) (by decide),
   C8_section_contiguity.2.2.2.2.1 Fixture.lanePt1a [Fixture.lanePt1b] (by decide),
   C8_section_contiguity.2.2.2.2.2.1 Fixture.lanePt1a Token.sectionName []
      (by intro p h; cases h) (by intro p h; cases h),
   C8_section_contiguity.2.2.2.2.2.2.1 Fixture.lanePt1a [Fixture.lanePt1b] Fixture.lanePt1c
      [] (by decide) (by decide),
   C8_section_contiguity.2.2.2.2.2.2.2.1 Fixture.lanePt1a [Fixture.lanePt1b] (by decide),
   C8_section_contiguity.2.2.2.2.2.2.2.2.1 Fixture.lanePt1a Token.sectionName []
      (by intro p h; cases h) (by intro p h; cases h),
   C8_section_contiguity.2.2.2.2.2.2.2.2.2.1 Fixture.enemyPt1a [Fixture.enemyPt1b]
      Fixture.enemyPt1a [] (by decide) (by decide),
   C8_section_contiguity.2.2.2.2.2.2.2.2.2.2.1 Fixture.enemyPt1a [Fixture.enemyPt1b]
      (by decide),
   C8_section_contiguity.2.2.2.2.2.2.2.2.2.2.2 Fixture.enemyPt1a Token.sectionName []
      (by intro p h; cases h) (by intro p h; cases h)⟩

/-- C9: `BulletDamageType::from_str` accepts exactly the tags NML, STR and
DNG; when the peeked token after a BPL head parses as such a tag the palette
tail is decoded in the old one-field shape (damage type set, size / bullet
type / random offset all absent), otherwise in the new three-field shape
(size, bullet type and random offset set, damage type absent); and every
successfully decoded palette has exactly one of the two shapes. -/
theorem C9_bullet_palette_tail_dichotomy :
    (Cmd.BulletDamageType.fromStr "NML" = .ok .normal ∧
     Cmd.BulletDamageType.fromStr "STR" = .ok .hard ∧
     Cmd.BulletDamageType.fromStr "DNG" = .ok .danger ∧
     ∀ (s : String) (dt : Cmd.BulletDamageType),
       Cmd.BulletDamageType.fromStr s = .ok dt → s = "NML" ∨ s = "STR" ∨ s = "DNG") ∧
    (∀ (c : Cursor) (dt : Cmd.BulletDamageType),
      Cmd.BulletDamageType.fromStr ((peekToken c).getD "") = .ok dt →
      ∀ tail c', Cmd.bulletPaletteTailFromCursor c = .ok (tail, c') →
        tail.1 = none ∧ tail.2.1 = none ∧ tail.2.2.1 = none ∧ ∃ d, tail.2.2.2 = some d) ∧
    (∀ (c : Cursor) (e : LexErr),
      Cmd.BulletDamageType.fromStr ((peekToken c).getD "") = .error e →
      ∀ tail c', Cmd.bulletPaletteTailFromCursor c = .ok (tail, c') →
        (∃ s, tail.1 = some s) ∧ (∃ t, tail.2.1 = some t) ∧ (∃ r, tail.2.2.1 = some r) ∧
        tail.2.2.2 = none) ∧
    (∀ (c : Cursor) (p : Cmd.BulletPalette) (c' : Cursor),
      Cmd.BulletPalette.fromCursor c = .ok (p, c') →
      (p.size = none ∧ p.ty = none ∧ p.randomPositionOffset = none ∧
        ∃ d, p.damageType = some d) ∨
      ((∃ s, p.size = some s) ∧ (∃ t, p.ty = some t) ∧
        (∃ r, p.randomPositionOffset = some r) ∧ p.damageType = none)) :=
  ⟨⟨rfl, rfl, rfl, Cmd.fromStr_tag⟩, Cmd.bulletPaletteTail_old, Cmd.bulletPaletteTail_new,
   Cmd.bulletPalette_shape⟩

theorem C9_bullet_palette_tail_dichotomy_witness :
    Cmd.bulletPaletteTailFromCursor "NML".data =
      .ok ((none, none, none, some .normal), []) ∧
    Cmd.bulletPaletteTailFromCursor "N CIR 5".data =
      .ok ((some .normal, some .circle, some 5, none), []) ∧
    Cmd.BulletPalette.fromCursor "pal UPS 0 PLR 1 NML".data =
      .ok (Fixture.palOld, []) ∧
    ((Fixture.palOld.size = none ∧ Fixture.palOld.ty = none ∧
      Fixture.palOld.randomPositionOffset = none ∧
      ∃ d, Fixture.palOld.damageType = some d) ∨
     ((∃ s, Fixture.palOld.size = some s) ∧ (∃ t, Fixture.palOld.ty = some t) ∧
      (∃ r, Fixture.palOld.randomPositionOffset = some r) ∧
      Fixture.palOld.damageType = none)) :=
  ⟨by decide, by decide, by decide,
   C9_bullet_palette_tail_dichotomy.2.2.2 ("pal UPS 0 PLR 1 NML".data) Fixture.palOld []
     (by decide)⟩

/-- C10: the BLT decoder reads only palette id, time and x position and
hard-codes `damage_type = Normal`; resolution (`Bullet::from`) copies that
value through unchanged, so every resolved bullet has damage type Normal. -/
theorem C10_bullet_damage_type_always_normal :
    ∀ (c : Cursor) (b : Cmd.Bullet) (c' : Cursor),
      Cmd.Bullet.fromCursor c = .ok (b, c') →
      b.damageType = .normal ∧ (Ana.Bullet.ofCommand b).damageType = .normal := by
  intro c b c' h
  unfold Cmd.Bullet.fromCursor at h
  cases h1 : nextTokenOr c "Bullet pallete_id" with
  | error e1 => simp only [h1, exceptBind_error] at h; cases h
  | ok r1 =>
    obtain ⟨pid, c1⟩ := r1
    simp only [h1, exceptBind_ok] at h
    cases h2 : Cmd.CommandTime.fromCursor c1 "Bullet time" with
    | error e2 => simp only [h2, exceptBind_error] at h; cases h
    | ok r2 =>
      obtain ⟨time, c2⟩ := r2
      simp only [h2, exceptBind_ok] at h
      cases h3 : nextTokenI32Or c2 "Bullet x_position" with
      | error e3 => simp only [h3, exceptBind_error] at h; cases h
      | ok r3 =>
        obtain ⟨x, c3⟩ := r3
        simp only [h3, exceptBind_ok] at h
        cases h
        exact ⟨rfl, rfl⟩

theorem C10_bullet_damage_type_always_normal_witness :
    Cmd.Bullet.fromCursor "pal 2 3 4".data = .ok (Fixture.blt1, []) ∧
    (Fixture.blt1.damageType = .normal ∧
     (Ana.Bullet.ofCommand Fixture.blt1).damageType = .normal) :=
  ⟨by decide,
   C10_bullet_damage_type_always_normal ("pal 2 3 4".data) Fixture.blt1 [] (by decide)⟩

end Ogkr
